import Mathlib

/-!
# ai-content-tracker: ledger, ownership registry, orchestrator

A shallow embedding of `src/payment/GMPayer.js`, `src/ownership/ERC8004Tracker.js`,
`src/orchestrator/X402Orchestrator.js`, `src/ai/MockAIGenerator.js` and of the
`ai-content-generation` workflow registered by `demo.js` and `src/server.js`.

Modelling conventions

* A JavaScript `Map` with string keys is an insertion-ordered association
  list (`JSMap`): `set` on an existing key replaces the value in place, `set`
  on a new key appends at the end.
* JavaScript numbers are IEEE 754 binary64 values (`JSNum`): a finite number is
  carried by the rational it equals, and the result of `+` and `-` is the exact
  result rounded to the nearest binary64 value, ties to even (`JSNum.ofRat`).
* A property read on an object literal (`this.rates[serviceType]`) follows the
  prototype chain, so it can also produce a member of `Object.prototype`
  (`JSValue.object`).
* A plain object that is assigned to (`job.results`, the count objects of `getStats`) is
  the list of its own properties in creation order (`JSObject`); assigning `__proto__`
  creates no own property, and enumeration puts array-index keys first.
* Clock readings (`Date.now()`, `new Date()`) and `Math.random()` are inputs.
* A workflow step is a function of the payload, the results object and the state of the
  components it closes over, and it leaves a results object and a component state; one
  job runs at a time.  A thrown `Error` is identified with
  what determines its message.
* A method that contains no write is a function of the state.
* A throwing method returns the error together with the state it leaves
  behind; `console.log` output is not modelled.
-/

namespace ContentTracker

/-! ## JavaScript `Map` -/

/-- Insertion-ordered association list standing for a JavaScript `Map` with string keys. -/
abbrev JSMap (ν : Type) := List (String × ν)

namespace JSMap

/-- The method `Map.prototype.get`; `none` stands for `undefined`. -/
def get {ν : Type} : JSMap ν → String → Option ν
  | [], _ => none
  | (k', v) :: rest, k => if k' = k then some v else get rest k

/-- The method `Map.prototype.set`: replace in place, or append a new key at the end. -/
def set {ν : Type} : JSMap ν → String → ν → JSMap ν
  | [], k, v => [(k, v)]
  | (k', v') :: rest, k, v => if k' = k then (k, v) :: rest else (k', v') :: set rest k v

/-- The method `Map.prototype.has`. -/
def has {ν : Type} (m : JSMap ν) (k : String) : Bool := (m.get k).isSome

/-- The values of the map in insertion order (`Array.from(map.values())`). -/
def values {ν : Type} (m : JSMap ν) : List ν := m.map Prod.snd

/-- The keys of the map in insertion order (`Array.from(map.keys())`). -/
def keys {ν : Type} (m : JSMap ν) : List String := m.map Prod.fst

/-- The property `Map.prototype.size`. -/
def size {ν : Type} (m : JSMap ν) : Nat := m.length

end JSMap

/-! ## JavaScript numbers -/

/-- JavaScript number, an IEEE 754 binary64 value: a finite value, carried by the rational
it equals, `NaN`, or an infinity.  The two zeros are not told apart: the program never
divides, and every read of a stored balance goes through `|| 0`. -/
inductive JSNum where
  | fin (q : ℚ)
  | nan
  | inf (negative : Bool)
  deriving DecidableEq, Repr

/-- The integer nearest to `n / d`, a tie going to the even neighbour. -/
def roundHalfEven (n d : Nat) : Nat :=
  if 2 * (n % d) < d then n / d
  else if d < 2 * (n % d) then n / d + 1
  else if n / d % 2 = 0 then n / d
  else n / d + 1

/-- The position of the leading binary digit of `n` (0 for `n < 2`); `fuel` bounds the
number of halvings and is taken to be `n`. -/
def floorLog2 : Nat → Nat → Nat
  | 0, _ => 0
  | fuel + 1, n => if n < 2 then 0 else floorLog2 fuel (n / 2) + 1

/-- The binary exponent of the positive rational `n / d`: the `e` with
`2^e ≤ n / d < 2^(e+1)`. -/
def binaryExponent (n d : Nat) : Int :=
  let k : Int := (floorLog2 n n : Int) - (floorLog2 d d : Int)
  if 0 ≤ k then (if d * 2 ^ k.toNat ≤ n then k else k - 1)
  else (if d ≤ n * 2 ^ (-k).toNat then k else k - 1)

/-- The binary64 value nearest to the positive rational `n / d`, ties to even.  The unit
in the last place is `2^p` with `p = max e (-1022) - 52` (53 significant bits, subnormals
below `2^-1022`); the significand is `n / d / 2^p` rounded to an integer; a result of
`2^1024` or more is `Infinity`. -/
def roundPos (n d : Nat) : JSNum :=
  let p : Int := max (binaryExponent n d) (-1022) - 52
  if 0 ≤ p then
    (if 2 ^ 1024 ≤ roundHalfEven n (d * 2 ^ p.toNat) * 2 ^ p.toNat then JSNum.inf false
     else JSNum.fin ((roundHalfEven n (d * 2 ^ p.toNat) * 2 ^ p.toNat : Nat) : ℚ))
  else
    JSNum.fin (((roundHalfEven (n * 2 ^ (-p).toNat) d : Nat) : ℚ) / ((2 ^ (-p).toNat : Nat) : ℚ))

namespace JSNum

/-- Unary minus. -/
def neg : JSNum → JSNum
  | fin q => fin (-q)
  | nan => nan
  | inf negative => inf (!negative)

/-- The number a real value becomes: the nearest binary64 value, ties to even.  It is
the value of a numeric literal and of the exact result of an arithmetic operation. -/
def ofRat (q : ℚ) : JSNum :=
  if q = 0 then fin 0
  else if 0 < q then roundPos q.num.natAbs q.den
  else (roundPos q.num.natAbs q.den).neg

/-- Truthiness (`ToBoolean`) of a number: `0` and `NaN` are falsy. -/
def truthy : JSNum → Bool
  | fin q => decide (q ≠ 0)
  | nan => false
  | inf _ => true

/-- The finite value of a number, a number that is not finite counting as 0. -/
def toRat : JSNum → ℚ
  | fin q => q
  | nan => 0
  | inf _ => 0

end JSNum

/-- The sum `a + b` of two numbers: the exact sum, rounded. -/
def addNum : JSNum → JSNum → JSNum
  | JSNum.fin a, JSNum.fin b => JSNum.ofRat (a + b)
  | JSNum.fin _, JSNum.nan => JSNum.nan
  | JSNum.fin _, JSNum.inf t => JSNum.inf t
  | JSNum.nan, _ => JSNum.nan
  | JSNum.inf _, JSNum.nan => JSNum.nan
  | JSNum.inf s, JSNum.fin _ => JSNum.inf s
  | JSNum.inf s, JSNum.inf t => if s = t then JSNum.inf s else JSNum.nan

/-- The difference `a - b` of two numbers: the exact difference, rounded. -/
def subNum : JSNum → JSNum → JSNum
  | JSNum.fin a, JSNum.fin b => JSNum.ofRat (a - b)
  | JSNum.fin _, JSNum.nan => JSNum.nan
  | JSNum.fin _, JSNum.inf t => JSNum.inf (!t)
  | JSNum.nan, _ => JSNum.nan
  | JSNum.inf _, JSNum.nan => JSNum.nan
  | JSNum.inf s, JSNum.fin _ => JSNum.inf s
  | JSNum.inf s, JSNum.inf t => if s = t then JSNum.nan else JSNum.inf s

/-- The comparison `a < b`: false whenever an operand is `NaN`. -/
def ltNum : JSNum → JSNum → Bool
  | JSNum.fin a, JSNum.fin b => decide (a < b)
  | JSNum.fin _, JSNum.nan => false
  | JSNum.fin _, JSNum.inf t => !t
  | JSNum.nan, _ => false
  | JSNum.inf _, JSNum.nan => false
  | JSNum.inf s, JSNum.fin _ => s
  | JSNum.inf s, JSNum.inf t => s && !t

/-- The comparison `a >= b`: false whenever an operand is `NaN`. -/
def geNum : JSNum → JSNum → Bool
  | JSNum.fin a, JSNum.fin b => decide (b ≤ a)
  | JSNum.fin _, JSNum.nan => false
  | JSNum.fin _, JSNum.inf t => t
  | JSNum.nan, _ => false
  | JSNum.inf _, JSNum.nan => false
  | JSNum.inf s, JSNum.fin _ => !s
  | JSNum.inf s, JSNum.inf t => !s || t

/-- The expression `x || 0` for `x` a number or `undefined`: `undefined`, `NaN` and `0`
are falsy, so the result is never `NaN`. -/
def orZero : Option JSNum → JSNum
  | some x => if x.truthy then x else JSNum.fin 0
  | none => JSNum.fin 0

/-! ## JavaScript values -/

/-- The values a property read on the rate table can produce. -/
inductive JSValue where
  | number (x : JSNum)
  | undefined
  | object (label : String)
  deriving DecidableEq, Repr

namespace JSValue

/-- Truthiness (`ToBoolean`): `0`, `NaN` and `undefined` are falsy, every object is
truthy. -/
def truthy : JSValue → Bool
  | number x => x.truthy
  | undefined => false
  | object _ => true

/-- Numeric coercion (`ToNumber`): `undefined` and the members of `Object.prototype`
(functions, and the prototype object itself) all coerce to `NaN`. -/
def toNumber : JSValue → JSNum
  | number x => x
  | undefined => JSNum.nan
  | object _ => JSNum.nan

end JSValue

/-- Property names every object literal inherits from `Object.prototype`. -/
def objectPrototypeKeys : List String :=
  ["constructor", "hasOwnProperty", "isPrototypeOf", "propertyIsEnumerable",
   "toLocaleString", "toString", "valueOf", "__proto__",
   "__defineGetter__", "__defineSetter__", "__lookupGetter__", "__lookupSetter__"]

/-! ## JavaScript plain objects -/

/-- Decimal value of a digit character. -/
def digitValue (c : Char) : Option Nat :=
  if 48 ≤ c.toNat ∧ c.toNat ≤ 57 then some (c.toNat - 48) else none

/-- Decimal value of a string of digits, most significant first. -/
def decimalValue : List Char → Nat → Option Nat
  | [], acc => some acc
  | c :: cs, acc =>
    match digitValue c with
    | some d => decimalValue cs (10 * acc + d)
    | none => none

/-- The numeric value of a property key that is an array index: a canonical decimal
numeral (no leading zero) below `2^32 - 1`. -/
def arrayIndexValue (key : String) : Option Nat :=
  match key.data with
  | [] => none
  | [c] => digitValue c
  | c :: cs =>
    if c = '0' then none
    else
      match decimalValue (c :: cs) 0 with
      | some n => if n < 4294967295 then some n else none
      | none => none

/-- Whether a property key is an array index. -/
def isArrayIndex (key : String) : Bool := (arrayIndexValue key).isSome

/-- The outcome of a property read `o[key]` on a plain object. -/
inductive PropertyRead (ν : Type) where
  | own (value : ν)
  | inherited
  | undefined
  deriving DecidableEq, Repr

/-- The own properties of a plain object (`{}` and what is assigned to it), in creation
order.  Its prototype stays `Object.prototype` unless `__proto__` is assigned an object;
the prototype slot is not tracked. -/
structure JSObject (ν : Type) where
  props : JSMap ν
  deriving DecidableEq, Repr

namespace JSObject

/-- The object literal `{}`. -/
def empty {ν : Type} : JSObject ν := { props := [] }

/-- The assignment `o[key] = value`: an existing own property keeps its place, a new one
is created last; `__proto__` is the inherited accessor, so assigning it creates no own
property. -/
def assign {ν : Type} (o : JSObject ν) (key : String) (value : ν) : JSObject ν :=
  if key = "__proto__" then o else { props := o.props.set key value }

/-- Own-property lookup. -/
def get {ν : Type} (o : JSObject ν) (key : String) : Option ν := o.props.get key

/-- The property read `o[key]`: an own property, else a member of `Object.prototype`,
else `undefined`. -/
def read {ν : Type} (o : JSObject ν) (key : String) : PropertyRead ν :=
  match o.props.get key with
  | some v => PropertyRead.own v
  | none => if key ∈ objectPrototypeKeys then PropertyRead.inherited else PropertyRead.undefined

/-- The own properties in enumeration order (`Object.keys`, `JSON.stringify`): array
indices in ascending numeric order first, then the other keys in creation order. -/
def entries {ν : Type} (o : JSObject ν) : List (String × ν) :=
  List.insertionSort (fun a b => (arrayIndexValue a.1).getD 0 ≤ (arrayIndexValue b.1).getD 0)
      (o.props.filter (fun p => isArrayIndex p.1))
    ++ o.props.filter (fun p => !isArrayIndex p.1)

/-- The own keys in enumeration order (`Object.keys(o)`). -/
def keys {ν : Type} (o : JSObject ν) : List String := o.entries.map Prod.fst

end JSObject

/-! ## GMPayer -/

/-- Opaque request metadata attached to a transaction. -/
abbrev Metadata := List (String × String)

/-- Transaction object built by `processPayment`. -/
structure Transaction where
  id : String
  userId : String
  serviceType : String
  amount : JSValue
  status : String
  timestamp : Nat
  metadata : Metadata
  deriving DecidableEq, Repr

/-- Errors thrown by `GMPayer.processPayment`. -/
inductive PaymentError where
  | unknownServiceType (serviceType : String)
  | insufficientBalance (required : JSValue) (available : JSNum)
  deriving DecidableEq, Repr

deriving instance DecidableEq for Except

/-- The mutable fields of a `GMPayer` instance. -/
structure GMPayer where
  transactions : JSMap Transaction
  balances : JSMap JSNum
  deriving DecidableEq, Repr

/-- What the environment supplies to one `processPayment` call: `Date.now()`, the
fragment `Math.random().toString(36).substr(2, 9)`, and the later `new Date()`. -/
structure PaymentEnv where
  now : Nat
  random : String
  date : Nat
  deriving DecidableEq, Repr

namespace GMPayer

/-- The constructor: both maps empty. -/
def new : GMPayer := { transactions := [], balances := [] }

/-- Own properties of the object literal `this.rates`; each literal is the binary64 value
nearest to it. -/
def rateTable : List (String × JSNum) :=
  [("text-generation", JSNum.ofRat 0.05), ("image-generation", JSNum.ofRat 0.25),
   ("audio-generation", JSNum.ofRat 0.15), ("video-generation", JSNum.ofRat 1.00)]

/-- The property read `this.rates[serviceType]`: an own property, else an inherited
member of `Object.prototype`, else `undefined`. -/
def rates (serviceType : String) : JSValue :=
  match rateTable.lookup serviceType with
  | some r => JSValue.number r
  | none =>
    if serviceType ∈ objectPrototypeKeys then JSValue.object ("Object.prototype." ++ serviceType)
    else JSValue.undefined

/-- The method `initializeUserBalance(userId, amount)`.  The default `amount = 10.00` only
applies when the argument is omitted; every caller passes it, and so does this embedding. -/
def initializeUserBalance (s : GMPayer) (userId : String) (amount : JSNum) : GMPayer :=
  { s with balances := s.balances.set userId amount }

/-- The method `generateTransactionId()`. -/
def generateTransactionId (env : PaymentEnv) : String :=
  "gmp_" ++ toString env.now ++ "_" ++ env.random

/-- The method `processPayment(userId, serviceType, metadata)`. -/
def processPayment (s : GMPayer) (env : PaymentEnv) (userId serviceType : String)
    (metadata : Metadata) : Except PaymentError Transaction × GMPayer :=
  let transactionId := generateTransactionId env
  let rate := rates serviceType
  if !rate.truthy then
    (Except.error (PaymentError.unknownServiceType serviceType), s)
  else
    let userBalance := orZero (s.balances.get userId)
    if ltNum userBalance rate.toNumber then
      (Except.error (PaymentError.insufficientBalance rate userBalance), s)
    else
      let balances := s.balances.set userId (subNum userBalance rate.toNumber)
      let transaction : Transaction :=
        { id := transactionId
          userId := userId
          serviceType := serviceType
          amount := rate
          status := "completed"
          timestamp := env.date
          metadata := metadata }
      (Except.ok transaction,
        { transactions := s.transactions.set transactionId transaction, balances := balances })

/-- The method `getBalance(userId)`. -/
def getBalance (s : GMPayer) (userId : String) : JSNum :=
  orZero (s.balances.get userId)

/-- The method `addFunds(userId, amount)`. -/
def addFunds (s : GMPayer) (userId : String) (amount : JSNum) : GMPayer :=
  let currentBalance := orZero (s.balances.get userId)
  { s with balances := s.balances.set userId (addNum currentBalance amount) }

/-- The method `getTransactionHistory(userId)`: the logged transactions of the user,
stably sorted by `(a, b) => b.timestamp - a.timestamp`.  It builds a new array and
writes nothing. -/
def getTransactionHistory (s : GMPayer) (userId : String) : List Transaction :=
  List.insertionSort (fun a b => b.timestamp ≤ a.timestamp)
    (s.transactions.values.filter (fun tx => tx.userId = userId))

/-- The method `getServiceRates()`: a copy of the own properties of the rate table. -/
def getServiceRates : List (String × JSNum) := rateTable

end GMPayer

/-- One call on a ledger, as data. -/
inductive LedgerOp where
  | initializeUserBalance (userId : String) (amount : JSNum)
  | addFunds (userId : String) (amount : JSNum)
  | processPayment (env : PaymentEnv) (userId serviceType : String) (metadata : Metadata)
  deriving DecidableEq, Repr

namespace LedgerOp

/-- The ledger left behind by one call (whether it returned or threw). -/
def apply (s : GMPayer) : LedgerOp → GMPayer
  | initializeUserBalance userId amount => s.initializeUserBalance userId amount
  | addFunds userId amount => s.addFunds userId amount
  | processPayment env userId serviceType metadata =>
    (s.processPayment env userId serviceType metadata).2

/-- The ledger left behind by a sequence of calls, first call first. -/
def run (s : GMPayer) (ops : List LedgerOp) : GMPayer := ops.foldl apply s

/-- The amount argument of the call, if it has one, is not negative (`amount >= 0`). -/
def AmountNonneg : LedgerOp → Prop
  | initializeUserBalance _ amount => geNum amount (JSNum.fin 0) = true
  | addFunds _ amount => geNum amount (JSNum.fin 0) = true
  | processPayment _ _ _ _ => True

end LedgerOp

/-! ## Date rendering and base64 -/

/-- Two-digit rendering with a leading zero. -/
def pad2 (n : Nat) : String := if n < 10 then "0" ++ toString n else toString n

/-- Four-digit rendering with leading zeros. -/
def pad4 (n : Nat) : String :=
  if n < 10 then "000" ++ toString n
  else if n < 100 then "00" ++ toString n
  else if n < 1000 then "0" ++ toString n
  else toString n

/-- Year, month (1 to 12) and day of month of the day `days` after 1970-01-01. -/
def civilFromDays (days : Nat) : Nat × Nat × Nat :=
  let z := days + 719468
  let era := z / 146097
  let doe := z % 146097
  let yoe := (doe - doe / 1460 + doe / 36524 - doe / 146096) / 365
  let doy := doe - (365 * yoe + yoe / 4 - yoe / 100)
  let mp := (5 * doy + 2) / 153
  let d := doy - (153 * mp + 2) / 5 + 1
  let m := if mp < 10 then mp + 3 else mp - 9
  let y := yoe + era * 400
  (if m ≤ 2 then y + 1 else y, m, d)

/-- The string a `Date` becomes inside a template literal (`Date.prototype.toString`),
for the time value `ms` in milliseconds since the epoch, with the host time zone taken to
be UTC.  The rendering has a resolution of one second. -/
def dateToString (ms : Nat) : String :=
  let secs := ms / 1000
  let days := secs / 86400
  let rest := secs % 86400
  let ymd := civilFromDays days
  ["Thu", "Fri", "Sat", "Sun", "Mon", "Tue", "Wed"].getD (days % 7) ""
    ++ " "
    ++ ["Jan", "Feb", "Mar", "Apr", "May", "Jun", "Jul", "Aug", "Sep", "Oct", "Nov",
        "Dec"].getD (ymd.2.1 - 1) ""
    ++ " " ++ pad2 ymd.2.2 ++ " " ++ pad4 ymd.1 ++ " "
    ++ pad2 (rest / 3600) ++ ":" ++ pad2 (rest % 3600 / 60) ++ ":" ++ pad2 (rest % 60)
    ++ " GMT+0000 (Coordinated Universal Time)"

/-- The UTF-8 bytes of one character. -/
def utf8Bytes (c : Char) : List Nat :=
  let v := c.toNat
  if v < 128 then [v]
  else if v < 2048 then [192 + v / 64, 128 + v % 64]
  else if v < 65536 then [224 + v / 4096, 128 + v / 64 % 64, 128 + v % 64]
  else [240 + v / 262144, 128 + v / 4096 % 64, 128 + v / 64 % 64, 128 + v % 64]

/-- The base64 digit of a six-bit value. -/
def base64Digit (n : Nat) : Char :=
  "ABCDEFGHIJKLMNOPQRSTUVWXYZabcdefghijklmnopqrstuvwxyz0123456789+/".data.getD n '='

/-- Base64 encoding of a byte sequence, with padding. -/
def base64Encode : List Nat → List Char
  | a :: b :: c :: rest =>
    base64Digit (a / 4) :: base64Digit (a % 4 * 16 + b / 16)
      :: base64Digit (b % 16 * 4 + c / 64) :: base64Digit (c % 64) :: base64Encode rest
  | [a, b] =>
    [base64Digit (a / 4), base64Digit (a % 4 * 16 + b / 16), base64Digit (b % 16 * 4), '=']
  | [a] => [base64Digit (a / 4), base64Digit (a % 4 * 16), '=', '=']
  | [] => []

/-- The expression `Buffer.from(data).toString('base64')`. -/
def toBase64 (data : String) : String :=
  String.mk (base64Encode (data.data.flatMap utf8Bytes))

/-! ## ERC8004Tracker -/

/-- Content record built by `registerContent`. -/
structure ContentRecord where
  id : String
  owner : String
  contentType : String
  aiModel : String
  prompt : String
  creationTime : Nat
  paymentTransaction : String
  status : String
  deriving DecidableEq, Repr

/-- One entry of an ownership history.  A creation entry has no `previousOwner`
property; `paymentTx` is `null` on a transfer made without a payment id. -/
structure OwnershipEvent where
  previousOwner : Option String
  owner : String
  timestamp : Nat
  transactionType : String
  paymentTx : Option String
  deriving DecidableEq, Repr

/-- Errors thrown by `ERC8004Tracker.transferOwnership`. -/
inductive TrackerError where
  | contentNotFound (contentId : String)
  | onlyCurrentOwner
  deriving DecidableEq, Repr

/-- The fields of an `ERC8004Tracker` instance. -/
structure ERC8004Tracker where
  contentRegistry : JSMap ContentRecord
  ownershipHistory : JSMap (List OwnershipEvent)
  metadata : JSMap (JSMap String)
  deriving DecidableEq, Repr

namespace ERC8004Tracker

/-- The constructor: three empty maps. -/
def new : ERC8004Tracker := { contentRegistry := [], ownershipHistory := [], metadata := [] }

/-- The method `registerContent(contentId, owner, contentType, aiModel, prompt, paymentTxId)`;
`creationTime` and `eventTime` are its two `new Date()` readings.  It has no
existence check: the record and the history stored under `contentId` are replaced. -/
def registerContent (t : ERC8004Tracker)
    (contentId owner contentType aiModel prompt paymentTxId : String)
    (creationTime eventTime : Nat) : ContentRecord × ERC8004Tracker :=
  let contentRecord : ContentRecord :=
    { id := contentId
      owner := owner
      contentType := contentType
      aiModel := aiModel
      prompt := prompt
      creationTime := creationTime
      paymentTransaction := paymentTxId
      status := "active" }
  let contentRegistry := t.contentRegistry.set contentId contentRecord
  let ownershipHistory := t.ownershipHistory.set contentId
    [{ previousOwner := none
       owner := owner
       timestamp := eventTime
       transactionType := "creation"
       paymentTx := some paymentTxId }]
  (contentRecord,
    { t with contentRegistry := contentRegistry, ownershipHistory := ownershipHistory })

/-- The method `transferOwnership(contentId, currentOwner, newOwner, paymentTxId = null)`;
`now` is its `new Date()` reading. -/
def transferOwnership (t : ERC8004Tracker) (contentId currentOwner newOwner : String)
    (paymentTxId : Option String) (now : Nat) : Except TrackerError Bool × ERC8004Tracker :=
  match t.contentRegistry.get contentId with
  | none => (Except.error (TrackerError.contentNotFound contentId), t)
  | some content =>
    if content.owner ≠ currentOwner then
      (Except.error TrackerError.onlyCurrentOwner, t)
    else
      let content := { content with owner := newOwner }
      let contentRegistry := t.contentRegistry.set contentId content
      let history := (t.ownershipHistory.get contentId).getD []
      let history := history ++
        [{ previousOwner := some currentOwner
           owner := newOwner
           timestamp := now
           transactionType := "transfer"
           paymentTx := paymentTxId }]
      (Except.ok true,
        { t with contentRegistry := contentRegistry
                 ownershipHistory := t.ownershipHistory.set contentId history })

/-- The method `addMetadata(contentId, key, value)`.  The metadata object is a plain
object literal: assigning a string to its `__proto__` key creates no property. -/
def addMetadata (t : ERC8004Tracker) (contentId key value : String) : ERC8004Tracker :=
  let metadata := if t.metadata.has contentId then t.metadata else t.metadata.set contentId []
  let contentMetadata := (metadata.get contentId).getD []
  let contentMetadata := if key = "__proto__" then contentMetadata else contentMetadata.set key value
  { t with metadata := metadata.set contentId contentMetadata }

end ERC8004Tracker

/-- The value of `content && content.owner === claimedOwner`: `undefined` when the
content is missing, a boolean otherwise. -/
inductive VerifyResult where
  | undefined
  | boolean (b : Bool)
  deriving DecidableEq, Repr

/-- Truthiness of a `VerifyResult`. -/
def VerifyResult.truthy : VerifyResult → Bool
  | VerifyResult.undefined => false
  | VerifyResult.boolean b => b

/-- The proof object built by `generateOwnershipProof`. -/
structure OwnershipProof where
  contentId : String
  owner : String
  creationTime : Nat
  aiModel : String
  paymentTx : String
  proofHash : String
  timestamp : Nat
  deriving DecidableEq, Repr

/-- A value stored in the `contentTypes` and `aiModels` objects of `getStats`: a number,
or the string that `+ 1` produces once the left operand is not a number (the text of the
string is not modelled). -/
inductive StatValue where
  | count (n : Nat)
  | text
  deriving DecidableEq, Repr

/-- The object returned by `getStats`. -/
structure Stats where
  totalContent : Nat
  contentTypes : JSObject StatValue
  aiModels : JSObject StatValue
  totalTransfers : Int
  deriving DecidableEq, Repr

/-- The statement `counts[key] = (counts[key] || 0) + 1`.  An own number is incremented
and a missing key starts at 1; an inherited member of `Object.prototype` is truthy and
not a number, so `+` concatenates and the result is a string, and so it is for an own
string. -/
def bumpCount (counts : JSObject StatValue) (key : String) : JSObject StatValue :=
  counts.assign key
    (match counts.read key with
     | PropertyRead.own (StatValue.count n) => StatValue.count (n + 1)
     | PropertyRead.own StatValue.text => StatValue.text
     | PropertyRead.inherited => StatValue.text
     | PropertyRead.undefined => StatValue.count 1)

namespace ERC8004Tracker

/-- The method `verifyOwnership(contentId, claimedOwner)`; it reads the registry and
writes nothing. -/
def verifyOwnership (t : ERC8004Tracker) (contentId claimedOwner : String) : VerifyResult :=
  match t.contentRegistry.get contentId with
  | none => VerifyResult.undefined
  | some content => VerifyResult.boolean (decide (content.owner = claimedOwner))

/-- The method `getContentDetails(contentId)`. -/
def getContentDetails (t : ERC8004Tracker) (contentId : String) :
    Option ContentRecord × List OwnershipEvent × JSMap String :=
  (t.contentRegistry.get contentId, (t.ownershipHistory.get contentId).getD [],
    (t.metadata.get contentId).getD [])

/-- The method `getOwnedContent(owner)`. -/
def getOwnedContent (t : ERC8004Tracker) (owner : String) : List ContentRecord :=
  t.contentRegistry.values.filter
    (fun content => decide (content.owner = owner) && decide (content.status = "active"))

/-- The method `generateProofHash(content)`: the four fields are concatenated without
separators and the result is base64-encoded. -/
def generateProofHash (content : ContentRecord) : String :=
  toBase64 (content.id ++ content.owner ++ dateToString content.creationTime ++ content.aiModel)

/-- The method `generateOwnershipProof(contentId, owner)`; `none` is `null`, and `now` is
the `new Date()` reading of the proof timestamp. -/
def generateOwnershipProof (t : ERC8004Tracker) (contentId owner : String) (now : Nat) :
    Option OwnershipProof :=
  match t.contentRegistry.get contentId with
  | none => none
  | some content =>
    if content.owner ≠ owner then none
    else
      some
        { contentId := contentId
          owner := owner
          creationTime := content.creationTime
          aiModel := content.aiModel
          paymentTx := content.paymentTransaction
          proofHash := generateProofHash content
          timestamp := now }

/-- The method `getStats()`. -/
def getStats (t : ERC8004Tracker) : Stats :=
  let counts := t.contentRegistry.values.foldl
    (fun acc content =>
      (bumpCount acc.1 content.contentType, bumpCount acc.2 content.aiModel))
    (JSObject.empty, JSObject.empty)
  { totalContent := t.contentRegistry.size
    contentTypes := counts.1
    aiModels := counts.2
    totalTransfers :=
      t.ownershipHistory.values.foldl (fun sum history => sum + (history.length : Int) - 1) 0 }

end ERC8004Tracker

/-- One call on a registry, as data. -/
inductive TrackerOp where
  | registerContent (contentId owner contentType aiModel prompt paymentTxId : String)
      (creationTime eventTime : Nat)
  | transferOwnership (contentId currentOwner newOwner : String) (paymentTxId : Option String)
      (now : Nat)
  | addMetadata (contentId key value : String)
  deriving DecidableEq, Repr

namespace TrackerOp

/-- The registry left behind by one call (whether it returned or threw). -/
def apply (t : ERC8004Tracker) : TrackerOp → ERC8004Tracker
  | registerContent contentId owner contentType aiModel prompt paymentTxId creationTime
      eventTime =>
    (t.registerContent contentId owner contentType aiModel prompt paymentTxId creationTime
      eventTime).2
  | transferOwnership contentId currentOwner newOwner paymentTxId now =>
    (t.transferOwnership contentId currentOwner newOwner paymentTxId now).2
  | addMetadata contentId key value => t.addMetadata contentId key value

/-- The registry left behind by a sequence of calls, first call first. -/
def run (t : ERC8004Tracker) (ops : List TrackerOp) : ERC8004Tracker := ops.foldl apply t

end TrackerOp

/-! ## MockAIGenerator -/

/-- An entry of the generator's model table. -/
structure ModelInfo where
  type : String
  capabilities : List String
  deriving DecidableEq, Repr

/-- What `getDefaultModel` returns: a model name, or the member of `Object.prototype`
that the read `modelMap[contentType]` inherits under the key `key`. -/
inductive ModelRef where
  | name (model : String)
  | prototypeMember (key : String)
  deriving DecidableEq, Repr

/-- Errors thrown by `MockAIGenerator.generateContent`.  `typeError` is the `TypeError` of
reading `.includes` on the missing `capabilities` of an inherited member. -/
inductive GeneratorError where
  | unknownModel (model : ModelRef)
  | cannotGenerate (model contentType : String)
  | typeError
  deriving DecidableEq, Repr

/-- The mock content built by `generateMockContent`. -/
inductive MockContent where
  | text (content : String)
  | image (url description : String) (width height : Nat) (format : String)
  | audio (url description : String) (duration : Nat) (format : String)
  | video (url description : String) (duration : Nat) (resolution format : String)
  deriving DecidableEq, Repr

/-- The `metadata` object of a generation result. -/
structure GenerationMetadata where
  processingTime : Nat
  modelVersion : String
  quality : String
  deriving DecidableEq, Repr

/-- The artifact descriptor returned by `generateContent`. -/
structure GeneratedContent where
  contentId : String
  contentType : String
  model : String
  prompt : String
  generatedAt : Nat
  content : MockContent
  metadata : GenerationMetadata
  deriving DecidableEq, Repr

/-- What the environment supplies to one `generateContent` call: the clock reading and
random fragment of the content id, the `new Date()` of `generatedAt`, the clock reading
and random fragment of the id inside a media url, the value of the `Math.floor` giving a
media duration, and the value of the `Math.floor` giving the processing time. -/
structure GenerationEnv where
  now : Nat
  random : String
  generatedAt : Nat
  urlNow : Nat
  urlRandom : String
  duration : Nat
  processingTime : Nat
  deriving DecidableEq, Repr

namespace MockAIGenerator

/-- Own properties of the object literal `this.models`. -/
def models : List (String × ModelInfo) :=
  [("gpt-4", { type := "text", capabilities := ["text-generation"] }),
   ("dall-e-3", { type := "image", capabilities := ["image-generation"] }),
   ("whisper", { type := "audio", capabilities := ["audio-generation"] }),
   ("stable-video", { type := "video", capabilities := ["video-generation"] })]

/-- Own properties of the object literal `modelMap` of `getDefaultModel`. -/
def modelMap : List (String × String) :=
  [("text-generation", "gpt-4"), ("image-generation", "dall-e-3"),
   ("audio-generation", "whisper"), ("video-generation", "stable-video")]

/-- The method `getDefaultModel(contentType)`: `modelMap[contentType] || 'gpt-4'`.  An
inherited member of `Object.prototype` is truthy and is returned as it is. -/
def getDefaultModel (contentType : String) : ModelRef :=
  match modelMap.lookup contentType with
  | some model => ModelRef.name model
  | none =>
    if contentType ∈ objectPrototypeKeys then ModelRef.prototypeMember contentType
    else ModelRef.name "gpt-4"

/-- The method `generateContentId()` for a clock reading and a random fragment. -/
def generateContentId (now : Nat) (random : String) : String :=
  "content_" ++ toString now ++ "_" ++ random

/-- The method `generateMockContent(contentType, prompt)`. -/
def generateMockContent (env : GenerationEnv) (contentType prompt : String) : MockContent :=
  if contentType = "text-generation" then
    MockContent.text ("Generated text based on prompt: \"" ++ prompt
      ++ "\". This is a mock AI-generated text content that would normally be much longer and more sophisticated.")
  else if contentType = "image-generation" then
    MockContent.image
      ("https://mockimage.example.com/" ++ generateContentId env.urlNow env.urlRandom ++ ".jpg")
      ("AI-generated image: " ++ prompt) 1024 1024 "jpg"
  else if contentType = "audio-generation" then
    MockContent.audio
      ("https://mockaudio.example.com/" ++ generateContentId env.urlNow env.urlRandom ++ ".mp3")
      ("AI-generated audio: " ++ prompt) env.duration "mp3"
  else if contentType = "video-generation" then
    MockContent.video
      ("https://mockvideo.example.com/" ++ generateContentId env.urlNow env.urlRandom ++ ".mp4")
      ("AI-generated video: " ++ prompt) env.duration "1920x1080" "mp4"
  else
    MockContent.text ("Mock content for " ++ contentType)

/-- The method `generateContent(contentType, prompt, model = null)`; `none` is a missing,
`undefined` or `null` model argument.  The generator has no mutable state. -/
def generateContent (env : GenerationEnv) (contentType prompt : String)
    (model : Option String) : Except GeneratorError GeneratedContent :=
  let selectedModel : ModelRef :=
    match model with
    | some m => if m = "" then getDefaultModel contentType else ModelRef.name m
    | none => getDefaultModel contentType
  match selectedModel with
  | ModelRef.prototypeMember key =>
    Except.error (GeneratorError.unknownModel (ModelRef.prototypeMember key))
  | ModelRef.name m =>
    match models.lookup m with
    | none =>
      if m ∈ objectPrototypeKeys then Except.error GeneratorError.typeError
      else Except.error (GeneratorError.unknownModel (ModelRef.name m))
    | some info =>
      if contentType ∉ info.capabilities then
        Except.error (GeneratorError.cannotGenerate m contentType)
      else
        Except.ok
          { contentId := generateContentId env.now env.random
            contentType := contentType
            model := m
            prompt := prompt
            generatedAt := env.generatedAt
            content := generateMockContent env contentType prompt
            metadata :=
              { processingTime := env.processingTime
                modelVersion := "1.0.0"
                quality := "high" } }

end MockAIGenerator

/-! ## X402Orchestrator -/

/-- A thrown `Error`, identified by what determines its message: a fixed message, or the
data of a ledger or generator error, or a `TypeError` with its message. -/
inductive JSError where
  | error (message : String)
  | payment (e : PaymentError)
  | generator (e : GeneratorError)
  | typeError (message : String)
  deriving DecidableEq, Repr

/-- A workflow step: its name and its `execute(payload, previousResults)`, which acts on
the state `σ` of the components it closes over and either returns a result or throws.
The results object is passed by reference (`step.execute(payload, job.results)`), so the
step can assign to it and delete from it: besides the returned result or the thrown error,
a call yields the results object and the component state as it leaves them.  The payload
is an input of the run, which the steps read. -/
structure Step (σ ρ π : Type) where
  name : String
  execute : π → JSObject ρ → σ → Except JSError ρ × JSObject ρ × σ

/-- The step leaves the results object as it received it: it neither assigns to it nor
deletes from it. -/
def Step.KeepsResults {σ ρ π : Type} (step : Step σ ρ π) : Prop :=
  ∀ (payload : π) (results : JSObject ρ) (w : σ), (step.execute payload results w).2.1 = results

/-- A job object.  `endTime` and `error` are absent until they are assigned; `error`
holds the message of the error, identified with the error. -/
structure Job (ρ π : Type) where
  id : String
  workflow : String
  status : String
  startTime : Nat
  payload : π
  results : JSObject ρ
  endTime : Option Nat
  error : Option JSError
  deriving DecidableEq, Repr

/-- The fields of an `X402Orchestrator` instance. -/
structure X402Orchestrator (σ ρ π : Type) where
  workflows : JSMap (List (Step σ ρ π))
  activeJobs : JSMap (Job ρ π)

/-- What the environment supplies to one `executeWorkflow` call: `Date.now()` and the
random fragment of the job id, the `new Date()` of `startTime`, and the `new Date()` of
`endTime` (read only when every step has returned). -/
structure JobEnv where
  now : Nat
  random : String
  startTime : Nat
  endTime : Nat
  deriving DecidableEq, Repr

namespace X402Orchestrator

/-- The constructor: both maps empty. -/
def new {σ ρ π : Type} : X402Orchestrator σ ρ π := { workflows := [], activeJobs := [] }

/-- The method `registerWorkflow(name, steps)`. -/
def registerWorkflow {σ ρ π : Type} (o : X402Orchestrator σ ρ π) (name : String)
    (steps : List (Step σ ρ π)) : X402Orchestrator σ ρ π :=
  { o with workflows := o.workflows.set name steps }

/-- The method `generateJobId()`. -/
def generateJobId (env : JobEnv) : String :=
  "x402_" ++ toString env.now ++ "_" ++ env.random

/-- The job object `executeWorkflow` creates before it runs the steps. -/
def newJob {ρ π : Type} (env : JobEnv) (workflowName : String) (payload : π) : Job ρ π :=
  { id := generateJobId env
    workflow := workflowName
    status := "running"
    startTime := env.startTime
    payload := payload
    results := JSObject.empty
    endTime := none
    error := none }

/-- The `for` loop of `executeWorkflow` from step index `i` on: each step is executed on
the payload and the current results object; its result is assigned under its name in the
results object as the step left it, and the status becomes `completed_step_(i+1)`.  The
first throw ends the loop; the thrown error, the job (with the results object as the
throwing step left it) and the component state at that point are returned. -/
def runSteps {σ ρ π : Type} (payload : π) :
    List (Step σ ρ π) → Nat → Job ρ π → σ → Option JSError × Job ρ π × σ
  | [], _, job, w => (none, job, w)
  | step :: rest, i, job, w =>
    match step.execute payload job.results w with
    | (Except.ok stepResult, results, w') =>
      runSteps payload rest (i + 1)
        { job with results := results.assign step.name stepResult
                   status := "completed_step_" ++ toString (i + 1) }
        w'
    | (Except.error e, results, w') => (some e, { job with results := results }, w')

/-- The method `executeWorkflow(workflowName, payload)`, run to completion without
another job interleaving.  The job table holds the job object by reference, so its entry
follows the later mutations of the job. -/
def executeWorkflow {σ ρ π : Type} (o : X402Orchestrator σ ρ π) (env : JobEnv)
    (workflowName : String) (payload : π) (w : σ) :
    Except JSError (Job ρ π) × X402Orchestrator σ ρ π × σ :=
  let jobId := generateJobId env
  match o.workflows.get workflowName with
  | none => (Except.error (JSError.error ("Workflow '" ++ workflowName ++ "' not found")), o, w)
  | some workflow =>
    let job : Job ρ π := newJob env workflowName payload
    let activeJobs := o.activeJobs.set jobId job
    match runSteps payload workflow 0 job w with
    | (none, job, w') =>
      let job := { job with status := "completed", endTime := some env.endTime }
      (Except.ok job, { o with activeJobs := activeJobs.set jobId job }, w')
    | (some e, job, w') =>
      let job := { job with status := "failed", error := some e }
      (Except.error e, { o with activeJobs := activeJobs.set jobId job }, w')

/-- The results the steps return, paired with the step names in declared order, up to
the first throw.  Each step is executed on the payload, on the results object as the
loop and the steps before it have left it, and on the component state they have left. -/
def stepResults {σ ρ π : Type} (payload : π) :
    List (Step σ ρ π) → JSObject ρ → σ → List (String × ρ)
  | [], _, _ => []
  | step :: rest, results, w =>
    match step.execute payload results w with
    | (Except.ok stepResult, results', w') =>
      (step.name, stepResult) :: stepResults payload rest (results'.assign step.name stepResult) w'
    | (Except.error _, _, _) => []

/-- The method `getJobStatus(jobId)`; `none` is `undefined`. -/
def getJobStatus {σ ρ π : Type} (o : X402Orchestrator σ ρ π) (jobId : String) :
    Option (Job ρ π) := o.activeJobs.get jobId

/-- The method `listWorkflows()`. -/
def listWorkflows {σ ρ π : Type} (o : X402Orchestrator σ ρ π) : List String :=
  o.workflows.keys

end X402Orchestrator

/-! ## The `ai-content-generation` workflow -/

/-- The request payload.  `none` is a missing (`undefined`) field. -/
structure Payload where
  prompt : Option String
  contentType : Option String
  userId : Option String
  model : Option String
  deriving DecidableEq, Repr

/-- Truthiness of a string-valued field: missing and empty are falsy. -/
def fieldTruthy : Option String → Bool
  | some s => decide (s ≠ "")
  | none => false

/-- The string a payload field stands for where it is passed on.  The steps that pass
fields on run only after `validate-request` has returned, when the three required fields
are present; a missing field is rendered as the text `undefined`. -/
def fieldText (field : Option String) : String := field.getD "undefined"

/-- The components the workflow steps close over. -/
structure World where
  gmPayer : GMPayer
  ownershipTracker : ERC8004Tracker
  deriving DecidableEq, Repr

/-- The objects the four steps return: `{ valid }`, `{ transaction }`, `{ content }` and
`{ contentRecord }`. -/
inductive StepResult where
  | valid (valid : Bool)
  | transaction (transaction : Transaction)
  | content (content : GeneratedContent)
  | contentRecord (contentRecord : ContentRecord)
  deriving DecidableEq, Repr

/-- What the environment supplies to the steps of one run of the workflow. -/
structure WorkflowEnv where
  payment : PaymentEnv
  generation : GenerationEnv
  creationTime : Nat
  eventTime : Nat
  deriving DecidableEq, Repr

/-- The step `validate-request`, with the message of its error. -/
def validateRequest (message : String) : Step World StepResult Payload :=
  { name := "validate-request"
    execute := fun payload previousResults w =>
      if !fieldTruthy payload.prompt || !fieldTruthy payload.contentType
          || !fieldTruthy payload.userId then
        (Except.error (JSError.error message), previousResults, w)
      else (Except.ok (StepResult.valid true), previousResults, w) }

/-- The step `process-payment`; `metadata` builds the metadata object from the payload. -/
def processPaymentStep (env : WorkflowEnv) (metadata : Payload → Metadata) :
    Step World StepResult Payload :=
  { name := "process-payment"
    execute := fun payload previousResults w =>
      match w.gmPayer.processPayment env.payment (fieldText payload.userId)
          (fieldText payload.contentType) (metadata payload) with
      | (Except.ok transaction, gmPayer) =>
        (Except.ok (StepResult.transaction transaction), previousResults,
          { w with gmPayer := gmPayer })
      | (Except.error e, gmPayer) =>
        (Except.error (JSError.payment e), previousResults, { w with gmPayer := gmPayer }) }

/-- The step `generate-content`; `model` is the model argument passed to the generator. -/
def generateContentStep (env : WorkflowEnv) (model : Payload → Option String) :
    Step World StepResult Payload :=
  { name := "generate-content"
    execute := fun payload previousResults w =>
      match MockAIGenerator.generateContent env.generation (fieldText payload.contentType)
          (fieldText payload.prompt) (model payload) with
      | Except.ok content => (Except.ok (StepResult.content content), previousResults, w)
      | Except.error e => (Except.error (JSError.generator e), previousResults, w) }

/-- The step `register-ownership`.  Reading a property of a missing result is a
`TypeError`. -/
def registerOwnershipStep (env : WorkflowEnv) : Step World StepResult Payload :=
  { name := "register-ownership"
    execute := fun payload previousResults w =>
      match previousResults.get "generate-content" with
      | none =>
        (Except.error
          (JSError.typeError "Cannot read properties of undefined (reading 'content')"),
          previousResults, w)
      | some (StepResult.content content) =>
        match previousResults.get "process-payment" with
        | none =>
          (Except.error
            (JSError.typeError "Cannot read properties of undefined (reading 'transaction')"),
            previousResults, w)
        | some (StepResult.transaction transaction) =>
          match w.ownershipTracker.registerContent content.contentId
              (fieldText payload.userId) (fieldText payload.contentType) content.model
              (fieldText payload.prompt) transaction.id env.creationTime env.eventTime with
          | (contentRecord, ownershipTracker) =>
            (Except.ok (StepResult.contentRecord contentRecord), previousResults,
              { w with ownershipTracker := ownershipTracker })
        | some _ =>
          (Except.error
            (JSError.typeError "Cannot read properties of undefined (reading 'id')"),
            previousResults, w)
      | some _ =>
        (Except.error
          (JSError.typeError "Cannot read properties of undefined (reading 'contentId')"),
          previousResults, w) }

/-- The workflow registered by `demo.js`: the payment metadata is `{ prompt }` and the
generator is called without a model argument. -/
def demoWorkflow (env : WorkflowEnv) : List (Step World StepResult Payload) :=
  [validateRequest "Missing required fields",
   processPaymentStep env (fun payload => [("prompt", fieldText payload.prompt)]),
   generateContentStep env (fun _ => none),
   registerOwnershipStep env]

/-- The payment metadata `{ prompt: payload.prompt, model: payload.model }` of `server.js`;
a property whose value is `undefined` is left out. -/
def serverMetadata (payload : Payload) : Metadata :=
  ("prompt", fieldText payload.prompt) ::
    (match payload.model with
     | some m => [("model", m)]
     | none => [])

/-- The workflow registered by `server.js`: the payment metadata is `{ prompt, model }`
and the generator is called with the model of the payload. -/
def serverWorkflow (env : WorkflowEnv) : List (Step World StepResult Payload) :=
  [validateRequest "Missing required fields: prompt, contentType, userId",
   processPaymentStep env serverMetadata,
   generateContentStep env (fun payload => payload.model),
   registerOwnershipStep env]

/-- The components of `demo.js` after its set-up for the user `userId`: a ledger with
that user at balance 50, an empty registry. -/
def demoWorld (userId : String) : World :=
  { gmPayer := GMPayer.new.initializeUserBalance userId (JSNum.fin 50)
    ownershipTracker := ERC8004Tracker.new }

/-- The orchestrator of `demo.js` after `registerWorkflow`. -/
def demoOrchestrator (env : WorkflowEnv) : X402Orchestrator World StepResult Payload :=
  X402Orchestrator.new.registerWorkflow "ai-content-generation" (demoWorkflow env)

/-- Registry consistency at one content id: the history is non-empty, starts with a
creation entry, and its last entry names the record's owner. -/
def HistoryConsistent (t : ERC8004Tracker) (contentId : String) (record : ContentRecord) : Prop :=
  ∃ history : List OwnershipEvent,
    t.ownershipHistory.get contentId = some history ∧
    history ≠ [] ∧
    history.head?.map OwnershipEvent.transactionType = some "creation" ∧
    history.getLast?.map OwnershipEvent.owner = some record.owner

/-- No stored balance is negative. -/
def BalancesNonneg (s : GMPayer) : Prop :=
  ∀ (u : String) (x : JSNum), s.balances.get u = some x → ltNum x (JSNum.fin 0) = false

/-- Registry consistency: every registered content id is history-consistent. -/
def RegistryConsistent (t : ERC8004Tracker) : Prop :=
  ∀ (contentId : String) (record : ContentRecord),
    t.contentRegistry.get contentId = some record → HistoryConsistent t contentId record

/-- The number a count object holds under its own properties, strings counting as 0. -/
def StatValue.toNat : StatValue → Nat
  | StatValue.count n => n
  | StatValue.text => 0

/-- The sum of the numbers held by a count object. -/
def sumCounts (counts : JSObject StatValue) : Nat :=
  (counts.props.map (fun p => p.2.toNat)).sum

/-- Every ownership history is a creation event followed by transfer events only. -/
def HistoriesWellFormed (t : ERC8004Tracker) : Prop :=
  ∀ p ∈ t.ownershipHistory, ∃ (e : OwnershipEvent) (rest : List OwnershipEvent),
    p.2 = e :: rest ∧ e.transactionType = "creation" ∧
    ∀ x ∈ rest, x.transactionType = "transfer"

/-- The content id a call registers, if it is a `registerContent` call. -/
def TrackerOp.registeredId : TrackerOp → Option String
  | TrackerOp.registerContent contentId _ _ _ _ _ _ _ => some contentId
  | TrackerOp.transferOwnership _ _ _ _ _ => none
  | TrackerOp.addMetadata _ _ _ => none

/-- The list `ids` extended by `id` unless it is there already. -/
def addNew (ids : List String) (id : String) : List String :=
  if id ∈ ids then ids else ids ++ [id]

/-- Registration order: the content ids of the `registerContent` calls of a sequence,
each once, in the order of their first registration. -/
def registrationOrder (ops : List TrackerOp) : List String :=
  (ops.filterMap TrackerOp.registeredId).foldl addNew []

/-- Every record is stored under its own id, once, and is active. -/
def RegistryKeyed (t : ERC8004Tracker) : Prop :=
  t.contentRegistry.keys.Nodup ∧
  ∀ p ∈ t.contentRegistry, p.2.id = p.1 ∧ p.2.status = "active"

/-- The number an amount field holds; an amount that is not a finite number counts as 0. -/
def JSValue.amount : JSValue → ℚ
  | JSValue.number x => x.toRat
  | JSValue.undefined => 0
  | JSValue.object _ => 0

/-- The sum of the amount fields of `getTransactionHistory(userId)`, as the conservation
law takes it: the exact sum of the amounts that are finite numbers. -/
def GMPayer.totalSpent (s : GMPayer) (userId : String) : ℚ :=
  ((s.getTransactionHistory userId).map (fun tx => tx.amount.amount)).sum

namespace LedgerOp

/-- The amount a call adds to the user `u` by `addFunds`. -/
def added (u : String) : LedgerOp → ℚ
  | initializeUserBalance _ _ => 0
  | addFunds userId amount => if userId = u then amount.toRat else 0
  | processPayment _ _ _ _ => 0

/-- The sum of the amounts a sequence of calls adds to the user `u` by `addFunds`. -/
def fundsAdded (u : String) (ops : List LedgerOp) : ℚ := (ops.map (added u)).sum

end LedgerOp

/-! ## Example states -/

/-- The ledger of `server.js` after its two demo users are initialised. -/
def demoLedger : GMPayer :=
  (GMPayer.new.initializeUserBalance "user1" (JSNum.fin 25)).initializeUserBalance "user2"
    (JSNum.fin 15)

/-- A ledger whose only user has the balance `0.95`. -/
def roundingLedger : GMPayer := GMPayer.new.initializeUserBalance "user1" (JSNum.ofRat 0.95)

/-- A clock reading and random fragment for one payment. -/
def demoEnv : PaymentEnv := { now := 1700000000000, random := "k3x9q0z1a", date := 1700000000000 }

/-- A registry holding one content of `alice`. -/
def demoRegistry : ERC8004Tracker :=
  (ERC8004Tracker.new.registerContent "content_1" "alice" "text-generation" "gpt-4"
    "a haiku" "gmp_1700000000000_k3x9q0z1a" 1700000000100 1700000000101).2

/-- A registry holding one content whose content type is `toString`. -/
def inheritedTypeRegistry : ERC8004Tracker :=
  (ERC8004Tracker.new.registerContent "content_1" "alice" "toString" "gpt-4" "a haiku"
    "gmp_1" 100 101).2

/-- A workflow of two steps named `2` and `1`, on components without state. -/
def numberedWorkflow : List (Step Unit Nat Unit) :=
  [{ name := "2", execute := fun _ results w => (Except.ok 20, results, w) },
   { name := "1", execute := fun _ results w => (Except.ok 10, results, w) }]

/-- A workflow of two steps named `first` and `__proto__`, on components without state. -/
def protoWorkflow : List (Step Unit Nat Unit) :=
  [{ name := "first", execute := fun _ results w => (Except.ok 1, results, w) },
   { name := "__proto__", execute := fun _ results w => (Except.ok 2, results, w) }]

/-- A workflow whose second step throws; the steps count their executions in the state. -/
def failingWorkflow : List (Step Nat Nat Unit) :=
  [{ name := "a", execute := fun _ results w => (Except.ok 1, results, w + 1) },
   { name := "b",
     execute := fun _ results w => (Except.error (JSError.error "boom"), results, w + 1) },
   { name := "c", execute := fun _ results w => (Except.ok 3, results, w + 1) }]

/-- A workflow of two steps named `a` and `b` whose second step assigns
`previousResults.extra = 0` before it returns, on components without state. -/
def writingWorkflow : List (Step Unit Nat Unit) :=
  [{ name := "a", execute := fun _ results w => (Except.ok 1, results, w) },
   { name := "b", execute := fun _ results w => (Except.ok 2, results.assign "extra" 0, w) }]

/-- A workflow of two steps named `a` and `b` whose second step does
`delete previousResults.a` before it throws, on components without state. -/
def deletingWorkflow : List (Step Unit Nat Unit) :=
  [{ name := "a", execute := fun _ results w => (Except.ok 1, results, w) },
   { name := "b",
     execute := fun _ results w =>
       (Except.error (JSError.error "boom"),
         { props := results.props.filter (fun p => p.1 ≠ "a") }, w) }]

/-- Clock readings and random fragment for one job. -/
def demoJobEnv : JobEnv :=
  { now := 1700000000000, random := "j0b1d0001", startTime := 1700000000001,
    endTime := 1700000003000 }

/-- Clock readings and random fragments for the steps of one run. -/
def demoWorkflowEnv : WorkflowEnv :=
  { payment := demoEnv
    generation :=
      { now := 1700000000500, random := "c0nt3nt01", generatedAt := 1700000002000,
        urlNow := 1700000002000, urlRandom := "ur1000001", duration := 42,
        processingTime := 1500 }
    creationTime := 1700000002001
    eventTime := 1700000002002 }

/-- The components of `server.js` after start-up: the two demo users, an empty registry. -/
def serverWorld : World :=
  { gmPayer := demoLedger, ownershipTracker := ERC8004Tracker.new }

/-- Components like those of `server.js`, with the ledger `roundingLedger`. -/
def roundingWorld : World :=
  { gmPayer := roundingLedger, ownershipTracker := ERC8004Tracker.new }

/-- The orchestrator of `server.js` after `registerWorkflow`. -/
def serverOrchestrator (env : WorkflowEnv) : X402Orchestrator World StepResult Payload :=
  X402Orchestrator.new.registerWorkflow "ai-content-generation" (serverWorkflow env)

/-! ## Lemmas on `JSMap` -/

namespace JSMap

theorem get_set_self {ν : Type} (m : JSMap ν) (k : String) (v : ν) :
    (m.set k v).get k = some v := by
  induction m with
  | nil => simp [set, get]
  | cons p rest ih =>
    obtain ⟨k', v'⟩ := p
    by_cases h : k' = k
    · simp [set, get, h]
    · simp [set, get, h, ih]

theorem get_set_ne {ν : Type} (m : JSMap ν) (k k' : String) (v : ν) (h : k' ≠ k) :
    (m.set k v).get k' = m.get k' := by
  induction m with
  | nil => simp [set, get, Ne.symm h]
  | cons p rest ih =>
    obtain ⟨k0, v0⟩ := p
    by_cases h0 : k0 = k
    · subst h0
      simp [set, get, Ne.symm h]
    · by_cases h1 : k0 = k'
      · subst h1
        simp [set, get, h0]
      · simp [set, get, h0, h1, ih]

theorem set_eq_append {ν : Type} (m : JSMap ν) (k : String) (v : ν) (h : m.get k = none) :
    m.set k v = m ++ [(k, v)] := by
  induction m with
  | nil => simp [set]
  | cons p rest ih =>
    obtain ⟨k0, v0⟩ := p
    by_cases h0 : k0 = k
    · simp [get, h0] at h
    · simp only [get, h0, if_false] at h
      simp [set, h0, ih h]

theorem size_set_of_get_none {ν : Type} (m : JSMap ν) (k : String) (v : ν)
    (h : m.get k = none) : (m.set k v).size = m.size + 1 := by
  simp [set_eq_append m k v h, size]

theorem size_set_of_get_some {ν : Type} (m : JSMap ν) (k : String) (v w : ν)
    (h : m.get k = some w) : (m.set k v).size = m.size := by
  induction m with
  | nil => simp [get] at h
  | cons p rest ih =>
    obtain ⟨k0, v0⟩ := p
    by_cases h0 : k0 = k
    · simp [set, size, h0]
    · simp only [get, h0, if_false] at h
      have := ih h
      simp only [size] at this
      simp [set, size, h0, this]

end JSMap

/-! ## Lemmas on numbers -/

theorem roundPos_not_negative (n d : Nat) : ltNum (roundPos n d) (JSNum.fin 0) = false := by
  unfold roundPos
  simp only []
  split_ifs
  · rfl
  · simp [ltNum]
  · have h : (0 : ℚ) ≤ ((roundHalfEven (n * 2 ^ (-(max (binaryExponent n d) (-1022) - 52)).toNat)
        d : Nat) : ℚ) / ((2 ^ (-(max (binaryExponent n d) (-1022) - 52)).toNat : Nat) : ℚ) :=
      div_nonneg (Nat.cast_nonneg _) (Nat.cast_nonneg _)
    simpa [ltNum] using h

theorem roundPos_ne_nan (n d : Nat) : roundPos n d ≠ JSNum.nan := by
  unfold roundPos
  simp only []
  split_ifs <;> simp

theorem JSNum.neg_ne_nan {x : JSNum} (h : x ≠ JSNum.nan) : x.neg ≠ JSNum.nan := by
  cases x <;> simp_all [JSNum.neg]

theorem JSNum.ofRat_ne_nan (q : ℚ) : JSNum.ofRat q ≠ JSNum.nan := by
  unfold JSNum.ofRat
  split_ifs
  · simp
  · exact roundPos_ne_nan _ _
  · exact JSNum.neg_ne_nan (roundPos_ne_nan _ _)

theorem JSNum.ofRat_not_negative {q : ℚ} (h : 0 ≤ q) :
    ltNum (JSNum.ofRat q) (JSNum.fin 0) = false := by
  unfold JSNum.ofRat
  split_ifs with h0 hpos
  · simp [ltNum]
  · exact roundPos_not_negative _ _
  · exact absurd (lt_of_le_of_ne h (Ne.symm h0)) hpos

theorem orZero_ne_nan (x : Option JSNum) : orZero x ≠ JSNum.nan := by
  cases x with
  | none => simp [orZero]
  | some y =>
    cases y with
    | fin q => by_cases hq : q = 0 <;> simp [orZero, JSNum.truthy, hq]
    | nan => simp [orZero, JSNum.truthy]
    | inf s => simp [orZero, JSNum.truthy]

theorem orZero_some_of_ne_nan {x : JSNum} (h : x ≠ JSNum.nan) : orZero (some x) = x := by
  cases x with
  | fin q => by_cases hq : q = 0 <;> simp [orZero, JSNum.truthy, hq]
  | nan => exact absurd rfl h
  | inf s => simp [orZero, JSNum.truthy]

theorem geNum_of_not_lt {x y : JSNum} (hx : x ≠ JSNum.nan) (hy : y ≠ JSNum.nan)
    (h : ltNum x y = false) : geNum x y = true := by
  cases x with
  | nan => exact absurd rfl hx
  | fin a =>
    cases y with
    | nan => exact absurd rfl hy
    | fin b => simpa [ltNum, geNum] using h
    | inf t => simpa [ltNum, geNum] using h
  | inf s =>
    cases y with
    | nan => exact absurd rfl hy
    | fin b => simpa [ltNum, geNum] using h
    | inf t => cases s <;> cases t <;> simp_all [ltNum, geNum]

theorem ltNum_eq_false_of_geNum {x y : JSNum} (h : geNum x y = true) : ltNum x y = false := by
  cases x with
  | nan => simp [ltNum]
  | fin a =>
    cases y with
    | nan => simp [ltNum]
    | fin b => simpa [ltNum, geNum] using h
    | inf t => simpa [ltNum, geNum] using h
  | inf s =>
    cases y with
    | nan => simp [ltNum]
    | fin b => simpa [ltNum, geNum] using h
    | inf t => cases s <;> cases t <;> simp_all [ltNum, geNum]

theorem ne_nan_of_geNum {x y : JSNum} (h : geNum x y = true) : x ≠ JSNum.nan ∧ y ≠ JSNum.nan := by
  cases x <;> cases y <;> simp_all [geNum]

/-- The literals of the program and of the examples, rounded: `0.05`, `0.25`, `0.15`, `1.00`,
`0.95`, `0.9` and `49.95` as binary64 values, and the differences `0.95 - 0.05` and
`50 - 0.05` as the program computes them. -/
theorem ofRat_examples :
    JSNum.ofRat 0.05 = JSNum.fin (3602879701896397 / 72057594037927936) ∧
    JSNum.ofRat 0.25 = JSNum.fin (1 / 4) ∧
    JSNum.ofRat 0.15 = JSNum.fin (5404319552844595 / 36028797018963968) ∧
    JSNum.ofRat 1.00 = JSNum.fin 1 ∧
    JSNum.ofRat 0.95 = JSNum.fin (4278419646001971 / 4503599627370496) ∧
    JSNum.ofRat 0.9 = JSNum.fin (8106479329266893 / 9007199254740992) ∧
    JSNum.ofRat 49.95 = JSNum.fin (3514918771674317 / 70368744177664) ∧
    subNum (JSNum.ofRat 0.95) (JSNum.ofRat 0.05)
      = JSNum.fin (8106479329266892 / 9007199254740992) ∧
    subNum (JSNum.fin 50) (JSNum.ofRat 0.05) = JSNum.ofRat 49.95 ∧
    addNum (JSNum.ofRat 0.1) (JSNum.ofRat 0.2) = JSNum.ofRat 0.30000000000000004 ∧
    addNum (JSNum.ofRat 0.1) (JSNum.ofRat 0.2) ≠ JSNum.ofRat 0.3 := by
  refine ⟨by decide!, by decide!, by decide!, by decide!, by decide!, by decide!, by decide!,
    by decide!, by decide!, by decide!, by decide!⟩

/-- The ends of the binary64 range: the largest finite value is `2^1024 - 2^971`, the
midpoint above it rounds to `Infinity`, the smallest positive value is `2^-1074`, and a tie
between two subnormal values goes to the even one. -/
theorem ofRat_range :
    JSNum.ofRat ((2 ^ 1024 - 2 ^ 971 : Nat) : ℚ) = JSNum.fin ((2 ^ 1024 - 2 ^ 971 : Nat) : ℚ) ∧
    JSNum.ofRat ((2 ^ 1024 - 2 ^ 970 - 1 : Nat) : ℚ)
      = JSNum.fin ((2 ^ 1024 - 2 ^ 971 : Nat) : ℚ) ∧
    JSNum.ofRat ((2 ^ 1024 - 2 ^ 970 : Nat) : ℚ) = JSNum.inf false ∧
    addNum (JSNum.fin ((2 ^ 1024 - 2 ^ 971 : Nat) : ℚ)) (JSNum.fin ((2 ^ 1024 - 2 ^ 971 : Nat) : ℚ))
      = JSNum.inf false ∧
    JSNum.ofRat (1 / ((2 ^ 1074 : Nat) : ℚ)) = JSNum.fin (1 / ((2 ^ 1074 : Nat) : ℚ)) ∧
    JSNum.ofRat (1 / ((2 ^ 1075 : Nat) : ℚ)) = JSNum.fin 0 ∧
    JSNum.ofRat (3 / ((2 ^ 1075 : Nat) : ℚ)) = JSNum.fin (1 / ((2 ^ 1073 : Nat) : ℚ)) ∧
    JSNum.ofRat (-(1 / 3)) = JSNum.fin (-6004799503160661 / 18014398509481984) := by
  refine ⟨by decide!, by decide!, by decide!, by decide!, by decide!, by decide!, by decide!,
    by decide!⟩

/-! ## Lemmas on the ledger -/

namespace GMPayer

/-- The rate table with its literals rounded. -/
theorem rateTable_eq :
    rateTable =
      [("text-generation", JSNum.fin (3602879701896397 / 72057594037927936)),
       ("image-generation", JSNum.fin (1 / 4)),
       ("audio-generation", JSNum.fin (5404319552844595 / 36028797018963968)),
       ("video-generation", JSNum.fin 1)] := by decide!

theorem rates_of_mem {t : String} {r : JSNum} (h : (t, r) ∈ rateTable) :
    rates t = JSValue.number r ∧ ∃ q : ℚ, r = JSNum.fin q ∧ 0 < q := by
  rw [rateTable_eq] at h
  simp only [List.mem_cons, Prod.mk.injEq, List.mem_singleton, List.not_mem_nil,
    or_false] at h
  rcases h with ⟨rfl, rfl⟩ | ⟨rfl, rfl⟩ | ⟨rfl, rfl⟩ | ⟨rfl, rfl⟩
  · exact ⟨by decide!, _, rfl, by norm_num⟩
  · exact ⟨by decide!, _, rfl, by norm_num⟩
  · exact ⟨by decide!, _, rfl, by norm_num⟩
  · exact ⟨by decide!, _, rfl, by norm_num⟩

theorem rates_undefined_iff (t : String) :
    rates t = JSValue.undefined ↔
      rateTable.lookup t = none ∧ t ∉ objectPrototypeKeys := by
  unfold rates
  cases h : rateTable.lookup t with
  | some r => simp
  | none =>
    by_cases hp : t ∈ objectPrototypeKeys
    · simp [hp]
    · simp [hp]

/-- Unfolding of `processPayment` when the rate read is a truthy number that the balance
is not below. -/
theorem processPayment_number (s : GMPayer) (env : PaymentEnv) (u t : String) (md : Metadata)
    (r : JSNum) (hr : rates t = JSValue.number r) (htruthy : r.truthy = true)
    (hb : ltNum (s.getBalance u) r = false) :
    s.processPayment env u t md =
      (Except.ok
        { id := generateTransactionId env, userId := u, serviceType := t,
          amount := JSValue.number r, status := "completed", timestamp := env.date,
          metadata := md },
        { transactions := s.transactions.set (generateTransactionId env)
            { id := generateTransactionId env, userId := u, serviceType := t,
              amount := JSValue.number r, status := "completed", timestamp := env.date,
              metadata := md },
          balances := s.balances.set u (subNum (s.getBalance u) r) }) := by
  unfold getBalance at hb
  simp [processPayment, hr, JSValue.truthy, JSValue.toNumber, htruthy, hb, getBalance]

/-- The balance `getBalance` reports after a stored balance has been replaced. -/
theorem getBalance_set_self (tr : JSMap Transaction) (b : JSMap JSNum) (u : String)
    (x : JSNum) (hx : x ≠ JSNum.nan) :
    (GMPayer.mk tr (b.set u x)).getBalance u = x := by
  simp [getBalance, JSMap.get_set_self, orZero_some_of_ne_nan hx]

/-- The difference of a balance read through `|| 0` and a finite rate is not `NaN`. -/
theorem subNum_getBalance_ne_nan (s : GMPayer) (u : String) (q : ℚ) :
    subNum (s.getBalance u) (JSNum.fin q) ≠ JSNum.nan := by
  have h := orZero_ne_nan (s.balances.get u)
  unfold getBalance
  cases hx : orZero (s.balances.get u) with
  | fin a => simpa [subNum] using JSNum.ofRat_ne_nan (a - q)
  | nan => exact absurd hx h
  | inf b => simp [subNum]

end GMPayer

/-! ## Ledger invariant -/

theorem orZero_nonneg_of_balancesNonneg {s : GMPayer} (h : BalancesNonneg s) (u : String) :
    geNum (orZero (s.balances.get u)) (JSNum.fin 0) = true := by
  apply geNum_of_not_lt (orZero_ne_nan _) (by simp)
  cases hg : s.balances.get u with
  | none => simp [orZero, ltNum]
  | some x =>
    by_cases hx : x.truthy = true
    · simpa [orZero, hx] using h u x hg
    · simp [orZero, hx, ltNum]

theorem balancesNonneg_set {s : GMPayer} (h : BalancesNonneg s) (u : String) (x : JSNum)
    (tr : JSMap Transaction) (hx : ltNum x (JSNum.fin 0) = false) :
    BalancesNonneg { transactions := tr, balances := s.balances.set u x } := by
  intro v y hv
  by_cases hvu : v = u
  · subst hvu
    rw [JSMap.get_set_self] at hv
    rw [← Option.some.inj hv]
    exact hx
  · rw [JSMap.get_set_ne _ _ _ _ hvu] at hv
    exact h v y hv

/-- A difference `a - b` computed when `a < b` is false is not negative. -/
theorem subNum_not_negative {a b : JSNum} (h : ltNum a b = false) :
    ltNum (subNum a b) (JSNum.fin 0) = false := by
  cases a with
  | nan => cases b <;> simp [subNum, ltNum]
  | fin x =>
    cases b with
    | nan => simp [subNum, ltNum]
    | fin y =>
      simp only [ltNum, decide_eq_false_iff_not, not_lt] at h
      simpa [subNum] using JSNum.ofRat_not_negative (sub_nonneg.mpr h)
    | inf t => cases t <;> simp_all [subNum, ltNum]
  | inf s =>
    cases b with
    | nan => simp [subNum, ltNum]
    | fin y => cases s <;> simp_all [subNum, ltNum]
    | inf t => cases s <;> cases t <;> simp_all [subNum, ltNum]

/-- A sum of two numbers that are `>= 0` is not negative. -/
theorem addNum_not_negative {a b : JSNum} (ha : geNum a (JSNum.fin 0) = true)
    (hb : geNum b (JSNum.fin 0) = true) : ltNum (addNum a b) (JSNum.fin 0) = false := by
  cases a with
  | nan => simp [geNum] at ha
  | fin x =>
    cases b with
    | nan => simp [geNum] at hb
    | fin y =>
      simp only [geNum, decide_eq_true_eq] at ha hb
      simpa [addNum] using JSNum.ofRat_not_negative (add_nonneg ha hb)
    | inf t => cases t <;> simp_all [addNum, ltNum, geNum]
  | inf s =>
    cases b with
    | nan => simp [geNum] at hb
    | fin y => cases s <;> simp_all [addNum, ltNum, geNum]
    | inf t => cases s <;> cases t <;> simp_all [addNum, ltNum, geNum]

theorem balancesNonneg_processPayment {s : GMPayer} (h : BalancesNonneg s) (env : PaymentEnv)
    (u t : String) (md : Metadata) : BalancesNonneg (s.processPayment env u t md).2 := by
  unfold GMPayer.processPayment
  by_cases h1 : (!(GMPayer.rates t).truthy) = true
  · simpa [h1] using h
  · by_cases h2 : ltNum (orZero (s.balances.get u)) (GMPayer.rates t).toNumber = true
    · simpa [h1, h2] using h
    · simp only [h1, h2, if_false]
      apply balancesNonneg_set h
      exact subNum_not_negative (by simpa using h2)

theorem balancesNonneg_apply {s : GMPayer} (h : BalancesNonneg s) (op : LedgerOp)
    (hop : op.AmountNonneg) : BalancesNonneg (LedgerOp.apply s op) := by
  cases op with
  | initializeUserBalance u a =>
    apply balancesNonneg_set h
    exact ltNum_eq_false_of_geNum hop
  | addFunds u a =>
    apply balancesNonneg_set h
    exact addNum_not_negative (orZero_nonneg_of_balancesNonneg h u) hop
  | processPayment env u t md => exact balancesNonneg_processPayment h env u t md

theorem balancesNonneg_run (ops : List LedgerOp) {s : GMPayer} (h : BalancesNonneg s)
    (hops : ∀ op ∈ ops, op.AmountNonneg) : BalancesNonneg (LedgerOp.run s ops) := by
  induction ops generalizing s with
  | nil => simpa [LedgerOp.run] using h
  | cons op rest ih =>
    have hrest : ∀ o ∈ rest, o.AmountNonneg := fun o ho => hops o (List.mem_cons_of_mem _ ho)
    have := ih (balancesNonneg_apply h op (hops op (List.mem_cons_self _ _))) hrest
    simpa [LedgerOp.run] using this

/-! ## Claims on the ledger -/

/-- C1 fails as stated: balances and rates are binary64 values and `userBalance - rate` is
rounded.  From the balance `0.95` a text generation (rate `0.05`) leaves
`0.8999999999999999`: that is not the exact difference of the stored balance and the
stored rate, and it is not the value `0.9` of the decimal difference either. -/
theorem processPayment_debit_is_rounded :
    roundingLedger.getBalance "user1" = JSNum.fin (4278419646001971 / 4503599627370496) ∧
    ("text-generation", JSNum.fin (3602879701896397 / 72057594037927936))
      ∈ GMPayer.rateTable ∧
    geNum (roundingLedger.getBalance "user1")
      (JSNum.fin (3602879701896397 / 72057594037927936)) = true ∧
    (roundingLedger.processPayment demoEnv "user1" "text-generation" []).2.getBalance "user1"
      = JSNum.fin (2026619832316723 / 2251799813685248) ∧
    (2026619832316723 / 2251799813685248 : ℚ)
      ≠ 4278419646001971 / 4503599627370496 - 3602879701896397 / 72057594037927936 ∧
    (roundingLedger.processPayment demoEnv "user1" "text-generation" []).2.getBalance "user1"
      ≠ JSNum.ofRat (0.95 - 0.05) ∧
    ¬ ∀ (s : GMPayer) (env : PaymentEnv) (u t : String) (md : Metadata) (b r : ℚ),
        (t, JSNum.fin r) ∈ GMPayer.rateTable → s.getBalance u = JSNum.fin b → r ≤ b →
        (s.processPayment env u t md).2.getBalance u = JSNum.fin (b - r) := by
  have h1 : roundingLedger.getBalance "user1"
      = JSNum.fin (4278419646001971 / 4503599627370496) := by decide!
  have h2 : ("text-generation", JSNum.fin (3602879701896397 / 72057594037927936))
      ∈ GMPayer.rateTable := by decide!
  have h3 : (roundingLedger.processPayment demoEnv "user1" "text-generation"
      []).2.getBalance "user1" = JSNum.fin (2026619832316723 / 2251799813685248) := by decide!
  have h4 : (2026619832316723 / 2251799813685248 : ℚ)
      ≠ 4278419646001971 / 4503599627370496 - 3602879701896397 / 72057594037927936 := by
    norm_num
  refine ⟨h1, h2, by decide!, h3, h4, by decide!, fun h => ?_⟩
  have h5 := h roundingLedger demoEnv "user1" "text-generation" [] _ _ h2 h1 (by norm_num)
  rw [h3] at h5
  exact h4 (JSNum.fin.inj h5)

/-- C1, amended: for every ledger state, user `u` and rate-table entry `(t, r)` with
`getBalance(u) >= r`, `processPayment(u, t, metadata)` returns a transaction, afterwards
`getBalance(u)` is the difference `balance - r` as JavaScript computes it (for a finite
balance `b` and the rate `q`: the binary64 value nearest to `b - q`, ties to even), and
the balance of every other user is unchanged. -/
theorem processPayment_debits_rate (s : GMPayer) (env : PaymentEnv) (u t : String)
    (md : Metadata) (r : JSNum) (ht : (t, r) ∈ GMPayer.rateTable)
    (hb : geNum (s.getBalance u) r = true) :
    (∃ tx, (s.processPayment env u t md).1 = Except.ok tx) ∧
    (s.processPayment env u t md).2.getBalance u = subNum (s.getBalance u) r ∧
    (∀ b q : ℚ, s.getBalance u = JSNum.fin b → r = JSNum.fin q →
      (s.processPayment env u t md).2.getBalance u = JSNum.ofRat (b - q)) ∧
    ∀ v, v ≠ u → (s.processPayment env u t md).2.getBalance v = s.getBalance v := by
  obtain ⟨hr, q, hq, hpos⟩ := GMPayer.rates_of_mem ht
  have htruthy : r.truthy = true := by simp [hq, JSNum.truthy, ne_of_gt hpos]
  rw [GMPayer.processPayment_number s env u t md r hr htruthy (ltNum_eq_false_of_geNum hb)]
  have hne : subNum (s.getBalance u) r ≠ JSNum.nan := by
    rw [hq]; exact GMPayer.subNum_getBalance_ne_nan s u q
  have hafter := GMPayer.getBalance_set_self
    (s.transactions.set (GMPayer.generateTransactionId env)
      { id := GMPayer.generateTransactionId env, userId := u, serviceType := t,
        amount := JSValue.number r, status := "completed", timestamp := env.date,
        metadata := md }) s.balances u _ hne
  refine ⟨⟨_, rfl⟩, hafter, ?_, ?_⟩
  · intro b q' hbal hr'
    rw [hafter, hbal, hr']
    rfl
  · intro v hv
    simp [GMPayer.getBalance, JSMap.get_set_ne _ _ _ _ hv]

/-- Witness for C1, amended: `user1` with balance 25 pays for a text generation. -/
theorem processPayment_debits_rate_witness :
    (("text-generation", JSNum.ofRat 0.05) ∈ GMPayer.rateTable ∧
      geNum (demoLedger.getBalance "user1") (JSNum.ofRat 0.05) = true) ∧
    ((∃ tx, (demoLedger.processPayment demoEnv "user1" "text-generation" []).1 = Except.ok tx) ∧
      (demoLedger.processPayment demoEnv "user1" "text-generation" []).2.getBalance "user1"
        = subNum (demoLedger.getBalance "user1") (JSNum.ofRat 0.05) ∧
      (∀ b q : ℚ, demoLedger.getBalance "user1" = JSNum.fin b → JSNum.ofRat 0.05 = JSNum.fin q →
        (demoLedger.processPayment demoEnv "user1" "text-generation" []).2.getBalance "user1"
          = JSNum.ofRat (b - q)) ∧
      ∀ v, v ≠ "user1" →
        (demoLedger.processPayment demoEnv "user1" "text-generation" []).2.getBalance v
          = demoLedger.getBalance v) :=
  ⟨⟨by decide!, by decide!⟩,
    processPayment_debits_rate demoLedger demoEnv "user1" "text-generation" []
      (JSNum.ofRat 0.05) (by decide!) (by decide!)⟩

/-- Rounding accumulates: from the balance 1, nineteen text generations leave
`0.049999999999999684`, which is below the rate, so the twentieth is refused with the
insufficient-balance error. -/
theorem twentieth_payment_refused :
    (LedgerOp.run (GMPayer.new.initializeUserBalance "user1" (JSNum.fin 1))
        (List.replicate 19
          (LedgerOp.processPayment demoEnv "user1" "text-generation" []))).getBalance "user1"
      = JSNum.fin (1801439850948187 / 36028797018963968) ∧
    ((LedgerOp.run (GMPayer.new.initializeUserBalance "user1" (JSNum.fin 1))
        (List.replicate 19
          (LedgerOp.processPayment demoEnv "user1" "text-generation" []))).processPayment
        demoEnv "user1" "text-generation" []).1
      = Except.error
          (PaymentError.insufficientBalance (JSValue.number (JSNum.ofRat 0.05))
            (JSNum.fin (1801439850948187 / 36028797018963968))) := by
  refine ⟨by decide!, by decide!⟩

/-- C2: for every ledger state, user `u` and rate-table entry `(t, r)` with
`getBalance(u) < r`, `processPayment(u, t, metadata)` throws the insufficient-balance
error and leaves the ledger (every balance, the whole transaction log) as it was; a user
without a balance entry counts as having balance zero. -/
theorem processPayment_insufficient_balance (s : GMPayer) (env : PaymentEnv) (u t : String)
    (md : Metadata) (r : JSNum) (ht : (t, r) ∈ GMPayer.rateTable)
    (hb : ltNum (s.getBalance u) r = true) :
    (s.processPayment env u t md).1
        = Except.error (PaymentError.insufficientBalance (JSValue.number r) (s.getBalance u)) ∧
    (s.processPayment env u t md).2 = s ∧
    (s.processPayment env u t md).2.balances = s.balances ∧
    (s.processPayment env u t md).2.transactions = s.transactions ∧
    (s.balances.get u = none → s.getBalance u = JSNum.fin 0) := by
  obtain ⟨hr, q, hq, hpos⟩ := GMPayer.rates_of_mem ht
  have htruthy : r.truthy = true := by simp [hq, JSNum.truthy, ne_of_gt hpos]
  have hb2 : ltNum (orZero (s.balances.get u)) r = true := hb
  refine ⟨?_, ?_, ?_, ?_, ?_⟩ <;>
    first
    | (intro hnone; simp [GMPayer.getBalance, hnone, orZero])
    | simp [GMPayer.processPayment, hr, JSValue.truthy, JSValue.toNumber, htruthy, hb2,
        GMPayer.getBalance]

/-- Witness for C2: a user without a balance entry cannot pay for a video. -/
theorem processPayment_insufficient_balance_witness :
    (("video-generation", JSNum.ofRat 1.00) ∈ GMPayer.rateTable ∧
      ltNum (demoLedger.getBalance "nobody") (JSNum.ofRat 1.00) = true) ∧
    ((demoLedger.processPayment demoEnv "nobody" "video-generation" []).1
        = Except.error (PaymentError.insufficientBalance (JSValue.number (JSNum.ofRat 1.00))
            (demoLedger.getBalance "nobody")) ∧
    (demoLedger.processPayment demoEnv "nobody" "video-generation" []).2 = demoLedger ∧
    (demoLedger.processPayment demoEnv "nobody" "video-generation" []).2.balances
        = demoLedger.balances ∧
    (demoLedger.processPayment demoEnv "nobody" "video-generation" []).2.transactions
        = demoLedger.transactions ∧
    (demoLedger.balances.get "nobody" = none →
      demoLedger.getBalance "nobody" = JSNum.fin 0)) :=
  ⟨⟨by decide!, by decide!⟩,
    processPayment_insufficient_balance demoLedger demoEnv "nobody" "video-generation" []
      (JSNum.ofRat 1.00) (by decide!) (by decide!)⟩

/-- C3 fails as stated: `initializeUserBalance` and `addFunds` store whatever amount they
are given, so a negative amount yields a negative balance. -/
theorem balance_negative_after_negative_amount :
    (LedgerOp.run GMPayer.new
        [LedgerOp.initializeUserBalance "user1" (JSNum.fin (-5))]).getBalance "user1"
      = JSNum.fin (-5) ∧
    (LedgerOp.run GMPayer.new [LedgerOp.addFunds "user2" (JSNum.fin (-3))]).getBalance "user2"
      = JSNum.fin (-3) ∧
    ¬ ∀ (ops : List LedgerOp) (u : String),
        geNum ((LedgerOp.run GMPayer.new ops).getBalance u) (JSNum.fin 0) = true := by
  have h1 : (LedgerOp.run GMPayer.new
      [LedgerOp.initializeUserBalance "user1" (JSNum.fin (-5))]).getBalance "user1"
        = JSNum.fin (-5) := by decide!
  refine ⟨h1, by decide!, fun h => ?_⟩
  have := h [LedgerOp.initializeUserBalance "user1" (JSNum.fin (-5))] "user1"
  rw [h1] at this
  revert this
  decide!

/-- C3, amended: in every ledger state reached from a new `GMPayer` by calls of
`initializeUserBalance` and `addFunds` with non-negative amounts and `processPayment` calls
with arbitrary arguments, `getBalance(u) >= 0` for every user `u`. -/
theorem balance_nonneg_of_nonneg_amounts (ops : List LedgerOp)
    (hops : ∀ op ∈ ops, op.AmountNonneg) (u : String) :
    geNum ((LedgerOp.run GMPayer.new ops).getBalance u) (JSNum.fin 0) = true := by
  have hnew : BalancesNonneg GMPayer.new := by
    intro v q hv
    simp [GMPayer.new, JSMap.get] at hv
  exact orZero_nonneg_of_balancesNonneg (balancesNonneg_run ops hnew hops) u

/-- Witness for C3, amended: initialise, pay, top up, and a payment that is refused. -/
theorem balance_nonneg_of_nonneg_amounts_witness :
    (∀ op ∈ [LedgerOp.initializeUserBalance "user1" (JSNum.fin 25),
              LedgerOp.processPayment demoEnv "user1" "video-generation" [],
              LedgerOp.addFunds "user1" (JSNum.fin 3),
              LedgerOp.processPayment demoEnv "user2" "video-generation" []],
        op.AmountNonneg) ∧
    geNum ((LedgerOp.run GMPayer.new
          [LedgerOp.initializeUserBalance "user1" (JSNum.fin 25),
           LedgerOp.processPayment demoEnv "user1" "video-generation" [],
           LedgerOp.addFunds "user1" (JSNum.fin 3),
           LedgerOp.processPayment demoEnv "user2" "video-generation" []]).getBalance "user1")
      (JSNum.fin 0) = true :=
  ⟨by simp [LedgerOp.AmountNonneg, geNum],
    balance_nonneg_of_nonneg_amounts _ (by simp [LedgerOp.AmountNonneg, geNum]) "user1"⟩

/-- Where the unknown-service-type guard does fire: a service type that is neither a key of
the rate table nor a property name inherited from `Object.prototype` is refused and the
ledger is left as it was. -/
theorem processPayment_unknown_of_undefined (s : GMPayer) (env : PaymentEnv) (u t : String)
    (md : Metadata) (h1 : GMPayer.rateTable.lookup t = none) (h2 : t ∉ objectPrototypeKeys) :
    s.processPayment env u t md = (Except.error (PaymentError.unknownServiceType t), s) := by
  have hr : GMPayer.rates t = JSValue.undefined := (GMPayer.rates_undefined_iff t).mpr ⟨h1, h2⟩
  simp [GMPayer.processPayment, hr, JSValue.truthy]

/-- C4 fails on the code: `"toString"` is not a key of the rate table, yet
`this.rates["toString"]` reads the inherited `Object.prototype.toString`, which is truthy,
so the guard `!rate` does not fire; the comparison with `NaN` is false, the payment goes
through, a transaction is logged and the balance of `user1` (25 before) becomes `NaN`,
which `getBalance` reports as 0. -/
theorem processPayment_inherited_key_not_refused :
    GMPayer.rateTable.lookup "toString" = none ∧
    demoLedger.getBalance "user1" = JSNum.fin 25 ∧
    demoLedger.processPayment demoEnv "user1" "toString" [] =
      (Except.ok
        { id := "gmp_1700000000000_k3x9q0z1a", userId := "user1", serviceType := "toString",
          amount := JSValue.object "Object.prototype.toString", status := "completed",
          timestamp := 1700000000000, metadata := [] },
        { transactions :=
            [("gmp_1700000000000_k3x9q0z1a",
              { id := "gmp_1700000000000_k3x9q0z1a", userId := "user1",
                serviceType := "toString",
                amount := JSValue.object "Object.prototype.toString", status := "completed",
                timestamp := 1700000000000, metadata := [] })],
          balances := [("user1", JSNum.nan), ("user2", JSNum.fin 15)] }) ∧
    (demoLedger.processPayment demoEnv "user1" "toString" []).2.getBalance "user1"
      = JSNum.fin 0 := by
  refine ⟨by decide!, by decide!, by decide!, by decide!⟩

/-- C5 fails as stated: when the generated transaction id is already a key of the log
(same clock reading, same random fragment), the successful payment overwrites the logged
transaction: the log keeps its size and the earlier transaction is gone. -/
theorem processPayment_id_collision_overwrites :
    (demoLedger.processPayment demoEnv "user1" "text-generation" []).2.transactions
      = [("gmp_1700000000000_k3x9q0z1a",
          { id := "gmp_1700000000000_k3x9q0z1a", userId := "user1",
            serviceType := "text-generation", amount := JSValue.number (JSNum.ofRat 0.05),
            status := "completed", timestamp := 1700000000000, metadata := [] })] ∧
    ((demoLedger.processPayment demoEnv "user1" "text-generation" []).2.processPayment
        demoEnv "user2" "image-generation" []).1
      = Except.ok
          { id := "gmp_1700000000000_k3x9q0z1a", userId := "user2",
            serviceType := "image-generation", amount := JSValue.number (JSNum.ofRat 0.25),
            status := "completed", timestamp := 1700000000000, metadata := [] } ∧
    ((demoLedger.processPayment demoEnv "user1" "text-generation" []).2.processPayment
        demoEnv "user2" "image-generation" []).2.transactions
      = [("gmp_1700000000000_k3x9q0z1a",
          { id := "gmp_1700000000000_k3x9q0z1a", userId := "user2",
            serviceType := "image-generation", amount := JSValue.number (JSNum.ofRat 0.25),
            status := "completed", timestamp := 1700000000000, metadata := [] })] ∧
    ((demoLedger.processPayment demoEnv "user1" "text-generation" []).2.processPayment
        demoEnv "user2" "image-generation" []).2.transactions.size
      ≠ (demoLedger.processPayment demoEnv "user1" "text-generation" []).2.transactions.size + 1 ∧
    ((demoLedger.processPayment demoEnv "user1" "text-generation" []).2.processPayment
        demoEnv "user2" "image-generation" []).2.transactions.get "gmp_1700000000000_k3x9q0z1a"
      ≠ (demoLedger.processPayment demoEnv "user1" "text-generation" []).2.transactions.get
          "gmp_1700000000000_k3x9q0z1a" := by
  refine ⟨by decide!, by decide!, by decide!, by decide!, by decide!⟩

/-- C5, amended: every successful `processPayment(u, t, metadata)` whose generated
transaction id is not yet a key of the log returns a transaction with that id,
`userId = u`, `serviceType = t`, `amount` the rate read for `t`, status `completed` and
the given metadata, and appends it to the log: the log is the old log followed by the new
transaction, it holds exactly one more transaction, and every transaction logged before is
still there unchanged. -/
theorem processPayment_appends_transaction (s s' : GMPayer) (env : PaymentEnv) (u t : String)
    (md : Metadata) (tx : Transaction)
    (hfresh : s.transactions.get (GMPayer.generateTransactionId env) = none)
    (hok : s.processPayment env u t md = (Except.ok tx, s')) :
    tx.id = GMPayer.generateTransactionId env ∧ tx.userId = u ∧ tx.serviceType = t ∧
    tx.amount = GMPayer.rates t ∧ tx.status = "completed" ∧ tx.metadata = md ∧
    s'.transactions = s.transactions ++ [(tx.id, tx)] ∧
    s'.transactions.size = s.transactions.size + 1 ∧
    ∀ k old, s.transactions.get k = some old → s'.transactions.get k = some old := by
  unfold GMPayer.processPayment at hok
  by_cases h1 : (!(GMPayer.rates t).truthy) = true
  · simp [h1] at hok
  · by_cases h2 : ltNum (orZero (s.balances.get u)) (GMPayer.rates t).toNumber = true
    · simp [h1, h2] at hok
    · simp only [h1, h2, Bool.false_eq_true, if_false, Prod.mk.injEq, Except.ok.injEq] at hok
      obtain ⟨htx, hs⟩ := hok
      subst htx
      subst hs
      refine ⟨rfl, rfl, rfl, rfl, rfl, rfl, ?_, ?_, ?_⟩
      · exact JSMap.set_eq_append _ _ _ hfresh
      · exact JSMap.size_set_of_get_none _ _ _ hfresh
      · intro k old hk
        have hne : k ≠ GMPayer.generateTransactionId env := by
          intro hEq
          rw [hEq, hfresh] at hk
          exact Option.noConfusion hk
        simpa [JSMap.get_set_ne _ _ _ _ hne] using hk

/-- Witness for C5, amended: a second payment with a different random fragment. -/
theorem processPayment_appends_transaction_witness :
    (demoLedger.processPayment demoEnv "user1" "text-generation" []).2.transactions.get
        (GMPayer.generateTransactionId
          { now := 1700000000000, random := "p0", date := 1700000000001 })
      = none ∧
    ((demoLedger.processPayment demoEnv "user1" "text-generation" []).2.processPayment
        { now := 1700000000000, random := "p0", date := 1700000000001 }
        "user2" "image-generation" [("prompt", "a cat")]).1
      = Except.ok
          { id := "gmp_1700000000000_p0", userId := "user2", serviceType := "image-generation",
            amount := JSValue.number (JSNum.ofRat 0.25), status := "completed", timestamp := 1700000000001,
            metadata := [("prompt", "a cat")] } ∧
    ((demoLedger.processPayment demoEnv "user1" "text-generation" []).2.processPayment
        { now := 1700000000000, random := "p0", date := 1700000000001 }
        "user2" "image-generation" [("prompt", "a cat")]).2.transactions.size
      = (demoLedger.processPayment demoEnv "user1" "text-generation" []).2.transactions.size + 1 :=
  ⟨by decide!, by decide!,
    (processPayment_appends_transaction
      (demoLedger.processPayment demoEnv "user1" "text-generation" []).2
      ((demoLedger.processPayment demoEnv "user1" "text-generation" []).2.processPayment
        { now := 1700000000000, random := "p0", date := 1700000000001 }
        "user2" "image-generation" [("prompt", "a cat")]).2
      { now := 1700000000000, random := "p0", date := 1700000000001 }
      "user2" "image-generation" [("prompt", "a cat")]
      { id := "gmp_1700000000000_p0", userId := "user2", serviceType := "image-generation",
        amount := JSValue.number (JSNum.ofRat 0.25), status := "completed", timestamp := 1700000000001,
        metadata := [("prompt", "a cat")] }
      (by decide!) (by decide!)).2.2.2.2.2.2.2.1⟩

/-! ## Registry invariant -/

theorem historyConsistent_registerContent (t : ERC8004Tracker)
    (c owner ct model prompt ptx : String) (t1 t2 : Nat) :
    HistoryConsistent (t.registerContent c owner ct model prompt ptx t1 t2).2 c
      (t.registerContent c owner ct model prompt ptx t1 t2).1 := by
  refine ⟨_, JSMap.get_set_self _ _ _, ?_, ?_, ?_⟩ <;> simp [ERC8004Tracker.registerContent]

theorem registryConsistent_registerContent {t : ERC8004Tracker} (h : RegistryConsistent t)
    (c owner ct model prompt ptx : String) (t1 t2 : Nat) :
    RegistryConsistent (t.registerContent c owner ct model prompt ptx t1 t2).2 := by
  intro c' record hrec
  by_cases hc : c' = c
  · subst hc
    have hrec2 : (t.registerContent c' owner ct model prompt ptx t1 t2).1 = record := by
      have := JSMap.get_set_self t.contentRegistry c'
        (t.registerContent c' owner ct model prompt ptx t1 t2).1
      simp only [ERC8004Tracker.registerContent] at hrec this ⊢
      rw [this] at hrec
      exact Option.some.inj hrec
    rw [← hrec2]
    exact historyConsistent_registerContent t c' owner ct model prompt ptx t1 t2
  · simp only [ERC8004Tracker.registerContent, JSMap.get_set_ne _ _ _ _ hc] at hrec
    obtain ⟨history, h1, h2, h3, h4⟩ := h c' record hrec
    refine ⟨history, ?_, h2, h3, h4⟩
    simpa [ERC8004Tracker.registerContent, JSMap.get_set_ne _ _ _ _ hc] using h1

theorem registryConsistent_transferOwnership {t : ERC8004Tracker} (h : RegistryConsistent t)
    (c a b : String) (ptx : Option String) (now : Nat) :
    RegistryConsistent (t.transferOwnership c a b ptx now).2 := by
  unfold ERC8004Tracker.transferOwnership
  cases hget : t.contentRegistry.get c with
  | none => simpa using h
  | some content =>
    by_cases hown : content.owner = a
    · simp only [hown, ne_eq, not_true_eq_false, if_false]
      intro c' record hrec
      obtain ⟨history, h1, h2, h3, _⟩ := h c content hget
      by_cases hc : c' = c
      · subst hc
        simp only [JSMap.get_set_self, Option.some.injEq] at hrec
        refine ⟨history ++ [OwnershipEvent.mk (some a) b now "transfer" ptx], ?_, ?_, ?_, ?_⟩
        · simp [JSMap.get_set_self, h1]
        · simp
        · cases history with
          | nil => exact absurd rfl h2
          | cons e rest => simpa using h3
        · simp [← hrec]
      · simp only [JSMap.get_set_ne _ _ _ _ hc] at hrec
        obtain ⟨history', g1, g2, g3, g4⟩ := h c' record hrec
        exact ⟨history', by simpa [JSMap.get_set_ne _ _ _ _ hc] using g1, g2, g3, g4⟩
    · simpa [hown] using h

theorem registryConsistent_addMetadata {t : ERC8004Tracker} (h : RegistryConsistent t)
    (c key value : String) : RegistryConsistent (t.addMetadata c key value) := by
  intro c' record hrec
  exact h c' record hrec

theorem registryConsistent_apply {t : ERC8004Tracker} (h : RegistryConsistent t)
    (op : TrackerOp) : RegistryConsistent (TrackerOp.apply t op) := by
  cases op with
  | registerContent c owner ct model prompt ptx t1 t2 =>
    exact registryConsistent_registerContent h c owner ct model prompt ptx t1 t2
  | transferOwnership c a b ptx now => exact registryConsistent_transferOwnership h c a b ptx now
  | addMetadata c key value => exact registryConsistent_addMetadata h c key value

theorem registryConsistent_run (ops : List TrackerOp) {t : ERC8004Tracker}
    (h : RegistryConsistent t) : RegistryConsistent (TrackerOp.run t ops) := by
  induction ops generalizing t with
  | nil => simpa [TrackerOp.run] using h
  | cons op rest ih =>
    have := ih (registryConsistent_apply h op)
    simpa [TrackerOp.run] using this

theorem registryConsistent_new : RegistryConsistent ERC8004Tracker.new := by
  intro c record hrec
  simp [ERC8004Tracker.new, JSMap.get] at hrec

/-! ## Claims on the ownership registry -/

/-- C6: in every registry state reached from a new `ERC8004Tracker` by any sequence of
`registerContent`, `transferOwnership` (returning or throwing) and `addMetadata` calls,
every registered content id has a non-empty ownership history whose first entry has
transactionType `creation`, and the owner of its content record is the owner of the
last history entry. -/
theorem reachable_registry_consistent (ops : List TrackerOp) (c : String)
    (record : ContentRecord)
    (hreg : (TrackerOp.run ERC8004Tracker.new ops).contentRegistry.get c = some record) :
    ∃ history : List OwnershipEvent,
      (TrackerOp.run ERC8004Tracker.new ops).ownershipHistory.get c = some history ∧
      history ≠ [] ∧
      history.head?.map OwnershipEvent.transactionType = some "creation" ∧
      history.getLast?.map OwnershipEvent.owner = some record.owner :=
  registryConsistent_run ops registryConsistent_new c record hreg

/-- Witness for C6: register, a refused transfer, a transfer, a metadata write, a second
transfer. -/
theorem reachable_registry_consistent_witness :
    (TrackerOp.run ERC8004Tracker.new
        [TrackerOp.registerContent "content_1" "alice" "text-generation" "gpt-4" "a haiku"
            "gmp_1" 100 101,
         TrackerOp.transferOwnership "content_1" "mallory" "mallory" none 102,
         TrackerOp.transferOwnership "content_1" "alice" "bob" (some "gmp_2") 103,
         TrackerOp.addMetadata "content_1" "license" "cc-by",
         TrackerOp.transferOwnership "content_1" "bob" "carol" none 104]).contentRegistry.get
        "content_1"
      = some { id := "content_1", owner := "carol", contentType := "text-generation",
               aiModel := "gpt-4", prompt := "a haiku", creationTime := 100,
               paymentTransaction := "gmp_1", status := "active" } ∧
    ∃ history : List OwnershipEvent,
      (TrackerOp.run ERC8004Tracker.new
        [TrackerOp.registerContent "content_1" "alice" "text-generation" "gpt-4" "a haiku"
            "gmp_1" 100 101,
         TrackerOp.transferOwnership "content_1" "mallory" "mallory" none 102,
         TrackerOp.transferOwnership "content_1" "alice" "bob" (some "gmp_2") 103,
         TrackerOp.addMetadata "content_1" "license" "cc-by",
         TrackerOp.transferOwnership "content_1" "bob" "carol" none 104]).ownershipHistory.get
          "content_1" = some history ∧
      history ≠ [] ∧
      history.head?.map OwnershipEvent.transactionType = some "creation" ∧
      history.getLast?.map OwnershipEvent.owner = some "carol" :=
  ⟨by decide,
    reachable_registry_consistent
      [TrackerOp.registerContent "content_1" "alice" "text-generation" "gpt-4" "a haiku"
          "gmp_1" 100 101,
       TrackerOp.transferOwnership "content_1" "mallory" "mallory" none 102,
       TrackerOp.transferOwnership "content_1" "alice" "bob" (some "gmp_2") 103,
       TrackerOp.addMetadata "content_1" "license" "cc-by",
       TrackerOp.transferOwnership "content_1" "bob" "carol" none 104]
      "content_1"
      { id := "content_1", owner := "carol", contentType := "text-generation",
        aiModel := "gpt-4", prompt := "a haiku", creationTime := 100,
        paymentTransaction := "gmp_1", status := "active" }
      (by decide)⟩

/-- C7: for every registered content id `c` whose record's owner is `a`,
`transferOwnership(c, a, b, tx)` returns `true`, sets the record's owner to `b` leaving
every other field of that record and every other content record unchanged (no record is
added), and appends exactly one event to the history of `c`: a `transfer` event with
previousOwner `a`, owner `b` and paymentTx `tx`; the earlier entries of that history and
the histories of other ids are unchanged. -/
theorem transferOwnership_by_owner (t : ERC8004Tracker) (c a b : String)
    (ptx : Option String) (now : Nat) (record : ContentRecord)
    (hreg : t.contentRegistry.get c = some record) (hown : record.owner = a) :
    (t.transferOwnership c a b ptx now).1 = Except.ok true ∧
    (t.transferOwnership c a b ptx now).2.contentRegistry.get c
      = some { record with owner := b } ∧
    (∀ c', c' ≠ c → (t.transferOwnership c a b ptx now).2.contentRegistry.get c'
      = t.contentRegistry.get c') ∧
    (t.transferOwnership c a b ptx now).2.contentRegistry.size = t.contentRegistry.size ∧
    (t.transferOwnership c a b ptx now).2.ownershipHistory.get c
      = some ((t.ownershipHistory.get c).getD [] ++
          [OwnershipEvent.mk (some a) b now "transfer" ptx]) ∧
    (∀ c', c' ≠ c → (t.transferOwnership c a b ptx now).2.ownershipHistory.get c'
      = t.ownershipHistory.get c') ∧
    (t.transferOwnership c a b ptx now).2.metadata = t.metadata := by
  simp only [ERC8004Tracker.transferOwnership, hreg, hown, ne_eq, not_true_eq_false, if_false]
  refine ⟨trivial, JSMap.get_set_self _ _ _, ?_, ?_, JSMap.get_set_self _ _ _, ?_, trivial⟩
  · intro c' hc
    exact JSMap.get_set_ne _ _ _ _ hc
  · exact JSMap.size_set_of_get_some _ _ _ _ hreg
  · intro c' hc
    exact JSMap.get_set_ne _ _ _ _ hc

/-- Witness for C7: `alice` transfers `content_1` to `bob`. -/
theorem transferOwnership_by_owner_witness :
    demoRegistry.contentRegistry.get "content_1"
      = some { id := "content_1", owner := "alice", contentType := "text-generation",
               aiModel := "gpt-4", prompt := "a haiku", creationTime := 1700000000100,
               paymentTransaction := "gmp_1700000000000_k3x9q0z1a", status := "active" } ∧
    (demoRegistry.transferOwnership "content_1" "alice" "bob" none 1700000000200).1
      = Except.ok true ∧
    (demoRegistry.transferOwnership "content_1" "alice" "bob" none
        1700000000200).2.contentRegistry.get "content_1"
      = some { id := "content_1", owner := "bob", contentType := "text-generation",
               aiModel := "gpt-4", prompt := "a haiku", creationTime := 1700000000100,
               paymentTransaction := "gmp_1700000000000_k3x9q0z1a", status := "active" } :=
  ⟨by decide,
    (transferOwnership_by_owner demoRegistry "content_1" "alice" "bob" none 1700000000200
      { id := "content_1", owner := "alice", contentType := "text-generation",
        aiModel := "gpt-4", prompt := "a haiku", creationTime := 1700000000100,
        paymentTransaction := "gmp_1700000000000_k3x9q0z1a", status := "active" }
      (by decide) rfl).1,
    (transferOwnership_by_owner demoRegistry "content_1" "alice" "bob" none 1700000000200
      { id := "content_1", owner := "alice", contentType := "text-generation",
        aiModel := "gpt-4", prompt := "a haiku", creationTime := 1700000000100,
        paymentTransaction := "gmp_1700000000000_k3x9q0z1a", status := "active" }
      (by decide) rfl).2.1⟩

/-- C8: `transferOwnership(c, x, b, tx)` throws the content-not-found error when `c` is
not registered, and the only-current-owner error when `c` is registered but `x` is not
the record's owner; in both cases the whole registry state (every record and its owner,
every ownership history, the metadata) is left as it was. -/
theorem transferOwnership_refused (t : ERC8004Tracker) (c x b : String)
    (ptx : Option String) (now : Nat) :
    (t.contentRegistry.get c = none →
      t.transferOwnership c x b ptx now
        = (Except.error (TrackerError.contentNotFound c), t)) ∧
    (∀ record, t.contentRegistry.get c = some record → record.owner ≠ x →
      t.transferOwnership c x b ptx now = (Except.error TrackerError.onlyCurrentOwner, t)) := by
  constructor
  · intro hnone
    simp [ERC8004Tracker.transferOwnership, hnone]
  · intro record hreg hne
    simp [ERC8004Tracker.transferOwnership, hreg, hne]

/-- Witness for C8: an unknown id, and a transfer attempted by a non-owner. -/
theorem transferOwnership_refused_witness :
    (demoRegistry.contentRegistry.get "content_9" = none ∧
      demoRegistry.transferOwnership "content_9" "alice" "bob" none 1700000000200
        = (Except.error (TrackerError.contentNotFound "content_9"), demoRegistry)) ∧
    (demoRegistry.contentRegistry.get "content_1"
        = some { id := "content_1", owner := "alice", contentType := "text-generation",
                 aiModel := "gpt-4", prompt := "a haiku", creationTime := 1700000000100,
                 paymentTransaction := "gmp_1700000000000_k3x9q0z1a", status := "active" } ∧
      demoRegistry.transferOwnership "content_1" "mallory" "mallory" none 1700000000200
        = (Except.error TrackerError.onlyCurrentOwner, demoRegistry)) :=
  ⟨⟨by decide,
      (transferOwnership_refused demoRegistry "content_9" "alice" "bob" none 1700000000200).1
        (by decide)⟩,
    ⟨by decide,
      (transferOwnership_refused demoRegistry "content_1" "mallory" "mallory" none
        1700000000200).2
        { id := "content_1", owner := "alice", contentType := "text-generation",
          aiModel := "gpt-4", prompt := "a haiku", creationTime := 1700000000100,
          paymentTransaction := "gmp_1700000000000_k3x9q0z1a", status := "active" }
        (by decide) (by decide)⟩⟩

/-- C9: for every content id `c` not yet in the registry,
`registerContent(c, owner, contentType, model, prompt, paymentTxId)` returns and stores
under `c` (as the newest entry of the registry) a record with id `c`, the given owner,
content type, model, prompt and payment transaction id, and status `active`, and seeds the
history of `c` with exactly one entry, a `creation` event whose owner is the given owner
and whose paymentTx is the given payment transaction id; records and histories of other
ids are unchanged. -/
theorem registerContent_fresh (t : ERC8004Tracker)
    (c owner ct model prompt ptx : String) (t1 t2 : Nat)
    (hfresh : t.contentRegistry.get c = none) :
    (t.registerContent c owner ct model prompt ptx t1 t2).1
      = ContentRecord.mk c owner ct model prompt t1 ptx "active" ∧
    (t.registerContent c owner ct model prompt ptx t1 t2).2.contentRegistry
      = t.contentRegistry ++ [(c, ContentRecord.mk c owner ct model prompt t1 ptx "active")] ∧
    (t.registerContent c owner ct model prompt ptx t1 t2).2.contentRegistry.get c
      = some (ContentRecord.mk c owner ct model prompt t1 ptx "active") ∧
    (t.registerContent c owner ct model prompt ptx t1 t2).2.ownershipHistory.get c
      = some [OwnershipEvent.mk none owner t2 "creation" (some ptx)] ∧
    (∀ c', c' ≠ c →
      (t.registerContent c owner ct model prompt ptx t1 t2).2.contentRegistry.get c'
        = t.contentRegistry.get c' ∧
      (t.registerContent c owner ct model prompt ptx t1 t2).2.ownershipHistory.get c'
        = t.ownershipHistory.get c') := by
  simp only [ERC8004Tracker.registerContent]
  refine ⟨trivial, JSMap.set_eq_append _ _ _ hfresh, JSMap.get_set_self _ _ _,
    JSMap.get_set_self _ _ _, ?_⟩
  intro c' hc
  exact ⟨JSMap.get_set_ne _ _ _ _ hc, JSMap.get_set_ne _ _ _ _ hc⟩

/-- Witness for C9: a second content id is registered next to `content_1`. -/
theorem registerContent_fresh_witness :
    demoRegistry.contentRegistry.get "content_2" = none ∧
    (demoRegistry.registerContent "content_2" "bob" "image-generation" "dall-e-3" "a cat"
        "gmp_2" 200 201).2.contentRegistry.get "content_2"
      = some (ContentRecord.mk "content_2" "bob" "image-generation" "dall-e-3" "a cat" 200
          "gmp_2" "active") ∧
    (demoRegistry.registerContent "content_2" "bob" "image-generation" "dall-e-3" "a cat"
        "gmp_2" 200 201).2.ownershipHistory.get "content_2"
      = some [OwnershipEvent.mk none "bob" 201 "creation" (some "gmp_2")] :=
  ⟨by decide,
    (registerContent_fresh demoRegistry "content_2" "bob" "image-generation" "dall-e-3" "a cat"
      "gmp_2" 200 201 (by decide)).2.2.1,
    (registerContent_fresh demoRegistry "content_2" "bob" "image-generation" "dall-e-3" "a cat"
      "gmp_2" 200 201 (by decide)).2.2.2.1⟩

/-- C10 fails as stated: `registerContent` has no existence check.  Called again with the
id of `content_1` (owned by `alice`) it returns a record, and afterwards the stored record
names `mallory` as owner and the history is a single creation event for `mallory`. -/
theorem registerContent_again_overwrites :
    demoRegistry.contentRegistry.get "content_1"
      = some (ContentRecord.mk "content_1" "alice" "text-generation" "gpt-4" "a haiku"
          1700000000100 "gmp_1700000000000_k3x9q0z1a" "active") ∧
    demoRegistry.ownershipHistory.get "content_1"
      = some [OwnershipEvent.mk none "alice" 1700000000101 "creation"
          (some "gmp_1700000000000_k3x9q0z1a")] ∧
    (demoRegistry.registerContent "content_1" "mallory" "image-generation" "dall-e-3" "x"
        "gmp_3" 300 301).1
      = ContentRecord.mk "content_1" "mallory" "image-generation" "dall-e-3" "x" 300 "gmp_3"
          "active" ∧
    (demoRegistry.registerContent "content_1" "mallory" "image-generation" "dall-e-3" "x"
        "gmp_3" 300 301).2.contentRegistry.get "content_1"
      = some (ContentRecord.mk "content_1" "mallory" "image-generation" "dall-e-3" "x" 300
          "gmp_3" "active") ∧
    (demoRegistry.registerContent "content_1" "mallory" "image-generation" "dall-e-3" "x"
        "gmp_3" 300 301).2.ownershipHistory.get "content_1"
      = some [OwnershipEvent.mk none "mallory" 301 "creation" (some "gmp_3")] ∧
    (demoRegistry.registerContent "content_1" "mallory" "image-generation" "dall-e-3" "x"
        "gmp_3" 300 301).2.contentRegistry.get "content_1"
      ≠ demoRegistry.contentRegistry.get "content_1" := by
  refine ⟨by decide, by decide, by decide, by decide, by decide, by decide⟩

/-- C10, amended: for every content id `c` that is already registered, calling
`registerContent` again with id `c` does not fail: it returns the new record, which
replaces the stored one in place (the registry keeps its size), and the history of `c` is
replaced by a single `creation` event for the new owner; records and histories of other
ids are unchanged. -/
theorem registerContent_existing_replaces (t : ERC8004Tracker)
    (c owner ct model prompt ptx : String) (t1 t2 : Nat) (old : ContentRecord)
    (hreg : t.contentRegistry.get c = some old) :
    (t.registerContent c owner ct model prompt ptx t1 t2).1
      = ContentRecord.mk c owner ct model prompt t1 ptx "active" ∧
    (t.registerContent c owner ct model prompt ptx t1 t2).2.contentRegistry.get c
      = some (ContentRecord.mk c owner ct model prompt t1 ptx "active") ∧
    (t.registerContent c owner ct model prompt ptx t1 t2).2.contentRegistry.size
      = t.contentRegistry.size ∧
    (t.registerContent c owner ct model prompt ptx t1 t2).2.ownershipHistory.get c
      = some [OwnershipEvent.mk none owner t2 "creation" (some ptx)] ∧
    (∀ c', c' ≠ c →
      (t.registerContent c owner ct model prompt ptx t1 t2).2.contentRegistry.get c'
        = t.contentRegistry.get c' ∧
      (t.registerContent c owner ct model prompt ptx t1 t2).2.ownershipHistory.get c'
        = t.ownershipHistory.get c') := by
  simp only [ERC8004Tracker.registerContent]
  refine ⟨trivial, JSMap.get_set_self _ _ _, JSMap.size_set_of_get_some _ _ _ _ hreg,
    JSMap.get_set_self _ _ _, ?_⟩
  intro c' hc
  exact ⟨JSMap.get_set_ne _ _ _ _ hc, JSMap.get_set_ne _ _ _ _ hc⟩

/-- Witness for C10, amended: `content_1` is registered a second time. -/
theorem registerContent_existing_replaces_witness :
    demoRegistry.contentRegistry.get "content_1"
      = some (ContentRecord.mk "content_1" "alice" "text-generation" "gpt-4" "a haiku"
          1700000000100 "gmp_1700000000000_k3x9q0z1a" "active") ∧
    (demoRegistry.registerContent "content_1" "mallory" "image-generation" "dall-e-3" "x"
        "gmp_3" 300 301).2.contentRegistry.size = demoRegistry.contentRegistry.size :=
  ⟨by decide,
    (registerContent_existing_replaces demoRegistry "content_1" "mallory" "image-generation"
      "dall-e-3" "x" "gmp_3" 300 301
      (ContentRecord.mk "content_1" "alice" "text-generation" "gpt-4" "a haiku"
        1700000000100 "gmp_1700000000000_k3x9q0z1a" "active")
      (by decide)).2.2.1⟩

/-! ## Claims on the read methods -/

/-- C18: for every ledger state and user `u`, `getTransactionHistory(u)` returns exactly
the logged transactions whose userId is `u` (a permutation of them: each once, none of
another user), with timestamps non-increasing along the returned list; it is a read that
builds a new list, so the log is not modified. -/
theorem getTransactionHistory_sorted_perm (s : GMPayer) (u : String) :
    List.Perm (s.getTransactionHistory u)
      (s.transactions.values.filter (fun tx => tx.userId = u)) ∧
    List.Sorted (fun a b : Transaction => b.timestamp ≤ a.timestamp)
      (s.getTransactionHistory u) ∧
    (∀ tx, tx ∈ s.getTransactionHistory u ↔ tx ∈ s.transactions.values ∧ tx.userId = u) := by
  haveI : IsTotal Transaction (fun a b => b.timestamp ≤ a.timestamp) :=
    ⟨fun a b => le_total b.timestamp a.timestamp⟩
  haveI : IsTrans Transaction (fun a b => b.timestamp ≤ a.timestamp) :=
    ⟨fun _ _ _ hab hbc => le_trans hbc hab⟩
  have hperm : List.Perm (s.getTransactionHistory u)
      (s.transactions.values.filter (fun tx => tx.userId = u)) :=
    List.perm_insertionSort _ _
  refine ⟨hperm, List.sorted_insertionSort _ _, ?_⟩
  intro tx
  rw [hperm.mem_iff]
  simp [List.mem_filter]

/-- C17 fails as stated: for an id that is not registered `verifyOwnership` returns
`undefined`, which is not the boolean `false`. -/
theorem verifyOwnership_unknown_is_undefined :
    demoRegistry.contentRegistry.get "content_9" = none ∧
    demoRegistry.verifyOwnership "content_9" "alice" = VerifyResult.undefined ∧
    demoRegistry.verifyOwnership "content_9" "alice" ≠ VerifyResult.boolean false := by
  refine ⟨by decide, by decide, by decide⟩

/-- C17, amended: `verifyOwnership(c, o)` is a read that never throws: for every registry
state it returns the boolean `true` when `c` is registered and its record's owner equals
`o`, the boolean `false` when `c` is registered and the owner differs, and `undefined`
(falsy, not a boolean) when `c` is unknown; so its result is truthy exactly when `c` is
registered to `o`.  It writes nothing. -/
theorem verifyOwnership_result (t : ERC8004Tracker) (c o : String) :
    (∀ record, t.contentRegistry.get c = some record → record.owner = o →
      t.verifyOwnership c o = VerifyResult.boolean true) ∧
    (∀ record, t.contentRegistry.get c = some record → record.owner ≠ o →
      t.verifyOwnership c o = VerifyResult.boolean false) ∧
    (t.contentRegistry.get c = none → t.verifyOwnership c o = VerifyResult.undefined) ∧
    ((t.verifyOwnership c o).truthy = true ↔
      ∃ record, t.contentRegistry.get c = some record ∧ record.owner = o) := by
  unfold ERC8004Tracker.verifyOwnership
  cases h : t.contentRegistry.get c with
  | none => simp [VerifyResult.truthy]
  | some record => simp [VerifyResult.truthy]

/-- Witness for C17, amended: the owner, another user, and an unknown id. -/
theorem verifyOwnership_result_witness :
    demoRegistry.verifyOwnership "content_1" "alice" = VerifyResult.boolean true ∧
    demoRegistry.verifyOwnership "content_1" "mallory" = VerifyResult.boolean false ∧
    demoRegistry.verifyOwnership "content_9" "alice" = VerifyResult.undefined :=
  ⟨(verifyOwnership_result demoRegistry "content_1" "alice").1
      (ContentRecord.mk "content_1" "alice" "text-generation" "gpt-4" "a haiku"
        1700000000100 "gmp_1700000000000_k3x9q0z1a" "active") (by decide) (by decide),
    (verifyOwnership_result demoRegistry "content_1" "mallory").2.1
      (ContentRecord.mk "content_1" "alice" "text-generation" "gpt-4" "a haiku"
        1700000000100 "gmp_1700000000000_k3x9q0z1a" "active") (by decide) (by decide),
    (verifyOwnership_result demoRegistry "content_9" "alice").2.2.1 (by decide)⟩

/-- The proof hash is a function of the four identity fields. -/
theorem generateProofHash_congr (r1 r2 : ContentRecord) (hid : r1.id = r2.id)
    (howner : r1.owner = r2.owner) (htime : r1.creationTime = r2.creationTime)
    (hmodel : r1.aiModel = r2.aiModel) :
    ERC8004Tracker.generateProofHash r1 = ERC8004Tracker.generateProofHash r2 := by
  simp [ERC8004Tracker.generateProofHash, hid, howner, htime, hmodel]

/-- What `generateOwnershipProof` returns for a registered id and its owner. -/
theorem generateOwnershipProof_of_owner (t : ERC8004Tracker) (c o : String) (now : Nat)
    (record : ContentRecord) (hreg : t.contentRegistry.get c = some record)
    (hown : record.owner = o) :
    t.generateOwnershipProof c o now
      = some (OwnershipProof.mk c o record.creationTime record.aiModel
          record.paymentTransaction (ERC8004Tracker.generateProofHash record) now) := by
  simp [ERC8004Tracker.generateOwnershipProof, hreg, hown]

/-- What `generateOwnershipProof` returns for a registered id and somebody else. -/
theorem generateOwnershipProof_of_not_owner (t : ERC8004Tracker) (c o : String) (now : Nat)
    (record : ContentRecord) (hreg : t.contentRegistry.get c = some record)
    (hown : record.owner ≠ o) : t.generateOwnershipProof c o now = none := by
  simp [ERC8004Tracker.generateOwnershipProof, hreg, hown]

/-- What `generateOwnershipProof` returns for an unknown id. -/
theorem generateOwnershipProof_of_unknown (t : ERC8004Tracker) (c o : String) (now : Nat)
    (hreg : t.contentRegistry.get c = none) : t.generateOwnershipProof c o now = none := by
  simp [ERC8004Tracker.generateOwnershipProof, hreg]

/-- C14 fails on the code: the digest is the base64 text of the four fields concatenated
without separators, with the creation time rendered to the second.  Two records with
different id and owner (`ab` owned by `c`, `a` owned by `bc`) get the same digest, and so
do two records whose creation times differ by less than a second. -/
theorem generateProofHash_collision :
    (ContentRecord.mk "ab" "c" "text-generation" "gpt-4" "p" 1700000000100 "gmp_1"
        "active").id
      ≠ (ContentRecord.mk "a" "bc" "text-generation" "gpt-4" "p" 1700000000100 "gmp_1"
          "active").id ∧
    ERC8004Tracker.generateProofHash
        (ContentRecord.mk "ab" "c" "text-generation" "gpt-4" "p" 1700000000100 "gmp_1" "active")
      = ERC8004Tracker.generateProofHash
        (ContentRecord.mk "a" "bc" "text-generation" "gpt-4" "p" 1700000000100 "gmp_1"
          "active") ∧
    ERC8004Tracker.generateProofHash
        (ContentRecord.mk "ab" "c" "text-generation" "gpt-4" "p" 1700000000100 "gmp_1" "active")
      = "YWJjVHVlIE5vdiAxNCAyMDIzIDIyOjEzOjIwIEdNVCswMDAwIChDb29yZGluYXRlZCBVbml2ZXJzYWwgVGltZSlncHQtNA==" ∧
    ERC8004Tracker.generateProofHash
        (ContentRecord.mk "ab" "c" "text-generation" "gpt-4" "p" 1700000000100 "gmp_1" "active")
      = ERC8004Tracker.generateProofHash
        (ContentRecord.mk "ab" "c" "text-generation" "gpt-4" "p" 1700000000999 "gmp_1"
          "active") := by
  refine ⟨by decide, by decide!, by decide!, by decide!⟩

/-- C15: `generateOwnershipProof` is deterministic and its digest depends only on the
identity fields: two calls for the same registry state, id and owner return the same
proofHash (only the proof timestamp may differ), any two records that agree on id, owner,
creationTime and aiModel have the same digest, and so the proofs issued for them carry
the same proofHash whatever their prompt, content type, status and payment transaction
id. -/
theorem proofHash_depends_on_identity_fields :
    (∀ (t : ERC8004Tracker) (c o : String) (now₁ now₂ : Nat),
      (t.generateOwnershipProof c o now₁).map OwnershipProof.proofHash
        = (t.generateOwnershipProof c o now₂).map OwnershipProof.proofHash) ∧
    (∀ r₁ r₂ : ContentRecord, r₁.id = r₂.id → r₁.owner = r₂.owner →
      r₁.creationTime = r₂.creationTime → r₁.aiModel = r₂.aiModel →
      ERC8004Tracker.generateProofHash r₁ = ERC8004Tracker.generateProofHash r₂) ∧
    (∀ (t₁ t₂ : ERC8004Tracker) (c o : String) (now₁ now₂ : Nat) (r₁ r₂ : ContentRecord),
      t₁.contentRegistry.get c = some r₁ → t₂.contentRegistry.get c = some r₂ →
      r₁.id = r₂.id → r₁.owner = r₂.owner → r₁.creationTime = r₂.creationTime →
      r₁.aiModel = r₂.aiModel →
      (t₁.generateOwnershipProof c o now₁).map OwnershipProof.proofHash
        = (t₂.generateOwnershipProof c o now₂).map OwnershipProof.proofHash) := by
  refine ⟨?_, generateProofHash_congr, ?_⟩
  · intro t c o now₁ now₂
    unfold ERC8004Tracker.generateOwnershipProof
    cases t.contentRegistry.get c with
    | none => rfl
    | some record =>
      by_cases h : record.owner = o
      · simp [h]
      · simp [h]
  · intro t₁ t₂ c o now₁ now₂ r₁ r₂ h₁ h₂ hid howner htime hmodel
    by_cases h : r₁.owner = o
    · rw [generateOwnershipProof_of_owner t₁ c o now₁ r₁ h₁ h,
        generateOwnershipProof_of_owner t₂ c o now₂ r₂ h₂ (howner ▸ h)]
      simp [generateProofHash_congr r₁ r₂ hid howner htime hmodel]
    · rw [generateOwnershipProof_of_not_owner t₁ c o now₁ r₁ h₁ h,
        generateOwnershipProof_of_not_owner t₂ c o now₂ r₂ h₂ (howner ▸ h)]

/-- Witness for C15: the record of `content_1` and a record with the same identity fields
and different prompt, content type, status and payment transaction id. -/
theorem proofHash_depends_on_identity_fields_witness :
    (demoRegistry.generateOwnershipProof "content_1" "alice" 1).map OwnershipProof.proofHash
      = (demoRegistry.generateOwnershipProof "content_1" "alice" 2).map
          OwnershipProof.proofHash ∧
    ERC8004Tracker.generateProofHash
        (ContentRecord.mk "content_1" "alice" "text-generation" "gpt-4" "a haiku"
          1700000000100 "gmp_1700000000000_k3x9q0z1a" "active")
      = ERC8004Tracker.generateProofHash
        (ContentRecord.mk "content_1" "alice" "image-generation" "gpt-4" "a sonnet"
          1700000000100 "gmp_2" "retired") :=
  ⟨proofHash_depends_on_identity_fields.1 demoRegistry "content_1" "alice" 1 2,
    proofHash_depends_on_identity_fields.2.1 _ _ rfl rfl rfl rfl⟩

/-- C16: `generateOwnershipProof(c, o)` returns `null` exactly when `c` is not registered
or `o` is not the owner in the record of `c`; otherwise it returns a proof whose contentId
is `c`, owner is `o`, creationTime, aiModel and paymentTx are those of the record (for a
freshly registered record: the payment transaction id it was registered with).  A proof is
returned if and only if `verifyOwnership(c, o)` is truthy, and after a successful transfer
from `a` to `b` with `a` different from `b`, `a` gets `null` and `b` gets a proof. -/
theorem generateOwnershipProof_iff_owner (t : ERC8004Tracker) (c o : String) (now : Nat) :
    (t.generateOwnershipProof c o now = none ↔
      (t.contentRegistry.get c = none ∨
        ∃ record, t.contentRegistry.get c = some record ∧ record.owner ≠ o)) ∧
    (∀ record, t.contentRegistry.get c = some record → record.owner = o →
      t.generateOwnershipProof c o now
        = some (OwnershipProof.mk c o record.creationTime record.aiModel
            record.paymentTransaction (ERC8004Tracker.generateProofHash record) now)) ∧
    (∀ (ct model prompt ptx : String) (t1 t2 : Nat),
      ((t.registerContent c o ct model prompt ptx t1 t2).2.generateOwnershipProof c o now).map
          OwnershipProof.paymentTx = some ptx) ∧
    ((t.generateOwnershipProof c o now).isSome = true ↔
      (t.verifyOwnership c o).truthy = true) ∧
    (∀ (b : String) (ptx : Option String) (now' : Nat), o ≠ b →
      (t.transferOwnership c o b ptx now').1 = Except.ok true →
      (t.transferOwnership c o b ptx now').2.generateOwnershipProof c o now = none ∧
      ((t.transferOwnership c o b ptx now').2.generateOwnershipProof c b now).isSome = true) := by
  refine ⟨?_, ?_, ?_, ?_, ?_⟩
  · cases h : t.contentRegistry.get c with
    | none => simp [generateOwnershipProof_of_unknown t c o now h]
    | some record =>
      by_cases hown : record.owner = o
      · simp [generateOwnershipProof_of_owner t c o now record h hown, hown]
      · simp [generateOwnershipProof_of_not_owner t c o now record h hown, hown]
  · intro record hreg hown
    exact generateOwnershipProof_of_owner t c o now record hreg hown
  · intro ct model prompt ptx t1 t2
    rw [generateOwnershipProof_of_owner _ c o now
      (ContentRecord.mk c o ct model prompt t1 ptx "active")
      (by simp [ERC8004Tracker.registerContent, JSMap.get_set_self]) rfl]
    rfl
  · unfold ERC8004Tracker.verifyOwnership
    cases h : t.contentRegistry.get c with
    | none => simp [generateOwnershipProof_of_unknown t c o now h, VerifyResult.truthy]
    | some record =>
      by_cases hown : record.owner = o
      · simp [generateOwnershipProof_of_owner t c o now record h hown, hown,
          VerifyResult.truthy]
      · simp [generateOwnershipProof_of_not_owner t c o now record h hown, hown,
          VerifyResult.truthy]
  · intro b ptx now' hne hok
    cases h : t.contentRegistry.get c with
    | none => simp [ERC8004Tracker.transferOwnership, h] at hok
    | some record =>
      by_cases hown : record.owner = o
      · have hreg' : (t.transferOwnership c o b ptx now').2.contentRegistry.get c
            = some { record with owner := b } := by
          simp [ERC8004Tracker.transferOwnership, h, hown, JSMap.get_set_self]
        constructor
        · exact generateOwnershipProof_of_not_owner _ c o now _ hreg' (Ne.symm hne)
        · rw [generateOwnershipProof_of_owner _ c b now _ hreg' rfl]
          rfl
      · simp [ERC8004Tracker.transferOwnership, h, hown] at hok

/-- Witness for C16: `alice` transfers `content_1` to `bob`. -/
theorem generateOwnershipProof_iff_owner_witness :
    "alice" ≠ "bob" ∧
    (demoRegistry.transferOwnership "content_1" "alice" "bob" none 1700000000200).1
      = Except.ok true ∧
    (demoRegistry.transferOwnership "content_1" "alice" "bob" none
        1700000000200).2.generateOwnershipProof "content_1" "alice" 1700000000300 = none ∧
    ((demoRegistry.transferOwnership "content_1" "alice" "bob" none
        1700000000200).2.generateOwnershipProof "content_1" "bob" 1700000000300).isSome
      = true :=
  ⟨by decide, by decide,
    (generateOwnershipProof_iff_owner demoRegistry "content_1" "alice" 1700000000300).2.2.2.2
      "bob" none 1700000000200 (by decide) (by decide)⟩

/-! ## Lemmas on the orchestrator -/

theorem JSMap.get_append_of_ne {ν : Type} (m : JSMap ν) (k k' : String) (v : ν)
    (h : k' ≠ k) : JSMap.get (m ++ [(k, v)]) k' = JSMap.get m k' := by
  induction m with
  | nil => simp [JSMap.get, Ne.symm h]
  | cons p rest ih =>
    obtain ⟨k0, v0⟩ := p
    by_cases h0 : k0 = k'
    · simp [JSMap.get, h0]
    · simpa [JSMap.get, h0] using ih

namespace X402Orchestrator

/-- Unfolding of `executeWorkflow` on a registered workflow whose loop ends without a
throw. -/
theorem executeWorkflow_of_completed {σ ρ π : Type} (o : X402Orchestrator σ ρ π)
    (env : JobEnv) (name : String) (payload : π) (w w' : σ) (steps : List (Step σ ρ π))
    (job : Job ρ π) (hreg : o.workflows.get name = some steps)
    (hrun : runSteps payload steps 0 (newJob env name payload) w = (none, job, w')) :
    o.executeWorkflow env name payload w =
      (Except.ok { job with status := "completed", endTime := some env.endTime },
        X402Orchestrator.mk o.workflows
          ((o.activeJobs.set (generateJobId env) (newJob env name payload)).set
            (generateJobId env)
            { job with status := "completed", endTime := some env.endTime }),
        w') := by
  simp [executeWorkflow, hreg, hrun]

/-- Unfolding of `executeWorkflow` on a registered workflow whose loop ends with a
throw. -/
theorem executeWorkflow_of_failed {σ ρ π : Type} (o : X402Orchestrator σ ρ π)
    (env : JobEnv) (name : String) (payload : π) (w w' : σ) (steps : List (Step σ ρ π))
    (job : Job ρ π) (e : JSError) (hreg : o.workflows.get name = some steps)
    (hrun : runSteps payload steps 0 (newJob env name payload) w = (some e, job, w')) :
    o.executeWorkflow env name payload w =
      (Except.error e,
        X402Orchestrator.mk o.workflows
          ((o.activeJobs.set (generateJobId env) (newJob env name payload)).set
            (generateJobId env) { job with status := "failed", error := some e }),
        w') := by
  simp [executeWorkflow, hreg, hrun]

/-- The loop over `pre ++ rest` runs `pre` and, when no step of `pre` throws, goes on
with `rest`. -/
theorem runSteps_append {σ ρ π : Type} (payload : π) (pre rest : List (Step σ ρ π)) :
    ∀ (i : Nat) (job : Job ρ π) (w : σ),
      runSteps payload (pre ++ rest) i job w =
        match runSteps payload pre i job w with
        | (none, job', w') => runSteps payload rest (i + pre.length) job' w'
        | (some e, job', w') => (some e, job', w') := by
  induction pre with
  | nil => intro i job w; simp [runSteps]
  | cons step pre ih =>
    intro i job w
    simp only [List.cons_append, runSteps, List.length_cons]
    cases hexec : step.execute payload job.results w with
    | mk r rest1 =>
      obtain ⟨res1, w1⟩ := rest1
      cases r with
      | error e => simp
      | ok v =>
        simp only [List.append_eq]
        rw [ih]
        have : i + 1 + pre.length = i + (pre.length + 1) := by omega
        rw [this]

/-- A loop whose first step throws stops there, with the results object as that step left
it. -/
theorem runSteps_cons_error {σ ρ π : Type} (payload : π) (step : Step σ ρ π)
    (rest : List (Step σ ρ π)) (i : Nat) (job : Job ρ π) (w w' : σ) (e : JSError)
    (results : JSObject ρ)
    (h : step.execute payload job.results w = (Except.error e, results, w')) :
    runSteps payload (step :: rest) i job w = (some e, { job with results := results }, w') := by
  simp [runSteps, h]

/-- The loop at a step that throws after a prefix without a throw. -/
theorem runSteps_first_failure {σ ρ π : Type} (payload : π) (pre post : List (Step σ ρ π))
    (failing : Step σ ρ π) (i : Nat) (job jobK : Job ρ π) (w wK w' : σ) (e : JSError)
    (results : JSObject ρ)
    (hpre : runSteps payload pre i job w = (none, jobK, wK))
    (hfail : failing.execute payload jobK.results wK = (Except.error e, results, w')) :
    runSteps payload (pre ++ failing :: post) i job w
      = (some e, { jobK with results := results }, w') := by
  rw [runSteps_append, hpre]
  exact runSteps_cons_error payload failing post _ jobK wK w' e results hfail

end X402Orchestrator

/-! ## Claims on the orchestrator -/

/-- C13: for every workflow name that is not registered, `executeWorkflow(name, payload)`
throws the workflow-not-found error and leaves the orchestrator (its job table included)
and the state of the components as they were: no step is executed and no job is added. -/
theorem executeWorkflow_not_registered {σ ρ π : Type} (o : X402Orchestrator σ ρ π)
    (env : JobEnv) (name : String) (payload : π) (w : σ)
    (hreg : o.workflows.get name = none) :
    o.executeWorkflow env name payload w
      = (Except.error (JSError.error ("Workflow '" ++ name ++ "' not found")), o, w) := by
  simp [X402Orchestrator.executeWorkflow, hreg]

/-- Witness for C13: the orchestrator of `demo.js` has no workflow named `publish`. -/
theorem executeWorkflow_not_registered_witness :
    (demoOrchestrator demoWorkflowEnv).workflows.get "publish" = none ∧
    (demoOrchestrator demoWorkflowEnv).executeWorkflow demoJobEnv "publish"
        (Payload.mk (some "a haiku") (some "text-generation") (some "demo-user") none)
        (demoWorld "demo-user")
      = (Except.error (JSError.error "Workflow 'publish' not found"),
          demoOrchestrator demoWorkflowEnv, demoWorld "demo-user") :=
  ⟨by simp [demoOrchestrator, X402Orchestrator.registerWorkflow, X402Orchestrator.new,
      JSMap.set, JSMap.get],
    executeWorkflow_not_registered (demoOrchestrator demoWorkflowEnv) demoJobEnv "publish"
      (Payload.mk (some "a haiku") (some "text-generation") (some "demo-user") none)
      (demoWorld "demo-user")
      (by simp [demoOrchestrator, X402Orchestrator.registerWorkflow, X402Orchestrator.new,
        JSMap.set, JSMap.get])⟩

/-- The loop ends without a throw exactly when every step returned a result. -/
theorem runSteps_none_iff_all_returned {σ ρ π : Type} (payload : π)
    (steps : List (Step σ ρ π)) :
    ∀ (i : Nat) (job : Job ρ π) (w : σ),
      ((X402Orchestrator.runSteps payload steps i job w).1 = none ↔
        (X402Orchestrator.stepResults payload steps job.results w).length = steps.length) ∧
      (X402Orchestrator.stepResults payload steps job.results w).length ≤ steps.length := by
  induction steps with
  | nil => intro i job w; simp [X402Orchestrator.runSteps, X402Orchestrator.stepResults]
  | cons step rest ih =>
    intro i job w
    simp only [X402Orchestrator.runSteps, X402Orchestrator.stepResults, List.length_cons]
    cases hexec : step.execute payload job.results w with
    | mk r rest1 =>
      obtain ⟨res1, w1⟩ := rest1
      cases r with
      | error e => simp
      | ok v =>
        have h := ih (i + 1)
          { job with results := res1.assign step.name v
                     status := "completed_step_" ++ toString (i + 1) } w1
        simp only [List.length_cons, add_left_inj, add_le_add_iff_right]
        exact h

/-- C12: for every registered workflow and payload, if step `k` is the first step that
throws, with error `e` (the steps before it return, and it throws on the results and
component state they leave), then `executeWorkflow` throws that same `e`, the job stored in
the job table has status `failed` and error `e`, with the results object as step `k` left
it, and the component state is the one step `k` left: the steps after `k` are not
executed, whatever they are.  If no step throws, the returned job has status `completed`.
The job ends `completed` if and only if every step returned a result, and `failed`
otherwise. -/
theorem executeWorkflow_failed_or_completed {σ ρ π : Type} (o : X402Orchestrator σ ρ π)
    (env : JobEnv) (name : String) (payload : π) (w : σ) (steps : List (Step σ ρ π))
    (hreg : o.workflows.get name = some steps) :
    (∀ (pre post : List (Step σ ρ π)) (failing : Step σ ρ π) (jobK : Job ρ π) (wK w' : σ)
        (e : JSError) (resK : JSObject ρ),
      steps = pre ++ failing :: post →
      X402Orchestrator.runSteps payload pre 0 (X402Orchestrator.newJob env name payload) w
        = (none, jobK, wK) →
      failing.execute payload jobK.results wK = (Except.error e, resK, w') →
      (o.executeWorkflow env name payload w).1 = Except.error e ∧
      (o.executeWorkflow env name payload w).2.1.activeJobs.get
          (X402Orchestrator.generateJobId env)
        = some { jobK with results := resK, status := "failed", error := some e } ∧
      (o.executeWorkflow env name payload w).2.2 = w' ∧
      ∀ post' : List (Step σ ρ π),
        ((o.registerWorkflow name (pre ++ failing :: post')).executeWorkflow env name payload
            w).1 = Except.error e ∧
        ((o.registerWorkflow name (pre ++ failing :: post')).executeWorkflow env name payload
            w).2.1.activeJobs.get (X402Orchestrator.generateJobId env)
          = some { jobK with results := resK, status := "failed", error := some e } ∧
        ((o.registerWorkflow name (pre ++ failing :: post')).executeWorkflow env name payload
            w).2.2 = w') ∧
    (∀ (job : Job ρ π) (wEnd : σ),
      X402Orchestrator.runSteps payload steps 0 (X402Orchestrator.newJob env name payload) w
        = (none, job, wEnd) →
      (o.executeWorkflow env name payload w).1
        = Except.ok { job with status := "completed", endTime := some env.endTime }) ∧
    (∃ job : Job ρ π,
      (o.executeWorkflow env name payload w).2.1.activeJobs.get
          (X402Orchestrator.generateJobId env) = some job ∧
      (job.status = "completed" ∨ job.status = "failed") ∧
      (job.status = "completed" ↔
        (X402Orchestrator.stepResults payload steps JSObject.empty w).length = steps.length) ∧
      (job.status = "completed" ↔
        (o.executeWorkflow env name payload w).1 = Except.ok job)) := by
  refine ⟨?_, ?_, ?_⟩
  · intro pre post failing jobK wK w' e resK hsteps hpre hfail
    have key : ∀ (o' : X402Orchestrator σ ρ π) (post' : List (Step σ ρ π)),
        o'.workflows.get name = some (pre ++ failing :: post') →
        (o'.executeWorkflow env name payload w).1 = Except.error e ∧
        (o'.executeWorkflow env name payload w).2.1.activeJobs.get
            (X402Orchestrator.generateJobId env)
          = some { jobK with results := resK, status := "failed", error := some e } ∧
        (o'.executeWorkflow env name payload w).2.2 = w' := by
      intro o' post' hreg'
      rw [X402Orchestrator.executeWorkflow_of_failed o' env name payload w w' _
        { jobK with results := resK } e hreg'
        (X402Orchestrator.runSteps_first_failure payload pre post' failing 0 _ jobK w wK w' e
          resK hpre hfail)]
      exact ⟨rfl, JSMap.get_set_self _ _ _, rfl⟩
    obtain ⟨h1, h2, h3⟩ := key o post (hsteps ▸ hreg)
    refine ⟨h1, h2, h3, ?_⟩
    intro post'
    exact key _ post' (JSMap.get_set_self _ _ _)
  · intro job wEnd hrun
    rw [X402Orchestrator.executeWorkflow_of_completed o env name payload w wEnd steps job hreg
      hrun]
  · have hiff := (runSteps_none_iff_all_returned payload steps 0
      (X402Orchestrator.newJob env name payload) w).1
    cases hrun : X402Orchestrator.runSteps payload steps 0
        (X402Orchestrator.newJob env name payload) w with
    | mk err rest =>
      obtain ⟨job, wEnd⟩ := rest
      rw [hrun] at hiff
      cases err with
      | none =>
        rw [X402Orchestrator.executeWorkflow_of_completed o env name payload w wEnd steps job
          hreg hrun]
        refine ⟨_, JSMap.get_set_self _ _ _, Or.inl rfl, ?_, ?_⟩
        · have : (X402Orchestrator.newJob env name payload : Job ρ π).results
              = JSObject.empty := rfl
          rw [this] at hiff
          simpa using hiff
        · simp
      | some e =>
        rw [X402Orchestrator.executeWorkflow_of_failed o env name payload w wEnd steps job e
          hreg hrun]
        refine ⟨_, JSMap.get_set_self _ _ _, Or.inr rfl, ?_, ?_⟩
        · have : (X402Orchestrator.newJob env name payload : Job ρ π).results
              = JSObject.empty := rfl
          rw [this] at hiff
          have hne : ("failed" : String) ≠ "completed" := by decide
          simpa [hne] using hiff
        · have hne : ("failed" : String) ≠ "completed" := by decide
          simp [hne]

/-- Witness for C12: in a workflow of three steps that count their executions, the second
step throws; the workflow throws its error and two steps have been executed. -/
theorem executeWorkflow_failed_or_completed_witness :
    (X402Orchestrator.new.registerWorkflow "count" failingWorkflow).workflows.get "count"
      = some failingWorkflow ∧
    ((X402Orchestrator.new.registerWorkflow "count" failingWorkflow).executeWorkflow
        demoJobEnv "count" () 0).1 = Except.error (JSError.error "boom") ∧
    ((X402Orchestrator.new.registerWorkflow "count" failingWorkflow).executeWorkflow
        demoJobEnv "count" () 0).2.1.activeJobs.get (X402Orchestrator.generateJobId demoJobEnv)
      = some
          { id := "x402_1700000000000_j0b1d0001", workflow := "count", status := "failed",
            startTime := 1700000000001, payload := (),
            results := { props := [("a", 1)] }, endTime := none,
            error := some (JSError.error "boom") } ∧
    ((X402Orchestrator.new.registerWorkflow "count" failingWorkflow).executeWorkflow
        demoJobEnv "count" () 0).2.2 = 2 :=
  ⟨JSMap.get_set_self _ _ _,
    ((executeWorkflow_failed_or_completed
        (X402Orchestrator.new.registerWorkflow "count" failingWorkflow) demoJobEnv "count" () 0
        failingWorkflow (JSMap.get_set_self _ _ _)).1
      [{ name := "a", execute := fun _ results w => (Except.ok 1, results, w + 1) }]
      [{ name := "c", execute := fun _ results w => (Except.ok 3, results, w + 1) }]
      { name := "b",
        execute := fun _ results w => (Except.error (JSError.error "boom"), results, w + 1) }
      { id := "x402_1700000000000_j0b1d0001", workflow := "count",
        status := "completed_step_1", startTime := 1700000000001, payload := (),
        results := { props := [("a", 1)] }, endTime := none, error := none }
      1 2 (JSError.error "boom") { props := [("a", 1)] } rfl (by decide) rfl).1,
    ((executeWorkflow_failed_or_completed
        (X402Orchestrator.new.registerWorkflow "count" failingWorkflow) demoJobEnv "count" () 0
        failingWorkflow (JSMap.get_set_self _ _ _)).1
      [{ name := "a", execute := fun _ results w => (Except.ok 1, results, w + 1) }]
      [{ name := "c", execute := fun _ results w => (Except.ok 3, results, w + 1) }]
      { name := "b",
        execute := fun _ results w => (Except.error (JSError.error "boom"), results, w + 1) }
      { id := "x402_1700000000000_j0b1d0001", workflow := "count",
        status := "completed_step_1", startTime := 1700000000001, payload := (),
        results := { props := [("a", 1)] }, endTime := none, error := none }
      1 2 (JSError.error "boom") { props := [("a", 1)] } rfl (by decide) rfl).2.1,
    ((executeWorkflow_failed_or_completed
        (X402Orchestrator.new.registerWorkflow "count" failingWorkflow) demoJobEnv "count" () 0
        failingWorkflow (JSMap.get_set_self _ _ _)).1
      [{ name := "a", execute := fun _ results w => (Except.ok 1, results, w + 1) }]
      [{ name := "c", execute := fun _ results w => (Except.ok 3, results, w + 1) }]
      { name := "b",
        execute := fun _ results w => (Except.error (JSError.error "boom"), results, w + 1) }
      { id := "x402_1700000000000_j0b1d0001", workflow := "count",
        status := "completed_step_1", startTime := 1700000000001, payload := (),
        results := { props := [("a", 1)] }, endTime := none, error := none }
      1 2 (JSError.error "boom") { props := [("a", 1)] } rfl (by decide) rfl).2.2.1⟩

/-! ## The results object after the loop -/

theorem JSMap.get_eq_none_of_not_mem_keys {ν : Type} (m : JSMap ν) (k : String)
    (h : k ∉ m.map Prod.fst) : JSMap.get m k = none := by
  induction m with
  | nil => rfl
  | cons p rest ih =>
    obtain ⟨k0, v0⟩ := p
    simp only [List.map_cons, List.mem_cons, not_or] at h
    simp [JSMap.get, Ne.symm h.1, ih h.2]

/-- An object without array-index keys enumerates its properties in creation order. -/
theorem JSObject.entries_eq_props {ν : Type} (o : JSObject ν)
    (h : ∀ p ∈ o.props, isArrayIndex p.1 = false) : o.entries = o.props := by
  unfold JSObject.entries
  have h1 : o.props.filter (fun p => isArrayIndex p.1) = [] := by
    rw [List.filter_eq_nil_iff]
    intro p hp
    simp [h p hp]
  have h2 : o.props.filter (fun p => !isArrayIndex p.1) = o.props := by
    rw [List.filter_eq_self]
    intro p hp
    simp [h p hp]
  rw [h1, h2]
  rfl

/-- Assigning under a key that is not `__proto__` and not yet an own key appends a
property. -/
theorem JSObject.assign_fresh {ν : Type} (o : JSObject ν) (key : String) (v : ν)
    (hproto : key ≠ "__proto__") (hfresh : o.props.get key = none) :
    (o.assign key v).props = o.props ++ [(key, v)] := by
  simp [JSObject.assign, hproto, JSMap.set_eq_append _ _ _ hfresh]

namespace X402Orchestrator

/-- When no step modifies the results object, the step names are pairwise distinct, none
is `__proto__` and none is an own key yet, the loop appends to the results exactly the
pairs of `stepResults`. -/
theorem runSteps_results_props {σ ρ π : Type} (payload : π) (steps : List (Step σ ρ π)) :
    ∀ (i : Nat) (job : Job ρ π) (w : σ),
      (∀ s ∈ steps, s.KeepsResults) →
      (steps.map Step.name).Nodup →
      (∀ s ∈ steps, s.name ≠ "__proto__") →
      (∀ s ∈ steps, job.results.props.get s.name = none) →
      (runSteps payload steps i job w).2.1.results.props
        = job.results.props ++ stepResults payload steps job.results w := by
  induction steps with
  | nil => intro i job w _ _ _ _; simp [runSteps, stepResults]
  | cons step rest ih =>
    intro i job w hkeep hnodup hproto hfresh
    simp only [runSteps, stepResults]
    have hres := hkeep step (List.mem_cons_self _ _) payload job.results w
    cases hexec : step.execute payload job.results w with
    | mk r rest1 =>
      obtain ⟨res1, w1⟩ := rest1
      rw [hexec] at hres
      simp only at hres
      subst hres
      cases r with
      | error e => simp
      | ok v =>
        simp only []
        have hnd : step.name ∉ rest.map Step.name ∧ (rest.map Step.name).Nodup :=
          List.nodup_cons.mp hnodup
        have hassign := JSObject.assign_fresh job.results step.name v
          (hproto step (List.mem_cons_self _ _)) (hfresh step (List.mem_cons_self _ _))
        rw [ih (i + 1) _ w1 (fun s hs => hkeep s (List.mem_cons_of_mem _ hs)) hnd.2
          (fun s hs => hproto s (List.mem_cons_of_mem _ hs))]
        · simp [hassign]
        · intro s hs
          have hne : s.name ≠ step.name := by
            intro heq
            exact hnd.1 (heq ▸ List.mem_map_of_mem Step.name hs)
          show (job.results.assign step.name v).props.get s.name = none
          rw [hassign, JSMap.get_append_of_ne _ _ _ _ hne]
          exact hfresh s (List.mem_cons_of_mem _ hs)

/-- When the loop ends without a throw, `stepResults` has one pair per step, in declared
order. -/
theorem stepResults_names_of_completed {σ ρ π : Type} (payload : π)
    (steps : List (Step σ ρ π)) :
    ∀ (i : Nat) (job job' : Job ρ π) (w w' : σ),
      runSteps payload steps i job w = (none, job', w') →
      (stepResults payload steps job.results w).map Prod.fst = steps.map Step.name := by
  induction steps with
  | nil => intro i job job' w w' _; simp [stepResults]
  | cons step rest ih =>
    intro i job job' w w' hrun
    simp only [runSteps, stepResults] at hrun ⊢
    cases hexec : step.execute payload job.results w with
    | mk r rest1 =>
      obtain ⟨res1, w1⟩ := rest1
      rw [hexec] at hrun
      cases r with
      | error e => simp at hrun
      | ok v =>
        simp only [List.map_cons, List.cons.injEq, true_and]
        exact ih (i + 1) _ job' w1 w' hrun

end X402Orchestrator

/-- What the results object holds after a loop that ends without a throw, started on the
empty results object, when no step modifies the results object. -/
theorem results_of_completed_run {σ ρ π : Type} (payload : π) (steps : List (Step σ ρ π))
    (job0 job : Job ρ π) (w wEnd : σ) (hempty : job0.results = JSObject.empty)
    (hkeep : ∀ s ∈ steps, s.KeepsResults)
    (hnodup : (steps.map Step.name).Nodup)
    (hproto : ∀ s ∈ steps, s.name ≠ "__proto__")
    (hindex : ∀ s ∈ steps, isArrayIndex s.name = false)
    (hrun : X402Orchestrator.runSteps payload steps 0 job0 w = (none, job, wEnd)) :
    job.results.entries = X402Orchestrator.stepResults payload steps JSObject.empty w ∧
    job.results.keys = steps.map Step.name ∧
    job.results.props.map Prod.fst = steps.map Step.name := by
  have hprops := X402Orchestrator.runSteps_results_props payload steps 0 job0 w hkeep hnodup
    hproto (by intro s _; rw [hempty]; rfl)
  rw [hrun, hempty] at hprops
  simp only [JSObject.empty, List.nil_append] at hprops
  have hnames := X402Orchestrator.stepResults_names_of_completed payload steps 0 job0 job w
    wEnd hrun
  rw [hempty] at hnames
  simp only [JSObject.empty] at hnames
  have hkeys : job.results.props.map Prod.fst = steps.map Step.name := by
    rw [hprops]; exact hnames
  have hentries : job.results.entries = job.results.props := by
    apply JSObject.entries_eq_props
    intro p hp
    have hmem : p.1 ∈ steps.map Step.name := hkeys ▸ List.mem_map_of_mem Prod.fst hp
    obtain ⟨s, hs, hsp⟩ := List.mem_map.mp hmem
    rw [← hsp]
    exact hindex s hs
  refine ⟨?_, ?_, hkeys⟩
  · rw [hentries, hprops]; rfl
  · unfold JSObject.keys
    rw [hentries]
    exact hkeys

/-- C11 fails as stated for two kinds of step names and for steps that write to the results
object.  In a workflow whose steps are named `2` and `1` (distinct, both return) the
results object enumerates `1` before `2`, not in declared order; in a workflow whose steps
are named `first` and `__proto__` (distinct, both return) the results object has one entry
for two steps; in a workflow whose steps are named `a` and `b` and whose second step
assigns `previousResults.extra = 0` the results object has three entries for two steps;
and when the second step deletes `previousResults.a` and throws, the stored job has no
result for the first step. -/
theorem results_not_one_entry_per_step_in_order :
    numberedWorkflow.map Step.name = ["2", "1"] ∧
    ((X402Orchestrator.new.registerWorkflow "numbered" numberedWorkflow).executeWorkflow
        demoJobEnv "numbered" () ()).1
      = Except.ok
          { id := "x402_1700000000000_j0b1d0001", workflow := "numbered",
            status := "completed", startTime := 1700000000001, payload := (),
            results := { props := [("2", 20), ("1", 10)] },
            endTime := some 1700000003000, error := none } ∧
    (JSObject.mk [("2", 20), ("1", 10)] : JSObject Nat).entries = [("1", 10), ("2", 20)] ∧
    protoWorkflow.map Step.name = ["first", "__proto__"] ∧
    ((X402Orchestrator.new.registerWorkflow "proto" protoWorkflow).executeWorkflow
        demoJobEnv "proto" () ()).1
      = Except.ok
          { id := "x402_1700000000000_j0b1d0001", workflow := "proto",
            status := "completed", startTime := 1700000000001, payload := (),
            results := { props := [("first", 1)] },
            endTime := some 1700000003000, error := none } ∧
    (JSObject.mk [("first", 1)] : JSObject Nat).entries = [("first", 1)] ∧
    writingWorkflow.map Step.name = ["a", "b"] ∧
    ((X402Orchestrator.new.registerWorkflow "writing" writingWorkflow).executeWorkflow
        demoJobEnv "writing" () ()).1
      = Except.ok
          { id := "x402_1700000000000_j0b1d0001", workflow := "writing",
            status := "completed", startTime := 1700000000001, payload := (),
            results := { props := [("a", 1), ("extra", 0), ("b", 2)] },
            endTime := some 1700000003000, error := none } ∧
    (JSObject.mk [("a", 1), ("extra", 0), ("b", 2)] : JSObject Nat).keys = ["a", "extra", "b"] ∧
    deletingWorkflow.map Step.name = ["a", "b"] ∧
    ((X402Orchestrator.new.registerWorkflow "deleting" deletingWorkflow).executeWorkflow
        demoJobEnv "deleting" () ()).1 = Except.error (JSError.error "boom") ∧
    ((X402Orchestrator.new.registerWorkflow "deleting" deletingWorkflow).executeWorkflow
        demoJobEnv "deleting" () ()).2.1.activeJobs.get
          (X402Orchestrator.generateJobId demoJobEnv)
      = some
          { id := "x402_1700000000000_j0b1d0001", workflow := "deleting",
            status := "failed", startTime := 1700000000001, payload := (),
            results := { props := [] }, endTime := none,
            error := some (JSError.error "boom") } := by
  refine ⟨by decide, by decide, by decide, by decide, by decide, by decide, by decide,
    by decide, by decide, by decide, by decide, by decide⟩

/-- C11, amended: for every registered workflow whose steps do not modify the results
object they are given and whose step names are pairwise distinct, none of them `__proto__`
and none an array index (a canonical decimal numeral below `2^32 - 1`), and every payload:
if all steps return, the returned job's results object
enumerates exactly one entry per step, keyed by the step name and holding the result that
step returned, in declared step order; if step `k` is the first step to throw, the job
stored in the job table has a results object that enumerates exactly the results of the
steps before `k`, in declared order, and has no entry for step `k` or any later step. -/
theorem executeWorkflow_results_in_declared_order {σ ρ π : Type}
    (o : X402Orchestrator σ ρ π) (env : JobEnv) (name : String) (payload : π) (w : σ)
    (steps : List (Step σ ρ π)) (hreg : o.workflows.get name = some steps)
    (hkeep : ∀ s ∈ steps, s.KeepsResults)
    (hnodup : (steps.map Step.name).Nodup)
    (hproto : ∀ s ∈ steps, s.name ≠ "__proto__")
    (hindex : ∀ s ∈ steps, isArrayIndex s.name = false) :
    ((X402Orchestrator.stepResults payload steps JSObject.empty w).length = steps.length →
      ∃ job : Job ρ π,
        (o.executeWorkflow env name payload w).1 = Except.ok job ∧
        job.results.entries = X402Orchestrator.stepResults payload steps JSObject.empty w ∧
        job.results.keys = steps.map Step.name) ∧
    (∀ (pre post : List (Step σ ρ π)) (failing : Step σ ρ π) (jobK : Job ρ π) (wK w' : σ)
        (e : JSError) (resK : JSObject ρ),
      steps = pre ++ failing :: post →
      X402Orchestrator.runSteps payload pre 0 (X402Orchestrator.newJob env name payload) w
        = (none, jobK, wK) →
      failing.execute payload jobK.results wK = (Except.error e, resK, w') →
      ∃ job : Job ρ π,
        (o.executeWorkflow env name payload w).2.1.activeJobs.get
            (X402Orchestrator.generateJobId env) = some job ∧
        job.results.entries = X402Orchestrator.stepResults payload pre JSObject.empty w ∧
        job.results.keys = pre.map Step.name ∧
        ∀ s ∈ failing :: post, job.results.get s.name = none) := by
  constructor
  · intro hall
    have hnone := ((runSteps_none_iff_all_returned payload steps 0
      (X402Orchestrator.newJob env name payload) w).1).mpr hall
    cases hrun : X402Orchestrator.runSteps payload steps 0
        (X402Orchestrator.newJob env name payload) w with
    | mk err rest =>
      obtain ⟨job, wEnd⟩ := rest
      rw [hrun] at hnone
      simp only at hnone
      subst hnone
      obtain ⟨h1, h2, _⟩ := results_of_completed_run payload steps _ job w wEnd rfl hkeep
        hnodup hproto hindex hrun
      refine ⟨{ job with status := "completed", endTime := some env.endTime }, ?_, h1, h2⟩
      rw [X402Orchestrator.executeWorkflow_of_completed o env name payload w wEnd steps job
        hreg hrun]
  · intro pre post failing jobK wK w' e resK hsteps hpre hfail
    subst hsteps
    have hresK : resK = jobK.results := by
      have h := hkeep failing (List.mem_append_right _ (List.mem_cons_self _ _)) payload
        jobK.results wK
      rw [hfail] at h
      exact h
    subst hresK
    have hnd : (pre.map Step.name).Nodup ∧ (List.map Step.name (failing :: post)).Nodup ∧
        List.Disjoint (pre.map Step.name) (List.map Step.name (failing :: post)) := by
      rw [List.map_append] at hnodup
      exact List.nodup_append.mp hnodup
    obtain ⟨h1, h2, h3⟩ := results_of_completed_run payload pre _ jobK w wK rfl
      (fun s hs => hkeep s (List.mem_append_left _ hs)) hnd.1
      (fun s hs => hproto s (List.mem_append_left _ hs))
      (fun s hs => hindex s (List.mem_append_left _ hs)) hpre
    refine ⟨{ jobK with status := "failed", error := some e }, ?_, h1, h2, ?_⟩
    · rw [X402Orchestrator.executeWorkflow_of_failed o env name payload w w' _ jobK e hreg
        (X402Orchestrator.runSteps_first_failure payload pre post failing 0 _ jobK w wK w' e
          jobK.results hpre hfail)]
      exact JSMap.get_set_self _ _ _
    · intro s hs
      apply JSMap.get_eq_none_of_not_mem_keys
      show s.name ∉ jobK.results.props.map Prod.fst
      rw [h3]
      intro hmem
      exact hnd.2.2 hmem (List.mem_map_of_mem Step.name hs)

/-- Witness for C11, amended: in the workflow with steps `a`, `b`, `c` whose second step
throws, the stored job enumerates the result of `a` only. -/
theorem executeWorkflow_results_in_declared_order_witness :
    ((X402Orchestrator.new.registerWorkflow "count" failingWorkflow).workflows.get "count"
        = some failingWorkflow ∧
      (∀ s ∈ failingWorkflow, s.KeepsResults) ∧
      (failingWorkflow.map Step.name).Nodup ∧
      (∀ s ∈ failingWorkflow, s.name ≠ "__proto__") ∧
      (∀ s ∈ failingWorkflow, isArrayIndex s.name = false)) ∧
    ∃ job : Job Nat Unit,
      ((X402Orchestrator.new.registerWorkflow "count" failingWorkflow).executeWorkflow
          demoJobEnv "count" () 0).2.1.activeJobs.get
            (X402Orchestrator.generateJobId demoJobEnv) = some job ∧
      job.results.entries
        = X402Orchestrator.stepResults ()
            [{ name := "a", execute := fun _ results w => (Except.ok 1, results, w + 1) }]
            JSObject.empty 0 ∧
      job.results.keys
        = List.map Step.name
            [({ name := "a", execute := fun _ results w => (Except.ok 1, results, w + 1) } :
              Step Nat Nat Unit)] ∧
      ∀ s ∈ ({ name := "b",
               execute := fun _ results w =>
                 (Except.error (JSError.error "boom"), results, w + 1) } :
              Step Nat Nat Unit)
            :: [{ name := "c", execute := fun _ results w => (Except.ok 3, results, w + 1) }],
        job.results.get s.name = none :=
  ⟨⟨JSMap.get_set_self _ _ _, by simp [failingWorkflow, Step.KeepsResults], by decide,
      by simp [failingWorkflow], by simp [failingWorkflow]; decide⟩,
    (executeWorkflow_results_in_declared_order
        (X402Orchestrator.new.registerWorkflow "count" failingWorkflow) demoJobEnv "count" () 0
        failingWorkflow (JSMap.get_set_self _ _ _)
        (by simp [failingWorkflow, Step.KeepsResults]) (by decide) (by simp [failingWorkflow])
        (by simp [failingWorkflow]; decide)).2
      [{ name := "a", execute := fun _ results w => (Except.ok 1, results, w + 1) }]
      [{ name := "c", execute := fun _ results w => (Except.ok 3, results, w + 1) }]
      { name := "b",
        execute := fun _ results w => (Except.error (JSError.error "boom"), results, w + 1) }
      { id := "x402_1700000000000_j0b1d0001", workflow := "count",
        status := "completed_step_1", startTime := 1700000000001, payload := (),
        results := { props := [("a", 1)] }, endTime := none, error := none }
      1 2 (JSError.error "boom") { props := [("a", 1)] } rfl (by decide) rfl⟩

/-! ## The demo workflow, end to end -/

/-- The payment of the demo run: a user at balance 50 pays 0.05 for a text generation. -/
theorem demo_processPayment (u : String) (env : PaymentEnv) (md : Metadata) :
    (GMPayer.new.initializeUserBalance u (JSNum.fin 50)).processPayment env u
        "text-generation" md
      = (Except.ok
          (Transaction.mk (GMPayer.generateTransactionId env) u "text-generation"
            (JSValue.number (JSNum.ofRat 0.05)) "completed" env.date md),
          GMPayer.mk
            [(GMPayer.generateTransactionId env,
              Transaction.mk (GMPayer.generateTransactionId env) u "text-generation"
                (JSValue.number (JSNum.ofRat 0.05)) "completed" env.date md)]
            [(u, JSNum.ofRat 49.95)]) := by
  have hbal : (GMPayer.new.initializeUserBalance u (JSNum.fin 50)).getBalance u
      = JSNum.fin 50 := by
    simp [GMPayer.getBalance, GMPayer.initializeUserBalance, GMPayer.new, JSMap.set, JSMap.get,
      orZero, JSNum.truthy]
  rw [GMPayer.processPayment_number _ env u "text-generation" md (JSNum.ofRat 0.05)
    (by decide!) (by decide!) (by rw [hbal]; decide!), hbal]
  have h : subNum (JSNum.fin 50) (JSNum.ofRat 0.05) = JSNum.ofRat 49.95 := by decide!
  simp [GMPayer.initializeUserBalance, GMPayer.new, JSMap.set, h]

/-- The generation of the demo run: a text generation without a model argument uses
`gpt-4` and returns. -/
theorem demo_generateContent (env : GenerationEnv) (prompt : String) :
    MockAIGenerator.generateContent env "text-generation" prompt none
      = Except.ok
          (GeneratedContent.mk (MockAIGenerator.generateContentId env.now env.random)
            "text-generation" "gpt-4" prompt env.generatedAt
            (MockAIGenerator.generateMockContent env "text-generation" prompt)
            (GenerationMetadata.mk env.processingTime "1.0.0" "high")) := by
  simp [MockAIGenerator.generateContent, MockAIGenerator.getDefaultModel,
    MockAIGenerator.modelMap, MockAIGenerator.models, List.lookup]

/-- The loop of the demo workflow on a valid text-generation request of a user at balance
50: the four steps return, and the ledger and the registry end as stated. -/
theorem demoWorkflow_run (u prompt : String) (model : Option String) (env : WorkflowEnv)
    (job : Job StepResult Payload) (hempty : job.results = JSObject.empty)
    (hu : u ≠ "") (hprompt : prompt ≠ "") :
    X402Orchestrator.runSteps
        (Payload.mk (some prompt) (some "text-generation") (some u) model)
        (demoWorkflow env) 0 job (demoWorld u)
      = (none,
          { job with
            status := "completed_step_4"
            results := JSObject.mk
              [("validate-request", StepResult.valid true),
               ("process-payment", StepResult.transaction
                  (Transaction.mk (GMPayer.generateTransactionId env.payment) u
                    "text-generation" (JSValue.number (JSNum.ofRat 0.05)) "completed" env.payment.date
                    [("prompt", prompt)])),
               ("generate-content", StepResult.content
                  (GeneratedContent.mk
                    (MockAIGenerator.generateContentId env.generation.now env.generation.random)
                    "text-generation" "gpt-4" prompt env.generation.generatedAt
                    (MockAIGenerator.generateMockContent env.generation "text-generation" prompt)
                    (GenerationMetadata.mk env.generation.processingTime "1.0.0" "high"))),
               ("register-ownership", StepResult.contentRecord
                  (ContentRecord.mk
                    (MockAIGenerator.generateContentId env.generation.now env.generation.random)
                    u "text-generation" "gpt-4" prompt env.creationTime
                    (GMPayer.generateTransactionId env.payment) "active"))] },
          World.mk
            (GMPayer.mk
              [(GMPayer.generateTransactionId env.payment,
                Transaction.mk (GMPayer.generateTransactionId env.payment) u "text-generation"
                  (JSValue.number (JSNum.ofRat 0.05)) "completed" env.payment.date [("prompt", prompt)])]
              [(u, JSNum.ofRat 49.95)])
            (ERC8004Tracker.mk
              [(MockAIGenerator.generateContentId env.generation.now env.generation.random,
                ContentRecord.mk
                  (MockAIGenerator.generateContentId env.generation.now env.generation.random)
                  u "text-generation" "gpt-4" prompt env.creationTime
                  (GMPayer.generateTransactionId env.payment) "active")]
              [(MockAIGenerator.generateContentId env.generation.now env.generation.random,
                [OwnershipEvent.mk none u env.eventTime "creation"
                  (some (GMPayer.generateTransactionId env.payment))])]
              [])) := by
  simp [X402Orchestrator.runSteps, demoWorkflow, validateRequest, fieldTruthy, hu, hprompt,
    processPaymentStep, fieldText, demoWorld, demo_processPayment, generateContentStep,
    demo_generateContent, registerOwnershipStep, JSObject.assign, JSObject.get, hempty,
    JSObject.empty, JSMap.set, JSMap.get, ERC8004Tracker.registerContent, ERC8004Tracker.new]
  decide

/-- C20 fails as stated for the empty user id: `validate-request` takes an empty `userId`
for a missing one (`!payload.userId`), so the run throws at the first step, the stored job
is `failed`, nothing is charged and nothing is registered. -/
theorem empty_user_id_fails_validation :
    ((demoOrchestrator demoWorkflowEnv).executeWorkflow demoJobEnv "ai-content-generation"
        (Payload.mk (some "a haiku") (some "text-generation") (some "") none)
        (demoWorld "")).1
      = Except.error (JSError.error "Missing required fields") ∧
    (((demoOrchestrator demoWorkflowEnv).executeWorkflow demoJobEnv "ai-content-generation"
        (Payload.mk (some "a haiku") (some "text-generation") (some "") none)
        (demoWorld "")).2.1.getJobStatus (X402Orchestrator.generateJobId demoJobEnv)).map
          Job.status
      = some "failed" ∧
    ((demoOrchestrator demoWorkflowEnv).executeWorkflow demoJobEnv "ai-content-generation"
        (Payload.mk (some "a haiku") (some "text-generation") (some "") none)
        (demoWorld "")).2.2 = demoWorld "" ∧
    (demoWorld "").gmPayer.getBalance "" = JSNum.fin 50 ∧
    (demoWorld "").ownershipTracker.getOwnedContent "" = [] ∧
    (demoWorld "").ownershipTracker.getStats.totalContent = 0 ∧
    ¬ ∃ (job : Job StepResult Payload) (o' : X402Orchestrator World StepResult Payload)
        (w' : World),
      (demoOrchestrator demoWorkflowEnv).executeWorkflow demoJobEnv "ai-content-generation"
          (Payload.mk (some "a haiku") (some "text-generation") (some "") none) (demoWorld "")
        = (Except.ok job, o', w') := by
  have h1 : ((demoOrchestrator demoWorkflowEnv).executeWorkflow demoJobEnv
      "ai-content-generation"
      (Payload.mk (some "a haiku") (some "text-generation") (some "") none) (demoWorld "")).1
      = Except.error (JSError.error "Missing required fields") := by decide!
  refine ⟨h1, by decide!, by decide!, by decide!, by decide!, by decide!, ?_⟩
  rintro ⟨job, o', w', h⟩
  rw [h] at h1
  exact Except.noConfusion h1

/-- C20, amended: end to end.  Starting from fresh components with a user `u` (a non-empty
id) initialised to balance 50.00, running the `ai-content-generation` workflow of `demo.js`
with contentType `text-generation`, a non-empty prompt and userId `u` returns a job with
status `completed`, which is the job stored under its id; afterwards `getBalance(u)` is
the number 49.95 (the binary64 value that `50 - 0.05` gives is the one the literal `49.95`
denotes), exactly one content record is registered, it is owned by `u`, `getOwnedContent(u)`
has length 1, the record's paymentTransaction is the id of the transaction the payment step
returned, and `getStats().totalContent` is 1. -/
theorem demo_end_to_end (u prompt : String) (model : Option String) (env : WorkflowEnv)
    (jobEnv : JobEnv) (hu : u ≠ "") (hprompt : prompt ≠ "") :
    ∃ (job : Job StepResult Payload) (o' : X402Orchestrator World StepResult Payload)
        (w' : World) (tx : Transaction) (record : ContentRecord),
      (demoOrchestrator env).executeWorkflow jobEnv "ai-content-generation"
          (Payload.mk (some prompt) (some "text-generation") (some u) model) (demoWorld u)
        = (Except.ok job, o', w') ∧
      job.status = "completed" ∧
      o'.getJobStatus job.id = some job ∧
      job.results.get "process-payment" = some (StepResult.transaction tx) ∧
      w'.gmPayer.getBalance u = JSNum.ofRat 49.95 ∧
      w'.ownershipTracker.contentRegistry.values = [record] ∧
      record.owner = u ∧
      w'.ownershipTracker.getOwnedContent u = [record] ∧
      (w'.ownershipTracker.getOwnedContent u).length = 1 ∧
      record.paymentTransaction = tx.id ∧
      w'.ownershipTracker.getStats.totalContent = 1 := by
  have hreg : (demoOrchestrator env).workflows.get "ai-content-generation"
      = some (demoWorkflow env) := JSMap.get_set_self _ _ _
  refine ⟨_, _, _,
    Transaction.mk (GMPayer.generateTransactionId env.payment) u "text-generation"
      (JSValue.number (JSNum.ofRat 0.05)) "completed" env.payment.date [("prompt", prompt)],
    ContentRecord.mk
      (MockAIGenerator.generateContentId env.generation.now env.generation.random)
      u "text-generation" "gpt-4" prompt env.creationTime
      (GMPayer.generateTransactionId env.payment) "active",
    X402Orchestrator.executeWorkflow_of_completed _ jobEnv _ _ _ _ _ _ hreg
      (demoWorkflow_run u prompt model env _ rfl hu hprompt),
    rfl, ?_, ?_, ?_, ?_, rfl, ?_, ?_, rfl, ?_⟩
  · exact JSMap.get_set_self _ _ _
  · simp [JSObject.get, JSMap.get]
  · have h : JSNum.ofRat 49.95 ≠ JSNum.nan := JSNum.ofRat_ne_nan _
    simp [GMPayer.getBalance, JSMap.get, orZero_some_of_ne_nan h]
  · simp [JSMap.values]
  · simp [ERC8004Tracker.getOwnedContent, JSMap.values]
  · simp [ERC8004Tracker.getOwnedContent, JSMap.values]
  · simp [ERC8004Tracker.getStats, JSMap.size]

/-- Witness for C20, amended: the first scenario of `demo.js`. -/
theorem demo_end_to_end_witness :
    ("demo-user" ≠ "" ∧ "Write a short story about a robot learning to paint" ≠ "") ∧
    ∃ (job : Job StepResult Payload) (o' : X402Orchestrator World StepResult Payload)
        (w' : World) (tx : Transaction) (record : ContentRecord),
      (demoOrchestrator demoWorkflowEnv).executeWorkflow demoJobEnv "ai-content-generation"
          (Payload.mk (some "Write a short story about a robot learning to paint")
            (some "text-generation") (some "demo-user") none) (demoWorld "demo-user")
        = (Except.ok job, o', w') ∧
      job.status = "completed" ∧
      o'.getJobStatus job.id = some job ∧
      job.results.get "process-payment" = some (StepResult.transaction tx) ∧
      w'.gmPayer.getBalance "demo-user" = JSNum.ofRat 49.95 ∧
      w'.ownershipTracker.contentRegistry.values = [record] ∧
      record.owner = "demo-user" ∧
      w'.ownershipTracker.getOwnedContent "demo-user" = [record] ∧
      (w'.ownershipTracker.getOwnedContent "demo-user").length = 1 ∧
      record.paymentTransaction = tx.id ∧
      w'.ownershipTracker.getStats.totalContent = 1 :=
  ⟨⟨by decide, by decide⟩,
    demo_end_to_end "demo-user" "Write a short story about a robot learning to paint" none
      demoWorkflowEnv demoJobEnv (by decide) (by decide)⟩

/-- C19 fails on the code for content types and models named like a member of
`Object.prototype`.  With one registered record of content type `toString`, the read
`contentTypes['toString']` inherits a function, `|| 0` keeps it and `+ 1` concatenates:
`contentTypes.toString` is a string, not the number 1.  With one registered record of
content type `__proto__` the assignment creates no property: `contentTypes` stays empty
while `totalContent` is 1. -/
theorem getStats_inherited_key_not_counted :
    inheritedTypeRegistry.contentRegistry.values
      = [ContentRecord.mk "content_1" "alice" "toString" "gpt-4" "a haiku" 100 "gmp_1"
          "active"] ∧
    inheritedTypeRegistry.getStats
      = Stats.mk 1 (JSObject.mk [("toString", StatValue.text)])
          (JSObject.mk [("gpt-4", StatValue.count 1)]) 0 ∧
    inheritedTypeRegistry.getStats.contentTypes.get "toString" ≠ some (StatValue.count 1) ∧
    (ERC8004Tracker.new.registerContent "content_1" "alice" "__proto__" "gpt-4" "a haiku"
        "gmp_1" 100 101).2.getStats
      = Stats.mk 1 (JSObject.mk []) (JSObject.mk [("gpt-4", StatValue.count 1)]) 0 := by
  refine ⟨by decide, by decide, by decide, by decide⟩

/-! ## Where the statistics are right -/

theorem JSMap.sum_set {ν : Type} (f : ν → Nat) (m : JSMap ν) (k : String) (v : ν) :
    ((JSMap.set m k v).map (fun p => f p.2)).sum + ((JSMap.get m k).map f).getD 0
      = (m.map (fun p => f p.2)).sum + f v := by
  induction m with
  | nil => simp [JSMap.set, JSMap.get]
  | cons p rest ih =>
    obtain ⟨k0, v0⟩ := p
    by_cases h0 : k0 = k
    · simp [JSMap.set, JSMap.get, h0]
      omega
    · simp only [JSMap.set, JSMap.get, h0, if_false, List.map_cons, List.sum_cons]
      omega

/-- One `bumpCount` under a key that is not inherited: the count of that key goes up by
one, the other keys keep their value, and the sum of the counts goes up by one. -/
theorem bumpCount_spec (counts : JSObject StatValue) (key : String) (c : String → Nat)
    (hkey : key ∉ objectPrototypeKeys)
    (hinv : ∀ k, counts.get k = if c k = 0 then none else some (StatValue.count (c k))) :
    (∀ k, (bumpCount counts key).get k
      = if c k + (if k = key then 1 else 0) = 0 then none
        else some (StatValue.count (c k + (if k = key then 1 else 0)))) ∧
    sumCounts (bumpCount counts key) = sumCounts counts + 1 := by
  have hproto : key ≠ "__proto__" := by
    intro h
    apply hkey
    rw [h]
    decide
  have hval : (match counts.read key with
      | PropertyRead.own (StatValue.count n) => StatValue.count (n + 1)
      | PropertyRead.own StatValue.text => StatValue.text
      | PropertyRead.inherited => StatValue.text
      | PropertyRead.undefined => StatValue.count 1) = StatValue.count (c key + 1) := by
    have h := hinv key
    unfold JSObject.get at h
    unfold JSObject.read
    by_cases hc : c key = 0
    · simp [hc] at h
      simp [h, hkey, hc]
    · simp [hc] at h
      simp [h]
  constructor
  · intro k
    unfold bumpCount
    rw [hval]
    simp only [JSObject.assign, hproto, if_false, JSObject.get]
    by_cases hk : k = key
    · subst hk
      simp [JSMap.get_set_self]
    · rw [JSMap.get_set_ne _ _ _ _ hk]
      have := hinv k
      unfold JSObject.get at this
      simp [hk, this]
  · unfold bumpCount sumCounts
    rw [hval]
    simp only [JSObject.assign, hproto, if_false]
    have hsum := JSMap.sum_set StatValue.toNat counts.props key (StatValue.count (c key + 1))
    have h := hinv key
    unfold JSObject.get at h
    have e1 : (StatValue.count (c key + 1)).toNat = c key + 1 := rfl
    have e2 : ((some (StatValue.count (c key))).map StatValue.toNat).getD 0 = c key := rfl
    have e3 : ((none : Option StatValue).map StatValue.toNat).getD 0 = 0 := rfl
    by_cases hc : c key = 0
    · simp only [hc, if_true] at h
      rw [h, e1, e3] at hsum
      omega
    · simp only [hc, if_false] at h
      rw [h, e1, e2] at hsum
      omega

/-- Counting a list of keys none of which is inherited: every key holds the number of
its occurrences and the counts sum to the length of the list. -/
theorem foldl_bumpCount_spec (keys : List String) :
    ∀ (counts : JSObject StatValue) (c : String → Nat),
      (∀ k ∈ keys, k ∉ objectPrototypeKeys) →
      (∀ k, counts.get k = if c k = 0 then none else some (StatValue.count (c k))) →
      (∀ k, (keys.foldl bumpCount counts).get k
        = if c k + keys.count k = 0 then none
          else some (StatValue.count (c k + keys.count k))) ∧
      sumCounts (keys.foldl bumpCount counts) = sumCounts counts + keys.length := by
  induction keys with
  | nil => intro counts c _ hinv; simpa using hinv
  | cons key rest ih =>
    intro counts c hkeys hinv
    obtain ⟨h1, h2⟩ := bumpCount_spec counts key c (hkeys key (List.mem_cons_self _ _)) hinv
    obtain ⟨h3, h4⟩ := ih (bumpCount counts key) (fun k => c k + (if k = key then 1 else 0))
      (fun k hk => hkeys k (List.mem_cons_of_mem _ hk)) h1
    constructor
    · intro k
      rw [List.foldl_cons, h3 k]
      have hcount : c k + (if k = key then 1 else 0) + rest.count k
          = c k + (key :: rest).count k := by
        rw [List.count_cons]
        by_cases hk : k = key
        · subst hk; simp; omega
        · have : ¬ (key == k) = true := by simpa using Ne.symm hk
          simp [hk, this]
      rw [hcount]
    · rw [List.foldl_cons, h4, h2, List.length_cons]
      omega

/-- The pair accumulator of `getStats` is the pair of the two separate counts. -/
theorem foldl_bumpCount_pair (records : List ContentRecord) :
    ∀ acc : JSObject StatValue × JSObject StatValue,
      records.foldl
          (fun acc content =>
            (bumpCount acc.1 content.contentType, bumpCount acc.2 content.aiModel)) acc
        = ((records.map ContentRecord.contentType).foldl bumpCount acc.1,
            (records.map ContentRecord.aiModel).foldl bumpCount acc.2) := by
  induction records with
  | nil => intro acc; rfl
  | cons r rest ih => intro acc; simp [List.foldl_cons, ih]

theorem JSMap.mem_of_mem_set {ν : Type} (m : JSMap ν) (k : String) (v : ν) (p : String × ν)
    (h : p ∈ JSMap.set m k v) : p ∈ m ∨ p = (k, v) := by
  induction m with
  | nil => simpa [JSMap.set] using h
  | cons q rest ih =>
    obtain ⟨k0, v0⟩ := q
    by_cases h0 : k0 = k
    · simp only [JSMap.set, h0, if_true, List.mem_cons] at h
      rcases h with h | h
      · exact Or.inr h
      · exact Or.inl (List.mem_cons_of_mem _ h)
    · simp only [JSMap.set, h0, if_false, List.mem_cons] at h
      rcases h with h | h
      · exact Or.inl (h ▸ List.mem_cons_self _ _)
      · rcases ih h with h' | h'
        · exact Or.inl (List.mem_cons_of_mem _ h')
        · exact Or.inr h'

theorem JSMap.mem_of_get_eq_some {ν : Type} (m : JSMap ν) (k : String) (v : ν)
    (h : JSMap.get m k = some v) : (k, v) ∈ m := by
  induction m with
  | nil => simp [JSMap.get] at h
  | cons q rest ih =>
    obtain ⟨k0, v0⟩ := q
    by_cases h0 : k0 = k
    · simp only [JSMap.get, h0, if_true, Option.some.injEq] at h
      rw [h0, h]
      exact List.mem_cons_self _ _
    · simp only [JSMap.get, h0, if_false] at h
      exact List.mem_cons_of_mem _ (ih h)

theorem historiesWellFormed_apply {t : ERC8004Tracker} (hc : RegistryConsistent t)
    (hw : HistoriesWellFormed t) (op : TrackerOp) :
    HistoriesWellFormed (TrackerOp.apply t op) := by
  cases op with
  | registerContent c owner ct model prompt ptx t1 t2 =>
    intro p hp
    rcases JSMap.mem_of_mem_set _ _ _ _ hp with h | h
    · exact hw p h
    · exact ⟨OwnershipEvent.mk none owner t2 "creation" (some ptx), [], by rw [h], rfl,
        by simp⟩
  | transferOwnership c a b ptx now =>
    show HistoriesWellFormed (t.transferOwnership c a b ptx now).2
    unfold ERC8004Tracker.transferOwnership
    cases hget : t.contentRegistry.get c with
    | none => simpa using hw
    | some content =>
      by_cases hown : content.owner = a
      · simp only [hown, ne_eq, not_true_eq_false, if_false]
        intro p hp
        rcases JSMap.mem_of_mem_set _ _ _ _ hp with h | h
        · exact hw p h
        · obtain ⟨history, h1, _, _, _⟩ := hc c content hget
          obtain ⟨e, rest, he, hcre, hrest⟩ := hw (c, history)
            (JSMap.mem_of_get_eq_some _ _ _ h1)
          simp only at he
          refine ⟨e, rest ++ [OwnershipEvent.mk (some a) b now "transfer" ptx], ?_, hcre, ?_⟩
          · rw [h, h1, he]
            rfl
          · intro x hx
            rcases List.mem_append.mp hx with hx | hx
            · exact hrest x hx
            · rw [List.mem_singleton.mp hx]
      · simpa [hown] using hw
  | addMetadata c key value => exact hw

theorem historiesWellFormed_run (ops : List TrackerOp) :
    ∀ t : ERC8004Tracker, RegistryConsistent t → HistoriesWellFormed t →
      HistoriesWellFormed (TrackerOp.run t ops) := by
  induction ops with
  | nil => intro t _ hw; simpa [TrackerOp.run] using hw
  | cons op rest ih =>
    intro t hc hw
    have := ih (TrackerOp.apply t op) (registryConsistent_apply hc op)
      (historiesWellFormed_apply hc hw op)
    simpa [TrackerOp.run] using this

theorem foldl_totalTransfers (histories : List (List OwnershipEvent)) :
    ∀ a : Int,
      histories.foldl (fun sum history => sum + (history.length : Int) - 1) a
        = a + (histories.map (fun history => (history.length : Int) - 1)).sum := by
  induction histories with
  | nil => intro a; simp
  | cons h rest ih =>
    intro a
    rw [List.foldl_cons, ih, List.map_cons, List.sum_cons]
    ring

theorem transfers_of_wellFormed (histories : List (List OwnershipEvent))
    (hw : ∀ h ∈ histories, ∃ (e : OwnershipEvent) (rest : List OwnershipEvent),
      h = e :: rest ∧ e.transactionType = "creation" ∧
      ∀ x ∈ rest, x.transactionType = "transfer") :
    (histories.map (fun history => (history.length : Int) - 1)).sum
      = ((histories.map (fun history =>
          history.countP (fun e => decide (e.transactionType = "transfer")))).sum : Nat) := by
  induction histories with
  | nil => simp
  | cons h rest ih =>
    obtain ⟨e, tail, he, hcre, htail⟩ := hw h (List.mem_cons_self _ _)
    have hcount : h.countP (fun e => decide (e.transactionType = "transfer")) = tail.length := by
      rw [he, List.countP_cons]
      have hne : ¬ e.transactionType = "transfer" := by rw [hcre]; decide
      have hall : tail.countP (fun e => decide (e.transactionType = "transfer"))
          = tail.length := by
        rw [List.countP_eq_length]
        intro x hx
        simpa using htail x hx
      simp [hne, hall]
    have hlen : (h.length : Int) - 1 = (tail.length : Int) := by
      rw [he, List.length_cons]
      push_cast
      ring
    rw [List.map_cons, List.sum_cons, List.map_cons, List.sum_cons,
      ih (fun h' hh => hw h' (List.mem_cons_of_mem _ hh)), hlen, hcount]
    push_cast
    ring

/-- The statistics away from inherited names: in every registry state reached from a new
`ERC8004Tracker` in which no record has a content type or model named like a member of
`Object.prototype`,
`getStats` returns the number of records as totalContent, for every content type and model
the number of records that have it (no property for a type or model without records), so
that the counts of either object sum to totalContent, and as totalTransfers the sum over
the histories of (length - 1), which is the number of `transfer` events held. -/
theorem getStats_counts_of_reachable (ops : List TrackerOp)
    (hnames : ∀ r ∈ (TrackerOp.run ERC8004Tracker.new ops).contentRegistry.values,
      r.contentType ∉ objectPrototypeKeys ∧ r.aiModel ∉ objectPrototypeKeys) :
    (TrackerOp.run ERC8004Tracker.new ops).getStats.totalContent
      = (TrackerOp.run ERC8004Tracker.new ops).contentRegistry.values.length ∧
    (∀ ty, (TrackerOp.run ERC8004Tracker.new ops).getStats.contentTypes.get ty
      = if ((TrackerOp.run ERC8004Tracker.new ops).contentRegistry.values.map
              ContentRecord.contentType).count ty = 0 then none
        else some (StatValue.count
          (((TrackerOp.run ERC8004Tracker.new ops).contentRegistry.values.map
              ContentRecord.contentType).count ty))) ∧
    (∀ m, (TrackerOp.run ERC8004Tracker.new ops).getStats.aiModels.get m
      = if ((TrackerOp.run ERC8004Tracker.new ops).contentRegistry.values.map
              ContentRecord.aiModel).count m = 0 then none
        else some (StatValue.count
          (((TrackerOp.run ERC8004Tracker.new ops).contentRegistry.values.map
              ContentRecord.aiModel).count m))) ∧
    sumCounts (TrackerOp.run ERC8004Tracker.new ops).getStats.contentTypes
      = (TrackerOp.run ERC8004Tracker.new ops).getStats.totalContent ∧
    sumCounts (TrackerOp.run ERC8004Tracker.new ops).getStats.aiModels
      = (TrackerOp.run ERC8004Tracker.new ops).getStats.totalContent ∧
    (TrackerOp.run ERC8004Tracker.new ops).getStats.totalTransfers
      = ((TrackerOp.run ERC8004Tracker.new ops).ownershipHistory.values.map
          (fun history => (history.length : Int) - 1)).sum ∧
    (TrackerOp.run ERC8004Tracker.new ops).getStats.totalTransfers
      = (((TrackerOp.run ERC8004Tracker.new ops).ownershipHistory.values.map
          (fun history =>
            history.countP (fun e => decide (e.transactionType = "transfer")))).sum : Nat) := by
  have hempty : ∀ k, (JSObject.empty : JSObject StatValue).get k
      = if (fun _ : String => 0) k = 0 then none
        else some (StatValue.count ((fun _ : String => 0) k)) := by
    intro k; rfl
  obtain ⟨hty, htysum⟩ := foldl_bumpCount_spec
    ((TrackerOp.run ERC8004Tracker.new ops).contentRegistry.values.map
      ContentRecord.contentType) JSObject.empty (fun _ => 0)
    (by
      intro k hk
      obtain ⟨r, hr, hrk⟩ := List.mem_map.mp hk
      exact hrk ▸ (hnames r hr).1) hempty
  obtain ⟨hmo, hmosum⟩ := foldl_bumpCount_spec
    ((TrackerOp.run ERC8004Tracker.new ops).contentRegistry.values.map
      ContentRecord.aiModel) JSObject.empty (fun _ => 0)
    (by
      intro k hk
      obtain ⟨r, hr, hrk⟩ := List.mem_map.mp hk
      exact hrk ▸ (hnames r hr).2) hempty
  have hwf : HistoriesWellFormed (TrackerOp.run ERC8004Tracker.new ops) :=
    historiesWellFormed_run ops _ registryConsistent_new
      (by intro p hp; simp [ERC8004Tracker.new] at hp)
  have htr := foldl_totalTransfers
    (TrackerOp.run ERC8004Tracker.new ops).ownershipHistory.values 0
  simp only [ERC8004Tracker.getStats, foldl_bumpCount_pair, JSMap.size]
  refine ⟨by simp [JSMap.values], ?_, ?_, ?_, ?_, ?_, ?_⟩
  · intro ty; simpa using hty ty
  · intro m; simpa using hmo m
  · simpa [sumCounts, JSObject.empty, JSMap.values] using htysum
  · simpa [sumCounts, JSObject.empty, JSMap.values] using hmosum
  · simpa using htr
  · rw [htr, zero_add]
    apply transfers_of_wellFormed
    intro h hh
    obtain ⟨p, hp, hph⟩ := List.mem_map.mp hh
    obtain ⟨e, rest, he, hcre, hrest⟩ := hwf p hp
    exact ⟨e, rest, hph ▸ he, hcre, hrest⟩

/-! ## Failures inside the `ai-content-generation` workflow -/

/-- A field that is missing or empty is falsy. -/
theorem fieldTruthy_eq_false_iff (field : Option String) :
    fieldTruthy field = false ↔ (field = none ∨ field = some "") := by
  cases field with
  | none => simp [fieldTruthy]
  | some s => simp [fieldTruthy]

/-- A workflow that starts with `validate-request`, run on a payload with a falsy
required field: the first step throws, and the loop stops with the job and the components
as they were. -/
theorem runSteps_validation_fails (message : String)
    (rest : List (Step World StepResult Payload)) (payload : Payload)
    (job : Job StepResult Payload) (w : World)
    (hmissing : fieldTruthy payload.prompt = false ∨ fieldTruthy payload.contentType = false ∨
      fieldTruthy payload.userId = false) :
    X402Orchestrator.runSteps payload (validateRequest message :: rest) 0 job w
      = (some (JSError.error message), job, w) := by
  apply X402Orchestrator.runSteps_cons_error
  rcases hmissing with h | h | h <;> simp [validateRequest, h]

/-- C23: validation precedes every side effect.  For every payload in which prompt,
contentType or userId is missing or empty, the `ai-content-generation` workflow (the one
of `server.js` and the one of `demo.js`) throws the missing-required-fields error of its
first step; the stored job is `failed` with that error and an empty results object, and
the components are as they were: no balance changes, no transaction is logged and no
content is registered. -/
theorem validation_precedes_side_effects (o : X402Orchestrator World StepResult Payload)
    (jobEnv : JobEnv) (env : WorkflowEnv) (workflow : List (Step World StepResult Payload))
    (message : String) (payload : Payload) (w : World)
    (hreg : o.workflows.get "ai-content-generation" = some workflow)
    (hworkflow :
      (workflow = serverWorkflow env ∧
        message = "Missing required fields: prompt, contentType, userId") ∨
      (workflow = demoWorkflow env ∧ message = "Missing required fields"))
    (hmissing : (payload.prompt = none ∨ payload.prompt = some "") ∨
      (payload.contentType = none ∨ payload.contentType = some "") ∨
      (payload.userId = none ∨ payload.userId = some "")) :
    (o.executeWorkflow jobEnv "ai-content-generation" payload w).1
      = Except.error (JSError.error message) ∧
    (o.executeWorkflow jobEnv "ai-content-generation" payload w).2.1.activeJobs.get
        (X402Orchestrator.generateJobId jobEnv)
      = some
          { (X402Orchestrator.newJob jobEnv "ai-content-generation" payload :
              Job StepResult Payload) with
            status := "failed", error := some (JSError.error message) } ∧
    ({ (X402Orchestrator.newJob jobEnv "ai-content-generation" payload :
          Job StepResult Payload) with
        status := "failed", error := some (JSError.error message) }).results.entries = [] ∧
    (o.executeWorkflow jobEnv "ai-content-generation" payload w).2.2 = w ∧
    (o.executeWorkflow jobEnv "ai-content-generation" payload w).2.2.gmPayer.balances
      = w.gmPayer.balances ∧
    (o.executeWorkflow jobEnv "ai-content-generation" payload w).2.2.gmPayer.transactions
      = w.gmPayer.transactions ∧
    (o.executeWorkflow jobEnv "ai-content-generation" payload w).2.2.ownershipTracker
      = w.ownershipTracker := by
  have hfalsy : fieldTruthy payload.prompt = false ∨ fieldTruthy payload.contentType = false ∨
      fieldTruthy payload.userId = false := by
    rcases hmissing with h | h | h
    · exact Or.inl ((fieldTruthy_eq_false_iff _).mpr h)
    · exact Or.inr (Or.inl ((fieldTruthy_eq_false_iff _).mpr h))
    · exact Or.inr (Or.inr ((fieldTruthy_eq_false_iff _).mpr h))
  have hrun : X402Orchestrator.runSteps payload workflow 0
      (X402Orchestrator.newJob jobEnv "ai-content-generation" payload) w
      = (some (JSError.error message),
          X402Orchestrator.newJob jobEnv "ai-content-generation" payload, w) := by
    rcases hworkflow with ⟨hw, hm⟩ | ⟨hw, hm⟩
    · rw [hw, hm]
      exact runSteps_validation_fails _ _ payload _ w hfalsy
    · rw [hw, hm]
      exact runSteps_validation_fails _ _ payload _ w hfalsy
  rw [X402Orchestrator.executeWorkflow_of_failed o jobEnv _ payload w w workflow _ _ hreg hrun]
  exact ⟨rfl, JSMap.get_set_self _ _ _, rfl, rfl, rfl, rfl, rfl⟩

/-- Witness for C23: a request to the server without a user id. -/
theorem validation_precedes_side_effects_witness :
    ((serverOrchestrator demoWorkflowEnv).workflows.get "ai-content-generation"
        = some (serverWorkflow demoWorkflowEnv) ∧
      (Payload.mk (some "a haiku") (some "text-generation") none none).userId = none) ∧
    ((serverOrchestrator demoWorkflowEnv).executeWorkflow demoJobEnv "ai-content-generation"
        (Payload.mk (some "a haiku") (some "text-generation") none none) serverWorld).1
      = Except.error (JSError.error "Missing required fields: prompt, contentType, userId") ∧
    ((serverOrchestrator demoWorkflowEnv).executeWorkflow demoJobEnv "ai-content-generation"
        (Payload.mk (some "a haiku") (some "text-generation") none none) serverWorld).2.2
      = serverWorld :=
  ⟨⟨JSMap.get_set_self _ _ _, rfl⟩,
    (validation_precedes_side_effects (serverOrchestrator demoWorkflowEnv) demoJobEnv
      demoWorkflowEnv (serverWorkflow demoWorkflowEnv)
      "Missing required fields: prompt, contentType, userId"
      (Payload.mk (some "a haiku") (some "text-generation") none none) serverWorld
      (JSMap.get_set_self _ _ _) (Or.inl ⟨rfl, rfl⟩) (Or.inr (Or.inr (Or.inl rfl)))).1,
    (validation_precedes_side_effects (serverOrchestrator demoWorkflowEnv) demoJobEnv
      demoWorkflowEnv (serverWorkflow demoWorkflowEnv)
      "Missing required fields: prompt, contentType, userId"
      (Payload.mk (some "a haiku") (some "text-generation") none none) serverWorld
      (JSMap.get_set_self _ _ _) (Or.inl ⟨rfl, rfl⟩)
      (Or.inr (Or.inr (Or.inl rfl)))).2.2.2.1⟩

/-- The keys of the rate table are not empty. -/
theorem rateTable_key_ne_empty {t : String} {r : JSNum} (h : (t, r) ∈ GMPayer.rateTable) :
    t ≠ "" := by
  simp only [GMPayer.rateTable, List.mem_cons, Prod.mk.injEq, List.mem_singleton,
    List.not_mem_nil, or_false] at h
  rcases h with ⟨rfl, _⟩ | ⟨rfl, _⟩ | ⟨rfl, _⟩ | ⟨rfl, _⟩ <;> decide

/-- The loop of the server workflow on a valid request of a user whose balance covers the
rate, when the generator throws: the first two steps return, the third throws, and the
ledger keeps the debit and the transaction. -/
theorem serverWorkflow_run_generation_fails (env : WorkflowEnv) (w : World)
    (u t prompt : String) (model : Option String) (r : JSNum) (e : GeneratorError)
    (job : Job StepResult Payload) (hempty : job.results = JSObject.empty)
    (hu : u ≠ "") (hprompt : prompt ≠ "") (ht : (t, r) ∈ GMPayer.rateTable)
    (hbal : geNum (w.gmPayer.getBalance u) r = true)
    (hgen : MockAIGenerator.generateContent env.generation t prompt model = Except.error e) :
    X402Orchestrator.runSteps (Payload.mk (some prompt) (some t) (some u) model)
        (serverWorkflow env) 0 job w
      = (some (JSError.generator e),
          { job with
            status := "completed_step_2"
            results := JSObject.mk
              [("validate-request", StepResult.valid true),
               ("process-payment", StepResult.transaction
                  (Transaction.mk (GMPayer.generateTransactionId env.payment) u t
                    (JSValue.number r) "completed" env.payment.date
                    (serverMetadata (Payload.mk (some prompt) (some t) (some u) model))))] },
          World.mk
            (GMPayer.mk
              (w.gmPayer.transactions.set (GMPayer.generateTransactionId env.payment)
                (Transaction.mk (GMPayer.generateTransactionId env.payment) u t
                  (JSValue.number r) "completed" env.payment.date
                  (serverMetadata (Payload.mk (some prompt) (some t) (some u) model))))
              (w.gmPayer.balances.set u (subNum (w.gmPayer.getBalance u) r)))
            w.ownershipTracker) := by
  obtain ⟨hr, q, hq, hpos⟩ := GMPayer.rates_of_mem ht
  have htruthy : r.truthy = true := by simp [hq, JSNum.truthy, ne_of_gt hpos]
  have htne : t ≠ "" := rateTable_key_ne_empty ht
  have hpay := fun md => GMPayer.processPayment_number w.gmPayer env.payment u t md r hr
    htruthy (ltNum_eq_false_of_geNum hbal)
  simp [X402Orchestrator.runSteps, serverWorkflow, validateRequest, fieldTruthy, hu, hprompt,
    htne, processPaymentStep, fieldText, hpay, generateContentStep, hgen, JSObject.assign,
    hempty, JSObject.empty, JSMap.set]
  decide

/-- C22 fails as stated in its arithmetic: the balance that stays after the failed run is
the rounded difference the payment stored.  A user with the balance `0.95` asks the
server for a text generation (rate `0.05`) by the audio model `whisper`; the generator
refuses, the job is `failed`, the transaction stays in the log and nothing is registered,
and the balance is `0.8999999999999999`: not the exact difference of balance and rate, and
not the value `0.9` of the decimal difference. -/
theorem balance_after_generation_failure_is_rounded :
    roundingWorld.gmPayer.getBalance "user1"
      = JSNum.fin (4278419646001971 / 4503599627370496) ∧
    GMPayer.rates "text-generation"
      = JSValue.number (JSNum.fin (3602879701896397 / 72057594037927936)) ∧
    ((serverOrchestrator demoWorkflowEnv).executeWorkflow demoJobEnv "ai-content-generation"
        (Payload.mk (some "a haiku") (some "text-generation") (some "user1") (some "whisper"))
        roundingWorld).1
      = Except.error
          (JSError.generator (GeneratorError.cannotGenerate "whisper" "text-generation")) ∧
    ((serverOrchestrator demoWorkflowEnv).executeWorkflow demoJobEnv "ai-content-generation"
        (Payload.mk (some "a haiku") (some "text-generation") (some "user1") (some "whisper"))
        roundingWorld).2.2.gmPayer.transactions.keys = ["gmp_1700000000000_k3x9q0z1a"] ∧
    ((serverOrchestrator demoWorkflowEnv).executeWorkflow demoJobEnv "ai-content-generation"
        (Payload.mk (some "a haiku") (some "text-generation") (some "user1") (some "whisper"))
        roundingWorld).2.2.ownershipTracker = ERC8004Tracker.new ∧
    ((serverOrchestrator demoWorkflowEnv).executeWorkflow demoJobEnv "ai-content-generation"
        (Payload.mk (some "a haiku") (some "text-generation") (some "user1") (some "whisper"))
        roundingWorld).2.2.gmPayer.getBalance "user1"
      = JSNum.fin (2026619832316723 / 2251799813685248) ∧
    (2026619832316723 / 2251799813685248 : ℚ)
      ≠ 4278419646001971 / 4503599627370496 - 3602879701896397 / 72057594037927936 ∧
    ((serverOrchestrator demoWorkflowEnv).executeWorkflow demoJobEnv "ai-content-generation"
        (Payload.mk (some "a haiku") (some "text-generation") (some "user1") (some "whisper"))
        roundingWorld).2.2.gmPayer.getBalance "user1"
      ≠ JSNum.ofRat (0.95 - 0.05) := by
  refine ⟨by decide!, by decide!, by decide!, by decide!, by decide!, by decide!, by norm_num,
    by decide!⟩

/-- C22, amended: no compensation on mid-workflow failure.  When the `ai-content-generation`
workflow of `server.js` is run on a valid request for a content type `t` of the rate table
by a user `u` whose balance covers the rate `r`, and the generator throws `e` (for example
because the requested model is unknown or cannot produce `t`), then `executeWorkflow`
throws that error, the stored job is `failed` with results for `validate-request` and
`process-payment` only, the balance of `u` stays at the difference `balance - r` as
JavaScript computed it in the payment (for a finite balance `b` and the rate `q`: the
binary64 value nearest to `b - q`, ties to even), the payment transaction is in the log
with status `completed`, and the registry is as it was: no content record is registered. -/
theorem no_compensation_after_generation_failure
    (o : X402Orchestrator World StepResult Payload) (jobEnv : JobEnv) (env : WorkflowEnv)
    (w : World) (u t prompt : String) (model : Option String) (r : JSNum) (e : GeneratorError)
    (hreg : o.workflows.get "ai-content-generation" = some (serverWorkflow env))
    (hu : u ≠ "") (hprompt : prompt ≠ "") (ht : (t, r) ∈ GMPayer.rateTable)
    (hbal : geNum (w.gmPayer.getBalance u) r = true)
    (hgen : MockAIGenerator.generateContent env.generation t prompt model = Except.error e) :
    (o.executeWorkflow jobEnv "ai-content-generation"
        (Payload.mk (some prompt) (some t) (some u) model) w).1
      = Except.error (JSError.generator e) ∧
    ∃ (job : Job StepResult Payload) (tx : Transaction),
      (o.executeWorkflow jobEnv "ai-content-generation"
          (Payload.mk (some prompt) (some t) (some u) model) w).2.1.activeJobs.get
            (X402Orchestrator.generateJobId jobEnv) = some job ∧
      job.status = "failed" ∧
      job.error = some (JSError.generator e) ∧
      job.results.entries
        = [("validate-request", StepResult.valid true),
           ("process-payment", StepResult.transaction tx)] ∧
      tx.userId = u ∧ tx.serviceType = t ∧ tx.amount = JSValue.number r ∧
      tx.status = "completed" ∧
      (o.executeWorkflow jobEnv "ai-content-generation"
          (Payload.mk (some prompt) (some t) (some u) model) w).2.2.gmPayer.getBalance u
        = subNum (w.gmPayer.getBalance u) r ∧
      (∀ b q : ℚ, w.gmPayer.getBalance u = JSNum.fin b → r = JSNum.fin q →
        (o.executeWorkflow jobEnv "ai-content-generation"
            (Payload.mk (some prompt) (some t) (some u) model) w).2.2.gmPayer.getBalance u
          = JSNum.ofRat (b - q)) ∧
      (o.executeWorkflow jobEnv "ai-content-generation"
          (Payload.mk (some prompt) (some t) (some u) model) w).2.2.gmPayer.transactions.get
            tx.id = some tx ∧
      (o.executeWorkflow jobEnv "ai-content-generation"
          (Payload.mk (some prompt) (some t) (some u) model) w).2.2.ownershipTracker
        = w.ownershipTracker := by
  rw [X402Orchestrator.executeWorkflow_of_failed o jobEnv _ _ w _ _ _ _ hreg
    (serverWorkflow_run_generation_fails env w u t prompt model r e _ rfl hu hprompt ht hbal
      hgen)]
  obtain ⟨_, q, hq, _⟩ := GMPayer.rates_of_mem ht
  have hne : subNum (w.gmPayer.getBalance u) r ≠ JSNum.nan := by
    rw [hq]; exact GMPayer.subNum_getBalance_ne_nan w.gmPayer u q
  have hafter := GMPayer.getBalance_set_self
    (w.gmPayer.transactions.set (GMPayer.generateTransactionId env.payment)
      (Transaction.mk (GMPayer.generateTransactionId env.payment) u t (JSValue.number r)
        "completed" env.payment.date
        (serverMetadata (Payload.mk (some prompt) (some t) (some u) model))))
    w.gmPayer.balances u _ hne
  refine ⟨rfl, _,
    Transaction.mk (GMPayer.generateTransactionId env.payment) u t (JSValue.number r)
      "completed" env.payment.date
      (serverMetadata (Payload.mk (some prompt) (some t) (some u) model)),
    JSMap.get_set_self _ _ _, rfl, rfl, ?_, rfl, rfl, rfl, rfl, hafter, ?_, ?_, rfl⟩
  · apply JSObject.entries_eq_props
    intro p hp
    simp only [List.mem_cons, List.mem_singleton, List.not_mem_nil, or_false] at hp
    have h1 : isArrayIndex "validate-request" = false := by decide
    have h2 : isArrayIndex "process-payment" = false := by decide
    rcases hp with rfl | rfl
    · exact h1
    · exact h2
  · intro b q' hb hr'
    rw [hafter, hb, hr']
    rfl
  · exact JSMap.get_set_self _ _ _

/-- Witness for C22, amended: `user1` (balance 25) asks the server for a text generation by
the audio model `whisper`; the generator refuses. -/
theorem no_compensation_after_generation_failure_witness :
    ((serverOrchestrator demoWorkflowEnv).workflows.get "ai-content-generation"
        = some (serverWorkflow demoWorkflowEnv) ∧
      "user1" ≠ "" ∧ "a haiku" ≠ "" ∧
      ("text-generation", JSNum.ofRat 0.05) ∈ GMPayer.rateTable ∧
      geNum (serverWorld.gmPayer.getBalance "user1") (JSNum.ofRat 0.05) = true ∧
      MockAIGenerator.generateContent demoWorkflowEnv.generation "text-generation" "a haiku"
          (some "whisper")
        = Except.error (GeneratorError.cannotGenerate "whisper" "text-generation")) ∧
    ((serverOrchestrator demoWorkflowEnv).executeWorkflow demoJobEnv "ai-content-generation"
        (Payload.mk (some "a haiku") (some "text-generation") (some "user1") (some "whisper"))
        serverWorld).1
      = Except.error
          (JSError.generator (GeneratorError.cannotGenerate "whisper" "text-generation")) :=
  ⟨⟨JSMap.get_set_self _ _ _, by decide, by decide, by decide!, by decide!, by decide⟩,
    (no_compensation_after_generation_failure (serverOrchestrator demoWorkflowEnv) demoJobEnv
      demoWorkflowEnv serverWorld "user1" "text-generation" "a haiku" (some "whisper")
      (JSNum.ofRat 0.05)
      (GeneratorError.cannotGenerate "whisper" "text-generation") (JSMap.get_set_self _ _ _)
      (by decide) (by decide) (by decide!) (by decide!) (by decide)).1⟩

/-! ## Default models -/

/-- A successful `lookup` in an association list finds a pair of the list. -/
theorem mem_of_lookup_eq_some {β : Type} (l : List (String × β)) (k : String) (v : β)
    (h : l.lookup k = some v) : (k, v) ∈ l := by
  induction l with
  | nil => simp [List.lookup] at h
  | cons p rest ih =>
    obtain ⟨a, b⟩ := p
    by_cases hk : k = a
    · subst hk
      simp only [List.lookup, beq_self_eq_true, Option.some.injEq] at h
      rw [h]
      exact List.mem_cons_self _ _
    · have hb : (k == a) = false := by simpa using hk
      simp only [List.lookup, hb] at h
      exact List.mem_cons_of_mem _ (ih h)

/-- A string that is no key of the rate table is none of its four keys. -/
theorem ne_keys_of_lookup_rateTable_eq_none {t : String}
    (h : GMPayer.rateTable.lookup t = none) :
    t ≠ "text-generation" ∧ t ≠ "image-generation" ∧ t ≠ "audio-generation" ∧
      t ≠ "video-generation" := by
  refine ⟨?_, ?_, ?_, ?_⟩ <;>
  · intro heq
    rw [heq] at h
    revert h
    decide

/-- The default model of every key of the rate table is a model of the model table that
can generate it, and `generateContent` without a model argument returns for it. -/
theorem default_model_of_priced_type {t : String} {r : JSNum}
    (ht : (t, r) ∈ GMPayer.rateTable) :
    ∃ (m : String) (info : ModelInfo),
      MockAIGenerator.getDefaultModel t = ModelRef.name m ∧
      MockAIGenerator.models.lookup m = some info ∧ t ∈ info.capabilities ∧
      ∀ (env : GenerationEnv) (prompt : String),
        MockAIGenerator.generateContent env t prompt none
          = Except.ok
              (GeneratedContent.mk (MockAIGenerator.generateContentId env.now env.random) t m
                prompt env.generatedAt (MockAIGenerator.generateMockContent env t prompt)
                (GenerationMetadata.mk env.processingTime "1.0.0" "high")) := by
  simp only [GMPayer.rateTable, List.mem_cons, Prod.mk.injEq, List.mem_singleton,
    List.not_mem_nil, or_false] at ht
  rcases ht with ⟨rfl, _⟩ | ⟨rfl, _⟩ | ⟨rfl, _⟩ | ⟨rfl, _⟩
  · refine ⟨"gpt-4", ⟨"text", ["text-generation"]⟩, by decide, by decide, by decide, ?_⟩
    intro env prompt
    simp [MockAIGenerator.generateContent, MockAIGenerator.getDefaultModel,
      MockAIGenerator.modelMap, MockAIGenerator.models, List.lookup]
  · refine ⟨"dall-e-3", ⟨"image", ["image-generation"]⟩, by decide, by decide, by decide, ?_⟩
    intro env prompt
    simp [MockAIGenerator.generateContent, MockAIGenerator.getDefaultModel,
      MockAIGenerator.modelMap, MockAIGenerator.models, List.lookup]
  · refine ⟨"whisper", ⟨"audio", ["audio-generation"]⟩, by decide, by decide, by decide, ?_⟩
    intro env prompt
    simp [MockAIGenerator.generateContent, MockAIGenerator.getDefaultModel,
      MockAIGenerator.modelMap, MockAIGenerator.models, List.lookup]
  · refine ⟨"stable-video", ⟨"video", ["video-generation"]⟩, by decide, by decide, by decide,
      ?_⟩
    intro env prompt
    simp [MockAIGenerator.generateContent, MockAIGenerator.getDefaultModel,
      MockAIGenerator.modelMap, MockAIGenerator.models, List.lookup]

/-- For a content type that is neither a key of the rate table nor a property name
inherited from `Object.prototype`, the default model is `gpt-4` and `generateContent`
without a model argument throws the capability mismatch. -/
theorem default_model_of_unpriced_type (t : String)
    (hrate : GMPayer.rateTable.lookup t = none) (hproto : t ∉ objectPrototypeKeys)
    (env : GenerationEnv) (prompt : String) :
    MockAIGenerator.getDefaultModel t = ModelRef.name "gpt-4" ∧
    MockAIGenerator.generateContent env t prompt none
      = Except.error (GeneratorError.cannotGenerate "gpt-4" t) := by
  obtain ⟨h1, h2, h3, h4⟩ := ne_keys_of_lookup_rateTable_eq_none hrate
  have b1 : (t == "text-generation") = false := by simpa using h1
  have b2 : (t == "image-generation") = false := by simpa using h2
  have b3 : (t == "audio-generation") = false := by simpa using h3
  have b4 : (t == "video-generation") = false := by simpa using h4
  have hdefault : MockAIGenerator.getDefaultModel t = ModelRef.name "gpt-4" := by
    simp [MockAIGenerator.getDefaultModel, MockAIGenerator.modelMap, List.lookup, hproto,
      b1, b2, b3, b4]
  refine ⟨hdefault, ?_⟩
  simp [MockAIGenerator.generateContent, hdefault, MockAIGenerator.models, List.lookup, h1]

/-- A request without a model whose content type is not a property name inherited from
`Object.prototype` is not charged and then refused: when `processPayment` returns a
transaction for it, `generateContent` returns too. -/
theorem charged_then_generated (s : GMPayer) (payEnv : PaymentEnv) (u t : String)
    (md : Metadata) (tx : Transaction) (hproto : t ∉ objectPrototypeKeys)
    (hpaid : (s.processPayment payEnv u t md).1 = Except.ok tx)
    (env : GenerationEnv) (prompt : String) :
    ∃ content : GeneratedContent,
      MockAIGenerator.generateContent env t prompt none = Except.ok content := by
  cases hlookup : GMPayer.rateTable.lookup t with
  | none =>
    rw [processPayment_unknown_of_undefined s payEnv u t md hlookup hproto] at hpaid
    exact absurd hpaid (by simp)
  | some r =>
    have hmem : (t, r) ∈ GMPayer.rateTable := mem_of_lookup_eq_some _ t r hlookup
    obtain ⟨m, info, _, _, _, hgen⟩ := default_model_of_priced_type hmem
    exact ⟨_, hgen env prompt⟩

/-- C25 fails on the code for a content type named like a member of `Object.prototype`.
`toString` is no key of the rate table, yet `getDefaultModel('toString')` is not `gpt-4`
but the inherited function, and `generateContent` without a model throws the
unknown-model error, not the capability mismatch.  In the workflow of `server.js` a
request of `user1` (balance 25) for the content type `toString` without a model is
charged (a transaction is logged and `getBalance` reports 0 afterwards) and then refused
by the generator. -/
theorem default_model_inherited_key_charged_then_refused :
    GMPayer.rateTable.lookup "toString" = none ∧
    MockAIGenerator.getDefaultModel "toString" = ModelRef.prototypeMember "toString" ∧
    MockAIGenerator.getDefaultModel "toString" ≠ ModelRef.name "gpt-4" ∧
    MockAIGenerator.generateContent demoWorkflowEnv.generation "toString" "a haiku" none
      = Except.error (GeneratorError.unknownModel (ModelRef.prototypeMember "toString")) ∧
    serverWorld.gmPayer.getBalance "user1" = JSNum.fin 25 ∧
    ((serverOrchestrator demoWorkflowEnv).executeWorkflow demoJobEnv "ai-content-generation"
        (Payload.mk (some "a haiku") (some "toString") (some "user1") none) serverWorld).1
      = Except.error
          (JSError.generator
            (GeneratorError.unknownModel (ModelRef.prototypeMember "toString"))) ∧
    ((serverOrchestrator demoWorkflowEnv).executeWorkflow demoJobEnv "ai-content-generation"
        (Payload.mk (some "a haiku") (some "toString") (some "user1") none)
        serverWorld).2.2.gmPayer.transactions
      = [("gmp_1700000000000_k3x9q0z1a",
          Transaction.mk "gmp_1700000000000_k3x9q0z1a" "user1" "toString"
            (JSValue.object "Object.prototype.toString") "completed" 1700000000000
            [("prompt", "a haiku")])] ∧
    ((serverOrchestrator demoWorkflowEnv).executeWorkflow demoJobEnv "ai-content-generation"
        (Payload.mk (some "a haiku") (some "toString") (some "user1") none)
        serverWorld).2.2.gmPayer.balances
      = [("user1", JSNum.nan), ("user2", JSNum.fin 15)] ∧
    ((serverOrchestrator demoWorkflowEnv).executeWorkflow demoJobEnv "ai-content-generation"
        (Payload.mk (some "a haiku") (some "toString") (some "user1") none)
        serverWorld).2.2.gmPayer.getBalance "user1" = JSNum.fin 0 := by
  refine ⟨by decide!, by decide, by decide, by decide, by decide!, by decide!, by decide!,
    by decide!, by decide!⟩

/-! ## Registration order -/

theorem JSMap.keys_set {ν : Type} (m : JSMap ν) (k : String) (v : ν) :
    JSMap.keys (JSMap.set m k v) = addNew (JSMap.keys m) k := by
  induction m with
  | nil => simp [JSMap.set, JSMap.keys, addNew]
  | cons p rest ih =>
    obtain ⟨k0, v0⟩ := p
    by_cases h0 : k0 = k
    · subst h0
      simp [JSMap.set, JSMap.keys, addNew]
    · have ih' : List.map Prod.fst (JSMap.set rest k v)
          = addNew (List.map Prod.fst rest) k := ih
      have hne : ¬ k = k0 := fun h => h0 h.symm
      by_cases hmem : k ∈ List.map Prod.fst rest
      · simp only [JSMap.set, h0, if_false, JSMap.keys, List.map_cons, ih', addNew, hmem,
          if_true, List.mem_cons, or_true]
      · simp only [JSMap.set, h0, if_false, JSMap.keys, List.map_cons, ih', addNew, hmem,
          if_false, List.mem_cons, hne, or_self, List.cons_append]

theorem JSMap.mem_keys_of_get_eq_some {ν : Type} (m : JSMap ν) (k : String) (v : ν)
    (h : JSMap.get m k = some v) : k ∈ JSMap.keys m :=
  List.mem_map_of_mem Prod.fst (JSMap.mem_of_get_eq_some m k v h)

theorem JSMap.get_of_mem_of_nodup {ν : Type} (m : JSMap ν) (k : String) (v : ν)
    (hnodup : (JSMap.keys m).Nodup) (hmem : (k, v) ∈ m) : JSMap.get m k = some v := by
  induction m with
  | nil => simp at hmem
  | cons p rest ih =>
    obtain ⟨k0, v0⟩ := p
    have hnd : k0 ∉ List.map Prod.fst rest ∧ (List.map Prod.fst rest).Nodup :=
      List.nodup_cons.mp hnodup
    rcases List.mem_cons.mp hmem with h | h
    · simp only [Prod.mk.injEq] at h
      simp [JSMap.get, h.1, h.2]
    · have hne : k0 ≠ k := by
        intro heq
        exact hnd.1 (heq ▸ List.mem_map_of_mem Prod.fst h)
      simpa [JSMap.get, hne] using ih hnd.2 h

theorem addNew_nodup (ids : List String) (id : String) (h : ids.Nodup) :
    (addNew ids id).Nodup := by
  unfold addNew
  by_cases hmem : id ∈ ids
  · simpa [hmem] using h
  · simp only [hmem, if_false]
    rw [List.nodup_append]
    refine ⟨h, List.nodup_singleton _, ?_⟩
    intro x hx hx'
    rw [List.mem_singleton.mp hx'] at hx
    exact hmem hx

theorem addNew_of_mem (ids : List String) (id : String) (h : id ∈ ids) :
    addNew ids id = ids := by
  simp [addNew, h]

/-- One call extends the key list of the registry by the id it registers, if it is new. -/
theorem keys_apply (t : ERC8004Tracker) (op : TrackerOp) :
    (TrackerOp.apply t op).contentRegistry.keys
      = match op.registeredId with
        | some id => addNew t.contentRegistry.keys id
        | none => t.contentRegistry.keys := by
  cases op with
  | registerContent c owner ct model prompt ptx t1 t2 =>
    exact JSMap.keys_set _ _ _
  | transferOwnership c a b ptx now =>
    show (t.transferOwnership c a b ptx now).2.contentRegistry.keys = t.contentRegistry.keys
    unfold ERC8004Tracker.transferOwnership
    cases hget : t.contentRegistry.get c with
    | none => rfl
    | some content =>
      by_cases hown : content.owner = a
      · simp only [hown, ne_eq, not_true_eq_false, if_false]
        rw [JSMap.keys_set]
        exact addNew_of_mem _ _ (JSMap.mem_keys_of_get_eq_some _ _ _ hget)
      · simp [hown]
  | addMetadata c key value => rfl

theorem keys_run (ops : List TrackerOp) :
    ∀ t : ERC8004Tracker,
      (TrackerOp.run t ops).contentRegistry.keys
        = (ops.filterMap TrackerOp.registeredId).foldl addNew t.contentRegistry.keys := by
  induction ops with
  | nil => intro t; rfl
  | cons op rest ih =>
    intro t
    have h := ih (TrackerOp.apply t op)
    rw [keys_apply] at h
    simp only [TrackerOp.run, List.foldl_cons] at h ⊢
    rw [h]
    cases hid : op.registeredId with
    | none => simp [List.filterMap_cons, hid]
    | some id => simp [List.filterMap_cons, hid]

theorem registryKeyed_apply {t : ERC8004Tracker} (h : RegistryKeyed t) (op : TrackerOp) :
    RegistryKeyed (TrackerOp.apply t op) := by
  constructor
  · rw [keys_apply]
    cases op.registeredId with
    | none => exact h.1
    | some id => exact addNew_nodup _ _ h.1
  · cases op with
    | registerContent c owner ct model prompt ptx t1 t2 =>
      intro p hp
      rcases JSMap.mem_of_mem_set _ _ _ _ hp with hp | hp
      · exact h.2 p hp
      · rw [hp]; exact ⟨rfl, rfl⟩
    | transferOwnership c a b ptx now =>
      show ∀ p ∈ (t.transferOwnership c a b ptx now).2.contentRegistry, _
      unfold ERC8004Tracker.transferOwnership
      cases hget : t.contentRegistry.get c with
      | none => exact h.2
      | some content =>
        by_cases hown : content.owner = a
        · simp only [hown, ne_eq, not_true_eq_false, if_false]
          intro p hp
          rcases JSMap.mem_of_mem_set _ _ _ _ hp with hp | hp
          · exact h.2 p hp
          · rw [hp]
            exact h.2 (c, content) (JSMap.mem_of_get_eq_some _ _ _ hget)
        · simpa [hown] using h.2
    | addMetadata c key value => exact h.2

theorem registryKeyed_run (ops : List TrackerOp) :
    ∀ t : ERC8004Tracker, RegistryKeyed t → RegistryKeyed (TrackerOp.run t ops) := by
  induction ops with
  | nil => intro t h; exact h
  | cons op rest ih =>
    intro t h
    exact ih _ (registryKeyed_apply h op)

theorem registryKeyed_new : RegistryKeyed ERC8004Tracker.new := by
  constructor
  · simp [ERC8004Tracker.new, JSMap.keys]
  · intro p hp
    simp [ERC8004Tracker.new] at hp

/-- The records of a well-keyed registry carry the keys as ids, in the same order. -/
theorem ids_eq_keys_of_keyed {t : ERC8004Tracker} (h : RegistryKeyed t) :
    t.contentRegistry.values.map ContentRecord.id = t.contentRegistry.keys := by
  unfold JSMap.values JSMap.keys
  rw [List.map_map]
  apply List.map_congr_left
  intro p hp
  exact (h.2 p hp).1

/-- C21: for every registry state and owner `o`, `getOwnedContent(o)` returns exactly the
stored records whose owner is `o` and whose status is `active`, each once and in the order
of the registry.  In every state reached from a new `ERC8004Tracker` the registry holds
the content ids in registration order (the order in which the ids were first registered),
each record under its id, all of them active, so the returned records are those owned by
`o`, without repetition, in registration order.  After a successful
`transferOwnership(c, a, b)` with `a` different from `b`, the record of `c` is in
`getOwnedContent(b)` and no record of `c` is in `getOwnedContent(a)`. -/
theorem getOwnedContent_in_registration_order :
    (∀ (t : ERC8004Tracker) (o : String),
      List.Sublist (t.getOwnedContent o) t.contentRegistry.values ∧
      ∀ r, r ∈ t.getOwnedContent o ↔
        r ∈ t.contentRegistry.values ∧ r.owner = o ∧ r.status = "active") ∧
    (∀ (ops : List TrackerOp) (o : String),
      (TrackerOp.run ERC8004Tracker.new ops).contentRegistry.keys = registrationOrder ops ∧
      (TrackerOp.run ERC8004Tracker.new ops).contentRegistry.values.map ContentRecord.id
        = registrationOrder ops ∧
      List.Sublist
        (((TrackerOp.run ERC8004Tracker.new ops).getOwnedContent o).map ContentRecord.id)
        (registrationOrder ops) ∧
      ((TrackerOp.run ERC8004Tracker.new ops).getOwnedContent o).Nodup ∧
      ∀ r, r ∈ (TrackerOp.run ERC8004Tracker.new ops).getOwnedContent o ↔
        r ∈ (TrackerOp.run ERC8004Tracker.new ops).contentRegistry.values ∧ r.owner = o) ∧
    (∀ (ops : List TrackerOp) (c a b : String) (ptx : Option String) (now : Nat),
      a ≠ b →
      ((TrackerOp.run ERC8004Tracker.new ops).transferOwnership c a b ptx now).1
        = Except.ok true →
      ∃ r : ContentRecord,
        ((TrackerOp.run ERC8004Tracker.new ops).transferOwnership c a b ptx
            now).2.contentRegistry.get c = some r ∧
        r ∈ ((TrackerOp.run ERC8004Tracker.new ops).transferOwnership c a b ptx
            now).2.getOwnedContent b ∧
        r ∉ ((TrackerOp.run ERC8004Tracker.new ops).transferOwnership c a b ptx
            now).2.getOwnedContent a ∧
        ∀ r' ∈ ((TrackerOp.run ERC8004Tracker.new ops).transferOwnership c a b ptx
            now).2.getOwnedContent a, r'.id ≠ c) := by
  have hmem : ∀ (t : ERC8004Tracker) (o : String) (r : ContentRecord),
      r ∈ t.getOwnedContent o ↔
        r ∈ t.contentRegistry.values ∧ r.owner = o ∧ r.status = "active" := by
    intro t o r
    simp [ERC8004Tracker.getOwnedContent, List.mem_filter]
  have hvalues : ∀ (t : ERC8004Tracker) (r : ContentRecord),
      r ∈ t.contentRegistry.values → ∃ k, (k, r) ∈ t.contentRegistry := by
    intro t r hr
    obtain ⟨p, hp, hpr⟩ := List.mem_map.mp hr
    exact ⟨p.1, by rw [← hpr]; exact hp⟩
  refine ⟨?_, ?_, ?_⟩
  · intro t o
    exact ⟨List.filter_sublist _, hmem t o⟩
  · intro ops o
    have hkeyed := registryKeyed_run ops _ registryKeyed_new
    have hkeys : (TrackerOp.run ERC8004Tracker.new ops).contentRegistry.keys
        = registrationOrder ops := keys_run ops ERC8004Tracker.new
    have hids := ids_eq_keys_of_keyed hkeyed
    have hsub : List.Sublist ((TrackerOp.run ERC8004Tracker.new ops).getOwnedContent o)
        (TrackerOp.run ERC8004Tracker.new ops).contentRegistry.values := List.filter_sublist _
    have hnodup : ((TrackerOp.run ERC8004Tracker.new ops).contentRegistry.values.map
        ContentRecord.id).Nodup := by rw [hids]; exact hkeyed.1
    refine ⟨hkeys, hids.trans hkeys, ?_, ?_, ?_⟩
    · rw [← hkeys, ← hids]
      exact hsub.map _
    · exact (List.Nodup.of_map _ hnodup).sublist hsub
    · intro r
      rw [hmem]
      constructor
      · intro h; exact ⟨h.1, h.2.1⟩
      · intro h
        obtain ⟨k, hk⟩ := hvalues _ r h.1
        exact ⟨h.1, h.2, (hkeyed.2 (k, r) hk).2⟩
  · intro ops c a b ptx now hne hok
    have hkeyed : RegistryKeyed
        ((TrackerOp.run ERC8004Tracker.new ops).transferOwnership c a b ptx now).2 :=
      registryKeyed_apply (registryKeyed_run ops _ registryKeyed_new)
        (TrackerOp.transferOwnership c a b ptx now)
    cases hget : (TrackerOp.run ERC8004Tracker.new ops).contentRegistry.get c with
    | none => simp [ERC8004Tracker.transferOwnership, hget] at hok
    | some record =>
      by_cases hown : record.owner = a
      · have hreg' : ((TrackerOp.run ERC8004Tracker.new ops).transferOwnership c a b ptx
            now).2.contentRegistry.get c = some { record with owner := b } := by
          simp [ERC8004Tracker.transferOwnership, hget, hown, JSMap.get_set_self]
        have hin := JSMap.mem_of_get_eq_some _ _ _ hreg'
        have hval : ({ record with owner := b } : ContentRecord)
            ∈ ((TrackerOp.run ERC8004Tracker.new ops).transferOwnership c a b ptx
              now).2.contentRegistry.values :=
          List.mem_map.mpr ⟨_, hin, rfl⟩
        refine ⟨_, hreg', ?_, ?_, ?_⟩
        · exact (hmem _ _ _).mpr ⟨hval, rfl, (hkeyed.2 _ hin).2⟩
        · intro hmem_a
          exact hne ((hmem _ _ _).mp hmem_a).2.1.symm
        · intro r' hr' hid
          obtain ⟨hr'val, hr'own, _⟩ := (hmem _ _ _).mp hr'
          obtain ⟨k, hk⟩ := hvalues _ r' hr'val
          have hkc : k = c := ((hkeyed.2 (k, r') hk).1).symm.trans hid
          rw [hkc] at hk
          have := JSMap.get_of_mem_of_nodup _ c r' hkeyed.1 hk
          rw [hreg'] at this
          have hr'eq : r' = { record with owner := b } := (Option.some.inj this).symm
          rw [hr'eq] at hr'own
          exact hne hr'own.symm
      · simp [ERC8004Tracker.transferOwnership, hget, hown] at hok

/-- Witness for C21: `alice` registers `content_1` and `content_2`, transfers `content_1`
to `bob` and registers `content_1` again; then `bob` receives it from `alice`. -/
theorem getOwnedContent_in_registration_order_witness :
    registrationOrder
        [TrackerOp.registerContent "content_1" "alice" "text-generation" "gpt-4" "a haiku"
            "gmp_1" 100 101,
         TrackerOp.registerContent "content_2" "alice" "image-generation" "dall-e-3" "a cat"
            "gmp_2" 200 201,
         TrackerOp.transferOwnership "content_1" "alice" "bob" none 300,
         TrackerOp.registerContent "content_1" "alice" "text-generation" "gpt-4" "a sonnet"
            "gmp_3" 400 401]
      = ["content_1", "content_2"] ∧
    ("alice" ≠ "bob" ∧
      ((TrackerOp.run ERC8004Tracker.new
          [TrackerOp.registerContent "content_1" "alice" "text-generation" "gpt-4" "a haiku"
            "gmp_1" 100 101]).transferOwnership "content_1" "alice" "bob" none 300).1
        = Except.ok true) ∧
    ∃ r : ContentRecord,
      ((TrackerOp.run ERC8004Tracker.new
          [TrackerOp.registerContent "content_1" "alice" "text-generation" "gpt-4" "a haiku"
            "gmp_1" 100 101]).transferOwnership "content_1" "alice" "bob" none
              300).2.contentRegistry.get "content_1" = some r ∧
      r ∈ ((TrackerOp.run ERC8004Tracker.new
          [TrackerOp.registerContent "content_1" "alice" "text-generation" "gpt-4" "a haiku"
            "gmp_1" 100 101]).transferOwnership "content_1" "alice" "bob" none
              300).2.getOwnedContent "bob" ∧
      r ∉ ((TrackerOp.run ERC8004Tracker.new
          [TrackerOp.registerContent "content_1" "alice" "text-generation" "gpt-4" "a haiku"
            "gmp_1" 100 101]).transferOwnership "content_1" "alice" "bob" none
              300).2.getOwnedContent "alice" ∧
      ∀ r' ∈ ((TrackerOp.run ERC8004Tracker.new
          [TrackerOp.registerContent "content_1" "alice" "text-generation" "gpt-4" "a haiku"
            "gmp_1" 100 101]).transferOwnership "content_1" "alice" "bob" none
              300).2.getOwnedContent "alice", r'.id ≠ "content_1" :=
  ⟨by decide, ⟨by decide, by decide⟩,
    getOwnedContent_in_registration_order.2.2
      [TrackerOp.registerContent "content_1" "alice" "text-generation" "gpt-4" "a haiku"
        "gmp_1" 100 101]
      "content_1" "alice" "bob" none 300 (by decide) (by decide)⟩

/-! ## Ledger conservation -/

/-- C24 fails on the code when a payment names a service type inherited from
`Object.prototype`.  After `initializeUserBalance('user1', 25)` and the single call
`processPayment('user1', 'toString', {})` nothing was added and the one logged transaction
has a function as amount, yet `getBalance('user1')` is 0 (the stored balance is `NaN`):
the balance is not 25 plus the funds added minus the amounts of the history. -/
theorem conservation_broken_by_inherited_key :
    (LedgerOp.run (GMPayer.new.initializeUserBalance "user1" (JSNum.fin 25))
        [LedgerOp.processPayment demoEnv "user1" "toString" []]).getBalance "user1"
      = JSNum.fin 0 ∧
    (LedgerOp.run (GMPayer.new.initializeUserBalance "user1" (JSNum.fin 25))
        [LedgerOp.processPayment demoEnv "user1" "toString" []]).balances
      = [("user1", JSNum.nan)] ∧
    LedgerOp.fundsAdded "user1" [LedgerOp.processPayment demoEnv "user1" "toString" []] = 0 ∧
    (LedgerOp.run (GMPayer.new.initializeUserBalance "user1" (JSNum.fin 25))
        [LedgerOp.processPayment demoEnv "user1" "toString" []]).getTransactionHistory "user1"
      = [Transaction.mk "gmp_1700000000000_k3x9q0z1a" "user1" "toString"
          (JSValue.object "Object.prototype.toString") "completed" 1700000000000 []] ∧
    (LedgerOp.run (GMPayer.new.initializeUserBalance "user1" (JSNum.fin 25))
        [LedgerOp.processPayment demoEnv "user1" "toString" []]).totalSpent "user1" = 0 ∧
    (LedgerOp.run (GMPayer.new.initializeUserBalance "user1" (JSNum.fin 25))
        [LedgerOp.processPayment demoEnv "user1" "toString" []]).getBalance "user1"
      ≠ JSNum.fin
          (25 + LedgerOp.fundsAdded "user1" [LedgerOp.processPayment demoEnv "user1" "toString" []]
            - (LedgerOp.run (GMPayer.new.initializeUserBalance "user1" (JSNum.fin 25))
                [LedgerOp.processPayment demoEnv "user1" "toString" []]).totalSpent "user1") := by
  refine ⟨by decide!, by decide!, by decide!, by decide!, by decide!, by decide!⟩

end ContentTracker
